import Mathlib

/-!
# FarmVision browser scripts: a shallow embedding

Event handlers of `form-handlers.js`, `detection.js`, `mapping.js` and the
documentation site's `main.js` are embedded as pure functions on an explicit
page state.  Every browser effect a
handler performs (an `alert`, a notification, a started `FileReader`, a
`preventDefault`, a DOM removal) is a field of that state, appended to in the
order the handler performs it.  A response body is whatever value
`response.json()` can yield: the handlers read it with the property reads,
method calls and conversions of the source, each of which can throw.
-/

set_option autoImplicit false

namespace FarmVision

/-! ## Shared data -/

/-- A `File` of a file input: the three attributes the scripts read. -/
structure File where
  name : String
  type : String
  size : Nat
deriving DecidableEq, Repr

/-- One call `FarmVision.showNotification(message, type)`. -/
structure Notification where
  message : String
  type : String
deriving DecidableEq, Repr

/-- An `Error` object: the two properties the handlers inspect. -/
structure JSError where
  name : String
  message : String
deriving DecidableEq, Repr

/-- A number as `JSON.parse` yields it: a finite double `mantissa * 2 ^ exponent`
or an infinity (`1e999` parses to `Infinity`); `NaN` is not reachable from JSON. -/
inductive JSNumber where
  | finite (mantissa exponent : Int)
  | infinite (negative : Bool)
deriving DecidableEq, Repr

/-- A value as `response.json()` yields it. -/
inductive Json where
  | null
  | bool (b : Bool)
  | num (x : JSNumber)
  | str (s : String)
  | arr (items : List Json)
  | obj (fields : List (String × Json))

/-- Whether a number is `0` or `-0`. -/
def JSNumber.isZero : JSNumber → Bool
  | .finite m _ => m == 0
  | .infinite _ => false

/-- JavaScript truthiness of a parsed JSON value. -/
def Json.truthy : Json → Bool
  | .null => false
  | .bool b => b
  | .num x => !x.isZero
  | .str s => s != ""
  | .arr _ => true
  | .obj _ => true

/-- Truthiness of a property read: `none` is `undefined`. -/
def truthy : Option Json → Bool
  | none => false
  | some j => j.truthy

/-- Value of an object literal at a key: the last occurrence wins, as in
`JSON.parse`. -/
def lookupField (key : String) : List (String × Json) → Option Json
  | [] => none
  | (k, v) :: rest =>
    match lookupField key rest with
    | some w => some w
    | none => if k = key then some v else none

/-- The property read `value.key` for a key that is not a built-in property
(`success`): a `TypeError` on `null`, `undefined` on every other primitive and
on arrays, the field on objects. -/
def Json.prop (key : String) : Json → Except JSError (Option Json)
  | .null => .error ⟨"TypeError", "Cannot read properties of null"⟩
  | .obj fields => .ok (lookupField key fields)
  | _ => .ok none

/-- The read `value.key` on a value other than `null`, for a key that is not a
built-in property: the field on objects, `undefined` (`none`) on primitives and
arrays. -/
def Json.get (key : String) : Json → Option Json
  | .obj fields => lookupField key fields
  | _ => none

/-- Whether a value is `null`. -/
def Json.isNull : Json → Bool
  | .null => true
  | _ => false

/-- The property read `value.key` where `value` may be `undefined` (`none`): a
`TypeError` on `undefined` and on `null`. -/
def readProp (key : String) : Option Json → Except JSError (Option Json)
  | none => .error ⟨"TypeError", "Cannot read properties of undefined"⟩
  | some value => value.prop key

/-- `haystack.includes(needle)` on strings. -/
def includes (haystack needle : String) : Bool :=
  haystack.toList.tails.any (fun t => needle.toList.isPrefixOf t)

/-! ## Numbers

A finite Number is kept as the exact dyadic value `mantissa * 2 ^ exponent`;
every arithmetic operation computes the exact result and rounds it to the
nearest binary64 value, ties to even.  The sign of a zero is not tracked. -/

/-- The integer nearest to `a / b`, ties to the even one (`b` positive). -/
def divRoundEven (a b : Nat) : Nat :=
  let q := a / b
  let r := a % b
  if 2 * r < b then q
  else if b < 2 * r then q + 1
  else if q % 2 = 0 then q
  else q + 1

/-- Halving `n` until it is below 2, at most `fuel` times: the number of
halvings. -/
def log2Fuel : Nat → Nat → Nat
  | 0, _ => 0
  | fuel + 1, n => if 2 ≤ n then log2Fuel fuel (n / 2) + 1 else 0

/-- The position of the highest set bit of `n`: the `k` with
`2 ^ k ≤ n < 2 ^ (k + 1)` for positive `n`. -/
def bitLog2 (n : Nat) : Nat := log2Fuel n n

/-- The integer `k` with `2 ^ k ≤ a / b < 2 ^ (k + 1)` (`a`, `b` positive). -/
def floorLog2 (a b : Nat) : Int :=
  let l : Int := (bitLog2 a : Int) - (bitLog2 b : Int)
  if b * 2 ^ l.toNat ≤ a * 2 ^ (-l).toNat then l else l - 1

/-- The binary64 value nearest to the rational `a / b` with the given sign:
53 significant bits, exponent of the last place at least -1074, overflow to an
infinity. -/
def roundBinary64 (negative : Bool) (a b : Nat) : JSNumber :=
  if a = 0 then .finite 0 0
  else
    let e := max (floorLog2 a b) (-1022)
    let s := e - 52
    let n := divRoundEven (a * 2 ^ (-s).toNat) (b * 2 ^ s.toNat)
    if 0 ≤ s ∧ 2 ^ 1024 ≤ n * 2 ^ s.toNat then .infinite negative
    else .finite (if negative then -(n : Int) else (n : Int)) s

/-- The exact value of a finite Number (`0` for the infinities, which have
none). -/
def JSNumber.toRat : JSNumber → ℚ
  | .finite m e => (m : ℚ) * (2 : ℚ) ^ e
  | .infinite _ => 0

/-- The operator `/` on Numbers that are not NaN; `none` is NaN. -/
def JSNumber.div : JSNumber → JSNumber → Option JSNumber
  | .finite m1 e1, .finite m2 e2 =>
    if m2 = 0 then
      if m1 = 0 then none else some (.infinite (decide (m1 < 0)))
    else
      some (roundBinary64 (decide (m1 < 0) != decide (m2 < 0))
        (m1.natAbs * 2 ^ (e1 - e2).toNat) (m2.natAbs * 2 ^ (e2 - e1).toNat))
  | .finite _ _, .infinite _ => some (.finite 0 0)
  | .infinite n, .finite m _ => some (.infinite (n != decide (m < 0)))
  | .infinite _, .infinite _ => none

/-- The operator `*` on Numbers that are not NaN; `none` is NaN. -/
def JSNumber.mul : JSNumber → JSNumber → Option JSNumber
  | .finite m1 e1, .finite m2 e2 =>
    some (roundBinary64 (decide (m1 < 0) != decide (m2 < 0))
      (m1.natAbs * m2.natAbs * 2 ^ (e1 + e2).toNat) (2 ^ (-(e1 + e2)).toNat))
  | .finite m _, .infinite n =>
    if m = 0 then none else some (.infinite (n != decide (m < 0)))
  | .infinite n, .finite m _ =>
    if m = 0 then none else some (.infinite (n != decide (m < 0)))
  | .infinite n1, .infinite n2 => some (.infinite (n1 != n2))

/-- The comparison `x >= y` on Numbers that are not NaN. -/
def JSNumber.ge : JSNumber → JSNumber → Bool
  | .finite m1 e1, .finite m2 e2 =>
    decide (m2 * 2 ^ (e2 - e1).toNat ≤ m1 * 2 ^ (e1 - e2).toNat)
  | .finite _ _, .infinite n => n
  | .infinite n, .finite _ _ => !n
  | .infinite n1, .infinite n2 => !n1 || n2

/-- The comparison `x < y` on Numbers that are not NaN. -/
def JSNumber.lt : JSNumber → JSNumber → Bool
  | .finite m1 e1, .finite m2 e2 =>
    decide (m1 * 2 ^ (e1 - e2).toNat < m2 * 2 ^ (e2 - e1).toNat)
  | .finite _ _, .infinite n => !n
  | .infinite n, .finite _ _ => n
  | .infinite n1, .infinite n2 => n1 && !n2

/-- The operator `/` on Number values, NaN (`none`) included. -/
def numDiv (x y : Option JSNumber) : Option JSNumber :=
  x.bind (fun a => y.bind (fun b => a.div b))

/-- The operator `*` on Number values, NaN (`none`) included. -/
def numMul (x y : Option JSNumber) : Option JSNumber :=
  x.bind (fun a => y.bind (fun b => a.mul b))

/-- The comparison `x >= y` on Number values: false when either is NaN. -/
def numGe : Option JSNumber → Option JSNumber → Bool
  | some a, some b => a.ge b
  | _, _ => false

/-- The comparison `x < y` on Number values: false when either is NaN. -/
def numLt : Option JSNumber → Option JSNumber → Bool
  | some a, some b => a.lt b
  | _, _ => false

/-- The integer nearest to `|mantissa * 2 ^ exponent| * 10 ^ digits`, the larger
one on a tie: the `n` of `Number.prototype.toFixed`. -/
def scaledRound (digits : Nat) (mantissa exponent : Int) : Nat :=
  let a := mantissa.natAbs * 10 ^ digits * 2 ^ exponent.toNat
  let b := 2 ^ (-exponent).toNat
  (2 * a + b) / (2 * b)

/-- The decimal digits of `n` with a point before the last `digits` of them,
padded with zeros on the left to at least one digit before the point. -/
def fixedDigits (digits n : Nat) : String :=
  let m := (toString n).toList
  let m := List.replicate (digits + 1 - m.length) '0' ++ m
  if digits = 0 then String.mk m
  else String.mk (m.take (m.length - digits) ++ '.' :: m.drop (m.length - digits))

/-- Text of a Number in a template: computed where the script fixes the format,
kept as the value where `ToString` applies (magnitude at least `1e21`). -/
inductive NumberText where
  | plain (text : String)
  | general (x : JSNumber)
deriving DecidableEq, Repr

/-- The method `x.toFixed(digits)` for `digits` from 0 to 100; `none` is NaN. -/
def toFixed (digits : Nat) : Option JSNumber → NumberText
  | none => .plain "NaN"
  | some (.infinite negative) => .plain (if negative then "-Infinity" else "Infinity")
  | some (.finite m e) =>
    if 10 ^ 21 * 2 ^ (-e).toNat ≤ m.natAbs * 2 ^ e.toNat then .general (.finite m e)
    else .plain ((if m < 0 then "-" else "") ++ fixedDigits digits (scaledRound digits m e))

/-- The characters `parseFloat` skips at the start: WhiteSpace and
LineTerminator of ECMAScript. -/
def isStrWhiteSpace (c : Char) : Bool :=
  [0x9, 0xA, 0xB, 0xC, 0xD, 0x20, 0xA0, 0x1680, 0x2028, 0x2029, 0x202F, 0x205F, 0x3000,
      0xFEFF].contains c.toNat ||
    (0x2000 ≤ c.toNat && c.toNat ≤ 0x200A)

/-- The number a run of decimal digits writes. -/
def digitsValue (ds : List Char) : Nat :=
  ds.foldl (fun n c => 10 * n + (c.toNat - 48)) 0

/-- The value of the ExponentPart at the start of `rest`, `0` when there is
none: `e` or `E`, an optional sign, at least one digit. -/
def parseExponent (rest : List Char) : Int :=
  match rest with
  | [] => 0
  | c :: r =>
    if c = 'e' ∨ c = 'E' then
      match r with
      | '+' :: r2 => (digitsValue (r2.takeWhile Char.isDigit) : Int)
      | '-' :: r2 => -(digitsValue (r2.takeWhile Char.isDigit) : Int)
      | _ => (digitsValue (r.takeWhile Char.isDigit) : Int)
    else 0

/-- The longest prefix that is a StrUnsignedDecimalLiteral, as a Number;
`none` (NaN) when there is no such prefix. -/
def parseUnsigned (negative : Bool) (cs : List Char) : Option JSNumber :=
  if "Infinity".toList.isPrefixOf cs then some (.infinite negative)
  else
    let intDigits := cs.takeWhile Char.isDigit
    let rest := cs.dropWhile Char.isDigit
    let fracDigits :=
      match rest with
      | '.' :: r => r.takeWhile Char.isDigit
      | _ => []
    let rest2 :=
      match rest with
      | '.' :: r => r.dropWhile Char.isDigit
      | _ => rest
    if intDigits = [] ∧ fracDigits = [] then none
    else
      let exp : Int := parseExponent rest2 - (fracDigits.length : Int)
      some (roundBinary64 negative
        (digitsValue (intDigits ++ fracDigits) * 10 ^ exp.toNat) (10 ^ (-exp).toNat))

/-- The global function `parseFloat(string)`; `none` is NaN. -/
def parseFloat (s : String) : Option JSNumber :=
  match s.toList.dropWhile isStrWhiteSpace with
  | '+' :: r => parseUnsigned false r
  | '-' :: r => parseUnsigned true r
  | cs => parseUnsigned false cs

/-- The text without the StrWhiteSpace at its two ends. -/
def trimWhiteSpace (cs : List Char) : List Char :=
  ((cs.dropWhile isStrWhiteSpace).reverse.dropWhile isStrWhiteSpace).reverse

/-- The value of a character as a digit of the radix (2, 8 or 16), `none` when
it is not one. -/
def radixDigit (radix : Nat) (c : Char) : Option Nat :=
  let d :=
    if c.isDigit then c.toNat - 48
    else if 97 ≤ c.toNat ∧ c.toNat ≤ 102 then c.toNat - 87
    else if 65 ≤ c.toNat ∧ c.toNat ≤ 70 then c.toNat - 55
    else radix
  if d < radix then some d else none

/-- The integer a non-empty run of digits of the radix writes, `none` for an
empty run or a character that is not such a digit. -/
def radixValue (radix : Nat) (ds : List Char) : Option Nat :=
  if ds = [] then none
  else ds.foldl (fun acc c => acc.bind (fun n => (radixDigit radix c).map (fun d => radix * n + d)))
    (some 0)

/-- The value of `rest` read as an optional ExponentPart with nothing after it:
`0` for the empty text, `none` when `rest` is anything else than `e` or `E`, an
optional sign and at least one digit. -/
def exponentPart (rest : List Char) : Option Int :=
  match rest with
  | [] => some 0
  | c :: r =>
    if c = 'e' ∨ c = 'E' then
      let negative := r.head? = some '-'
      let ds :=
        match r with
        | '+' :: r2 => r2
        | '-' :: r2 => r2
        | _ => r
      if ds ≠ [] ∧ ds.all Char.isDigit = true then
        some (if negative then -(digitsValue ds : Int) else (digitsValue ds : Int))
      else none
    else none

/-- The Number a whole StrUnsignedDecimalLiteral writes: `Infinity`, or digits
with an optional point and an optional exponent; `none` (NaN) for any other
text. -/
def strUnsignedDecimal (negative : Bool) (cs : List Char) : Option JSNumber :=
  if cs = "Infinity".toList then some (.infinite negative)
  else
    let intDigits := cs.takeWhile Char.isDigit
    let rest := cs.dropWhile Char.isDigit
    let fracDigits :=
      match rest with
      | '.' :: r => r.takeWhile Char.isDigit
      | _ => []
    let rest2 :=
      match rest with
      | '.' :: r => r.dropWhile Char.isDigit
      | _ => rest
    if intDigits = [] ∧ fracDigits = [] then none
    else
      match exponentPart rest2 with
      | none => none
      | some e =>
        let exp : Int := e - (fracDigits.length : Int)
        some (roundBinary64 negative
          (digitsValue (intDigits ++ fracDigits) * 10 ^ exp.toNat) (10 ^ (-exp).toNat))

/-- The conversion of a string to a Number (`Number(text)`, `text / 1`): white
space at the ends is dropped, the empty text is `0`, then the whole text has to
be a binary, octal or hexadecimal integer or a signed decimal literal; `none`
is NaN. -/
def stringToNumber (s : String) : Option JSNumber :=
  match trimWhiteSpace s.toList with
  | [] => some (.finite 0 0)
  | '0' :: 'x' :: ds => (radixValue 16 ds).map (fun n => roundBinary64 false n 1)
  | '0' :: 'X' :: ds => (radixValue 16 ds).map (fun n => roundBinary64 false n 1)
  | '0' :: 'o' :: ds => (radixValue 8 ds).map (fun n => roundBinary64 false n 1)
  | '0' :: 'O' :: ds => (radixValue 8 ds).map (fun n => roundBinary64 false n 1)
  | '0' :: 'b' :: ds => (radixValue 2 ds).map (fun n => roundBinary64 false n 1)
  | '0' :: 'B' :: ds => (radixValue 2 ds).map (fun n => roundBinary64 false n 1)
  | '+' :: r => strUnsignedDecimal false r
  | '-' :: r => strUnsignedDecimal true r
  | cs => strUnsignedDecimal false cs

mutual
/-- Whether the conversion of a parsed JSON value to a primitive or a string
(`${value}`, `value / 1`, `new Date(value)`) returns.  It throws a `TypeError`
on an object with an own `toString` property, which no parsed value can make
callable and which hides `Object.prototype.toString`; an array converts through
`join`, which converts its elements. -/
def Json.stringifies : Json → Bool
  | .obj fields => (lookupField "toString" fields).isNone
  | .arr items => stringifiesAll items
  | _ => true
/-- Whether every element converts to a string. -/
def stringifiesAll : List Json → Bool
  | [] => true
  | x :: xs => x.stringifies && stringifiesAll xs
end

mutual
/-- Whether the call `value.toLocaleString(...)` on a parsed JSON value
returns: `null` has no properties; an object needs its inherited
`toLocaleString`, which calls `toString`, so it throws on an own property of
either name; an array calls the method on its elements other than `null`;
numbers, strings and booleans have the method. -/
def Json.localizes : Json → Bool
  | .null => false
  | .obj fields =>
    (lookupField "toLocaleString" fields).isNone && (lookupField "toString" fields).isNone
  | .arr items => localizesAll items
  | _ => true
/-- Whether `toLocaleString` returns on every element other than `null`. -/
def localizesAll : List Json → Bool
  | [] => true
  | x :: xs => (x.isNull || x.localizes) && localizesAll xs
end

mutual
/-- The Number a parsed JSON value converts to where that conversion returns
(`Json.stringifies`); `none` is NaN.  An array converts through the text `join`
gives: `0` for the empty text of `[]`, NaN for two or more elements (the text
holds a comma), and for one element the Number its text converts to. -/
def Json.toNumber : Json → Option JSNumber
  | .null => some (.finite 0 0)
  | .bool b => some (.finite (if b then 1 else 0) 0)
  | .num x => some x
  | .str s => stringToNumber s
  | .arr items => itemsToNumber items
  | .obj _ => none
/-- The Number the text of `items.join(',')` converts to.  A single element
contributes the empty text when it is `null`, `true` or `false` for a boolean,
`[object Object]` for an object, and for a Number the text that converts back to
the same Number. -/
def itemsToNumber : List Json → Option JSNumber
  | [] => some (.finite 0 0)
  | x :: rest =>
    if rest.isEmpty then
      match x with
      | .null => some (.finite 0 0)
      | .bool _ => none
      | other => other.toNumber
    else none
end

/-- The names every object literal inherits from `Object.prototype`. -/
def objectPrototypeKeys : List String :=
  ["constructor", "hasOwnProperty", "isPrototypeOf", "propertyIsEnumerable",
    "toLocaleString", "toString", "valueOf", "__proto__", "__defineGetter__",
    "__defineSetter__", "__lookupGetter__", "__lookupSetter__"]

/-- The result of `table[key]` on an object literal: an own entry, a member
inherited from `Object.prototype` (an object or function, truthy), or
`undefined`. -/
inductive Property (α : Type) where
  | own (value : α)
  | inherited
  | absent

/-- The read `table[key]` on an object literal with the given own entries. -/
def getProperty {α : Type} (table : List (String × α)) (key : String) : Property α :=
  match table.lookup key with
  | some v => .own v
  | none => if objectPrototypeKeys.contains key then .inherited else .absent

/-- The method `text.split(separator)` for a one-character separator. -/
def splitOn (separator : Char) : List Char → List (List Char)
  | [] => [[]]
  | c :: cs =>
    if c = separator then [] :: splitOn separator cs
    else
      match splitOn separator cs with
      | [] => [[c]]
      | piece :: pieces => (c :: piece) :: pieces

/-! ## form-handlers.js -/

namespace FormHandlers

/-- `MAX_FILE_SIZE = 10 * 1024 * 1024`. -/
def MAX_FILE_SIZE : Nat := 10 * 1024 * 1024

/-- `ALLOWED_TYPES = ['image/jpeg', 'image/png', 'image/tiff']`. -/
def ALLOWED_TYPES : List String := ["image/jpeg", "image/png", "image/tiff"]

/-- Alert text of the type check. -/
def typeAlert : String :=
  "Geçersiz dosya formatı. Sadece JPEG, PNG ve TIFF formatları kabul edilir."

/-- Alert text of the size check. -/
def sizeAlert : String := "Dosya boyutu çok büyük. Maksimum 10MB yüklenebilir."

/-- The state `loadFile` acts on: `event.target` (its `files`, which is `none`
when the property is null or undefined, and its `value`), the alerts shown so
far and the files handed to `reader.readAsDataURL` so far. -/
structure State where
  files : Option (List File)
  value : String
  alerts : List String
  reads : List File
deriving DecidableEq, Repr

/-- The assignment `event.target.value = ''`.  On a file input the browser
empties the selected-file list together with the value. -/
def clearInput (s : State) : State :=
  { s with value := "", files := s.files.map (fun _ => []) }

/-- The handler `loadFile(event)`, up to and including `readAsDataURL`. -/
def loadFile (s : State) : State :=
  match s.files with
  | none => s
  | some [] => s
  | some (file :: _) =>
    -- `ALLOWED_TYPES.indexOf(file.type) === -1`: `List.indexOf` answers the
    -- length of the list where JavaScript answers -1
    if ALLOWED_TYPES.indexOf file.type = ALLOWED_TYPES.length then
      clearInput { s with alerts := s.alerts ++ [typeAlert] }
    else if file.size > MAX_FILE_SIZE then
      clearInput { s with alerts := s.alerts ++ [sizeAlert] }
    else
      { s with reads := s.reads ++ [file] }

end FormHandlers

/-! ## detection.js: the fruit-detection form -/

namespace Detection

/-- A button as far as the scripts touch it. -/
structure Button where
  disabled : Bool
  innerHTML : String
deriving DecidableEq, Repr

/-- The page around `#fruitDetectionForm` during one `submit` event.
`files` and `value` belong to the input `#image`; `progressDisplay` is
`style.display` of `#progressContainer` (`none`: no such element); `submitBtn`
is the first `button[type="submit"]` (`none`: no such element);
`restoreSubmitButton` is the button state the handle stored in
`window.restoreSubmitButton` restores; `progressCalls` counts the calls of
`showDetectionProgress`. -/
structure Page where
  files : List File
  value : String
  defaultPrevented : Bool
  notifications : List Notification
  progressDisplay : Option String
  submitBtn : Option Button
  restoreSubmitButton : Option Button
  progressCalls : Nat
deriving DecidableEq, Repr

/-- `e.preventDefault()`. -/
def preventDefault (p : Page) : Page := { p with defaultPrevented := true }

/-- `FarmVision.showNotification(message, type)`. -/
def showNotification (message type : String) (p : Page) : Page :=
  { p with notifications := p.notifications ++ [⟨message, type⟩] }

/-- The function `showDetectionProgress()`.  `FarmVision.showLoadingSpinner` is
not among the sources: `spinner` is the button state it leaves behind, and the
handle it returns restores the state the button had before. -/
def showDetectionProgress (spinner : Button → Button) (p : Page) : Page :=
  let p := { p with progressCalls := p.progressCalls + 1 }
  let p :=
    match p.progressDisplay with
    | some _ => { p with progressDisplay := some "block" }
    | none => p
  match p.submitBtn with
  | some b => { p with submitBtn := some (spinner b), restoreSubmitButton := some b }
  | none => p

/-- `allowedTypes` of the fruit-detection handler. -/
def allowedTypes : List String := ["image/jpeg", "image/jpg", "image/png"]

/-- `maxSize = 100 * 1024 * 1024`. -/
def maxSize : Nat := 100 * 1024 * 1024

/-- Message of the missing-file branch. -/
def noFileMessage : String := "Lütfen bir görüntü dosyası seçin."

/-- Message of the type check. -/
def typeMessage : String :=
  "Desteklenmeyen dosya formatı. Lütfen JPG, JPEG veya PNG dosyası seçin."

/-- Message of the size check. -/
def sizeMessage : String := "Dosya boyutu çok büyük. Maksimum 100MB olabilir."

/-- The `submit` listener of `#fruitDetectionForm`. -/
def fruitSubmit (spinner : Button → Button) (p : Page) : Page :=
  match p.files.head? with
  | none => showNotification noFileMessage "warning" (preventDefault p)
  | some file =>
    if !allowedTypes.contains file.type then
      showNotification typeMessage "error" (preventDefault p)
    else if file.size > maxSize then
      showNotification sizeMessage "error" (preventDefault p)
    else
      showDetectionProgress spinner p

/-! ## detection.js: deleting a detection -/

/-- A `tr` element: its `data-detection-id` attribute (`none`: attribute
absent) and the rest of its markup. -/
structure Row where
  detectionId : Option String
  html : String
deriving DecidableEq, Repr

/-- One call of `fetch`. -/
structure Request where
  method : String
  url : String
deriving DecidableEq, Repr

/-- The page `deleteDetection` acts on: the `tr` elements of the document in
document order, the notifications shown, the requests issued and the number of
`console.error` calls. -/
structure TablePage where
  rows : List Row
  notifications : List Notification
  requests : List Request
  consoleErrors : Nat
deriving DecidableEq, Repr

/-- What the network does with the DELETE request: `fetch` rejects, or it
resolves and `response.json()` either rejects or yields a value. -/
inductive DeleteOutcome where
  | rejected (error : JSError)
  | responded (body : Except JSError Json)

/-- `FarmVision.showNotification(message, type)` on the table page. -/
def notify (message type : String) (p : TablePage) : TablePage :=
  { p with notifications := p.notifications ++ [⟨message, type⟩] }

/-- Whether `tr[data-detection-id="${detectionId}"]` selects the row, for a
numeric record id (its decimal rendering needs no escaping in the selector). -/
def matchesId (detectionId : Nat) (r : Row) : Bool :=
  r.detectionId == some (toString detectionId)

/-- `const row = document.querySelector(...); if (row) row.remove();`: the first
matching row in document order leaves the document. -/
def removeRow (detectionId : Nat) : List Row → List Row
  | [] => []
  | r :: rest => if matchesId detectionId r then rest else r :: removeRow detectionId rest

/-- The `.then(data => ...)` callback of `deleteDetection`.  It throws only at
the read of `data.success`, before any effect. -/
def onDeleteData (detectionId : Nat) (data : Json) (p : TablePage) :
    Except JSError TablePage :=
  match data.prop "success" with
  | .error e => .error e
  | .ok success =>
    if truthy success then
      let p := notify "Tespit sonucu silindi." "success" p
      .ok { p with rows := removeRow detectionId p.rows }
    else
      .ok (notify "Silme işlemi başarısız oldu." "error" p)

/-- The `.catch(error => ...)` callback of `deleteDetection`. -/
def onDeleteError (p : TablePage) : TablePage :=
  notify "Bir hata oluştu." "error" { p with consoleErrors := p.consoleErrors + 1 }

/-- The function `window.deleteDetection(detectionId)` run to the settlement of
its promise chain; `confirmed` is the answer to the `confirm` dialog. -/
def deleteDetection (confirmed : Bool) (net : DeleteOutcome) (detectionId : Nat)
    (p : TablePage) : TablePage :=
  if confirmed then
    let p := { p with requests :=
      p.requests ++ [⟨"DELETE", "/detection/delete/" ++ toString detectionId⟩] }
    match net with
    | .rejected _ => onDeleteError p
    | .responded (.error _) => onDeleteError p
    | .responded (.ok data) =>
      match onDeleteData detectionId data p with
      | .ok q => q
      | .error _ => onDeleteError p
  else p

/-! ## detection.js: image preview and file info -/

/-- The `.file-info` element next to a file input. -/
inductive InfoContainer where
  | empty
  | info (name badge size : String)
deriving DecidableEq, Repr

/-- The page around an image file input during one `change` event: the files
of `e.target`, the files handed to `readAsDataURL` by `createImagePreview`, and
the `.file-info` element under the input's parent (`none`: no such element). -/
structure PreviewState where
  files : List File
  reads : List File
  fileInfo : Option InfoContainer
deriving DecidableEq, Repr

/-- The function `createImagePreview(file, input)` up to `readAsDataURL`. -/
def createImagePreview (file : File) (st : PreviewState) : PreviewState :=
  { st with reads := st.reads ++ [file] }

/-- The function `showFileInfo(file, input)`: the page it leaves and the error
it throws, if any.  `FarmVision.formatFileSize` is not among the sources and is
a parameter.  `file.type` is an ASCII string, on which `toUpperCase` maps the
letters a to z to A to Z. -/
def showFileInfo (formatFileSize : Nat → String) (file : File) (st : PreviewState) :
    PreviewState × Option JSError :=
  let st :=
    match st.fileInfo with
    | none => { st with fileInfo := some .empty }
    | some _ => st
  -- file.type.split('/')[1].toUpperCase()
  match (splitOn '/' file.type.toList)[1]? with
  | none => (st, some ⟨"TypeError", "Cannot read properties of undefined"⟩)
  | some subtype =>
    let badge := String.mk (subtype.map Char.toUpper)
    ({ st with fileInfo := some (.info file.name badge (formatFileSize file.size)) }, none)

/-- The `change` listener of the image file inputs. -/
def onImageChange (formatFileSize : Nat → String) (st : PreviewState) :
    PreviewState × Option JSError :=
  match st.files.head? with
  | none => (st, none)
  | some file => showFileInfo formatFileSize file (createImagePreview file st)

/-! ## detection.js: the leaf and tree forms -/

/-- Message of the missing-file branch of the leaf form. -/
def noLeafMessage : String := "Lütfen bir yaprak görüntüsü seçin."

/-- The `submit` listener of `#leafDetectionForm`. -/
def leafSubmit (spinner : Button → Button) (p : Page) : Page :=
  match p.files.head? with
  | none => showNotification noLeafMessage "warning" (preventDefault p)
  | some _ => showDetectionProgress spinner p

/-- The `submit` listener of `#treeDetectionForm`. -/
def treeSubmit (spinner : Button → Button) (p : Page) : Page :=
  match p.files.head? with
  | none => showNotification noFileMessage "warning" (preventDefault p)
  | some _ => showDetectionProgress spinner p

/-! ## detection.js: batch processing -/

/-- The value of `progressBar.style.width`: text the batch code did not compute,
or the Number `percentage` followed by `%` (`none`: NaN). -/
inductive BarWidth where
  | css (text : String)
  | percent (percentage : Option JSNumber)
deriving DecidableEq, Repr

/-- The batch page during one run of `processBatchImages`: the files of
`#batchImages`, `style.display` of `#batchProgress`, width and text of its
progress bar, the notifications shown, the variables `processed` and `total` of
the run, whether its interval is still set, and the number of pending 2000 ms
timers that hide the bar. -/
structure BatchPage where
  files : List File
  display : String
  barWidth : BarWidth
  barText : String
  notifications : List Notification
  processed : Nat
  total : Nat
  interval : Bool
  hideTimers : Nat
deriving DecidableEq, Repr

/-- The function `processBatchImages()` up to `setInterval`. -/
def processBatchImages (p : BatchPage) : BatchPage :=
  if p.files.length = 0 then
    { p with notifications := p.notifications ++
        [⟨"Lütfen en az bir görüntü seçin.", "warning"⟩] }
  else
    { p with display := "block", processed := 0, total := p.files.length, interval := true }

/-- One firing of the 1000 ms interval; a cleared interval does not fire. -/
def tick (p : BatchPage) : BatchPage :=
  if p.interval then
    let processed := p.processed + 1
    let percentage :=
      numMul ((JSNumber.finite processed 0).div (.finite p.total 0)) (some (.finite 100 0))
    let p := { p with
      processed := processed,
      barWidth := .percent percentage,
      barText := toString processed ++ "/" ++ toString p.total ++ " işlendi" }
    if processed ≥ p.total then
      { p with
        interval := false,
        notifications := p.notifications ++
          [⟨toString p.total ++ " görüntü başarıyla işlendi.", "success"⟩],
        hideTimers := p.hideTimers + 1 }
    else p
  else p

/-- The callback of the 2000 ms timer set at the last tick. -/
def hideTimerFired (p : BatchPage) : BatchPage :=
  { p with display := "none", barWidth := .css "0%", hideTimers := p.hideTimers - 1 }

end Detection

/-! ## mapping.js: the analysis overlay loader -/

namespace Mapping

/-- The layer `L.imageOverlay(url, bounds, options)` builds. -/
structure Overlay where
  url : Json
  bounds : Json
  opacity : ℚ
  title : Option Json
  errorOverlayUrl : String

/-- How the race of `fetchWithTimeout` and the response turn out: the timer
rejects first, `fetch` rejects first, or a response arrives whose
`response.json()` rejects or yields the parsed body. -/
inductive FetchResult where
  | timedOut
  | failed (error : JSError)
  | response (ok : Bool) (status : Nat) (body : Except JSError Json)

/-- What the page gives the loader: whether `window.logError` is a function,
and for which records the `try` block around `L.imageOverlay` throws (with the
message of the error). -/
structure Env where
  hasLogError : Bool
  overlayError : Json → Option String

/-- An element of the map page: its id, class and content. -/
structure Element where
  id : String
  className : String
  innerHTML : String
deriving DecidableEq, Repr

/-- The map page.  When the map container is in the document, `preceding` lists
the elements of the document, in document order, up to the last descendant of
the container, and `following` the elements after it; a child appended to the
container comes between the two.  When the container is not in the document,
the two lists are the document and `detached` is the content of the container.
The other fields are the layer groups handed to a layers control on the map, the
notifications shown, the number of pending 2000 ms success timers and the
`window.logError` calls. -/
structure MapState where
  containerInDocument : Bool
  preceding : List Element
  following : List Element
  detached : List Element
  layerControls : List (List Overlay)
  notifications : List Notification
  successTimers : Nat
  logged : List (String × String)

/-- The element `loadAnalysisOverlays` creates at its start. -/
def loadingIndicator : Element :=
  { id := "map-loading", className := "map-loading-indicator",
    innerHTML := "<i class=\"fas fa-spinner fa-spin\"></i> Analizler yükleniyor..." }

/-- The call `map.getContainer().appendChild(loadingIndicator)`. -/
def appendLoadingIndicator (s : MapState) : MapState :=
  if s.containerInDocument then { s with preceding := s.preceding ++ [loadingIndicator] }
  else { s with detached := s.detached ++ [loadingIndicator] }

/-- The elements without the first one that has the given id. -/
def removeFirstWithId (id : String) : List Element → List Element
  | [] => []
  | e :: rest => if e.id = id then rest else e :: removeFirstWithId id rest

/-- `window.logError(label, detail)` when the hook is defined. -/
def logError (env : Env) (label detail : String) (logged : List (String × String)) :
    List (String × String) :=
  if env.hasLogError then logged ++ [(label, detail)] else logged

/-- The overlay of a record that passed the `bounds && result_path` test. -/
def mkOverlay (url bounds : Json) (a : Json) : Overlay :=
  { url := url, bounds := bounds, opacity := 0.7, title := a.get "algorithm",
    errorOverlayUrl := "/static/images/overlay-error.png" }

/-- The callback of `data.analyses.forEach(analysis => ...)` on one element of
the array; the state is the layer group and the log.  The read
`analysis.bounds` is outside the `try` block and throws on `null`. -/
def addAnalysis (env : Env) (st : List Overlay × List (String × String)) (a : Json) :
    Except JSError (List Overlay × List (String × String)) :=
  match a.prop "bounds" with
  | .error e => .error e
  | .ok none => .ok st
  | .ok (some bounds) =>
    match a.get "result_path" with
    | none => .ok st
    | some url =>
      if bounds.truthy && url.truthy then
        match env.overlayError a with
        | none => .ok (st.1 ++ [mkOverlay url bounds a], st.2)
        | some msg => .ok (st.1, logError env "Overlay creation failed" msg st.2)
      else .ok st

/-- The loop `forEach` from a given layer group and log: the group and the log
when the loop ends, and the error that ended it if a callback threw. -/
def forEachAnalysis (env : Env) :
    List Json → List Overlay × List (String × String) →
      (List Overlay × List (String × String)) × Option JSError
  | [], st => (st, none)
  | a :: rest, st =>
    match addAnalysis env st a with
    | .error e => (st, some e)
    | .ok st2 => forEachAnalysis env rest st2

/-- The loop `data.analyses.forEach(...)` started on the fresh
`L.layerGroup()`: the layers of `analysisLayers` and the log after it, and the
error thrown out of it, if any. -/
def layerGroup (env : Env) (analyses : List Json) (logged : List (String × String)) :
    (List Overlay × List (String × String)) × Option JSError :=
  forEachAnalysis env analyses ([], logged)

/-- The `TypeError` of the call `data.analyses.forEach(...)` on a value that has
no such method. -/
def forEachMissing : JSError := ⟨"TypeError", "data.analyses.forEach is not a function"⟩

/-- The `TypeError` of converting an object with an unusable `toString`. -/
def notPrimitive : JSError := ⟨"TypeError", "Cannot convert object to primitive value"⟩

/-- The `.then(data => ...)` callback of `loadAnalysisOverlays`: the page it
leaves and the error it throws, if any.  Only an array has `forEach`; a string
or an object whose `length` compares greater than `0` passes the guard and
fails at that call. -/
def onData (env : Env) (data : Json) (s : MapState) : MapState × Option JSError :=
  match data.prop "analyses" with
  | .error e => (s, some e)
  | .ok (some (.arr items)) =>
    if items.length > 0 then
      let r := layerGroup env items s.logged
      let s := { s with logged := r.1.2 }
      match r.2 with
      | some e => (s, some e)
      | none =>
        if r.1.1.length > 0 then
          ({ s with layerControls := s.layerControls ++ [r.1.1],
                    successTimers := s.successTimers + 1 }, none)
        else (s, none)
    else (s, none)
  | .ok (some (.str text)) =>
    if text != "" then (s, some forEachMissing) else (s, none)
  | .ok (some (.obj fields)) =>
    match lookupField "length" fields with
    | none => (s, none)
    | some length =>
      if length.stringifies then
        if numLt (some (.finite 0 0)) length.toNumber then (s, some forEachMissing)
        else (s, none)
      else (s, some notPrimitive)
  | .ok _ => (s, none)

/-- The callback of the 2000 ms timer; `validOverlays` is the number of
overlay `load` events fired so far. -/
def successTimerFired (validOverlays : Nat) (s : MapState) : MapState :=
  let s := { s with successTimers := s.successTimers - 1 }
  if validOverlays > 0 then
    { s with notifications := s.notifications ++
        [⟨toString validOverlays ++ " analiz katmanı yüklendi.", "success"⟩] }
  else s

/-- Default text of the catch handler. -/
def genericMessage : String := "Analiz verileri yüklenemedi."

/-- Text for a timeout. -/
def timeoutMessage : String := "Bağlantı zaman aşımına uğradı. Lütfen tekrar deneyin."

/-- Text for a connectivity failure. -/
def connectivityMessage : String := "İnternet bağlantınızı kontrol edin ve tekrar deneyin."

/-- Text for a server error. -/
def serverMessage : String := "Sunucu hatası. Lütfen daha sonra tekrar deneyin."

/-- The `errorMessage` the catch handler computes. -/
def errorMessage (error : JSError) : String :=
  if error.message = "Request timeout" then timeoutMessage
  else if error.name = "NetworkError" || includes error.message "fetch" then
    connectivityMessage
  else if includes error.message "HTTP error" then serverMessage
  else genericMessage

/-- The `.catch(error => ...)` callback of `loadAnalysisOverlays`. -/
def onError (env : Env) (error : JSError) (s : MapState) : MapState :=
  { s with
    notifications := s.notifications ++ [⟨errorMessage error, "warning"⟩],
    logged := logError env "Overlay loading failed" error.message s.logged }

/-- The `.finally(...)` callback: `document.getElementById('map-loading')` is
the first element of the document with that id, and it is removed. -/
def onFinally (s : MapState) : MapState :=
  if s.preceding.any (fun e => e.id = "map-loading") then
    { s with preceding := removeFirstWithId "map-loading" s.preceding }
  else { s with following := removeFirstWithId "map-loading" s.following }

/-- The promise chain of `loadAnalysisOverlays` up to its `finally`: the two
`then` callbacks and the `catch` callback. -/
def settle (env : Env) (net : FetchResult) (s : MapState) : MapState :=
  match net with
  | .timedOut => onError env ⟨"Error", "Request timeout"⟩ s
  | .failed e => onError env e s
  | .response ok status body =>
    if !ok then
      onError env ⟨"Error", "HTTP error! status: " ++ toString status⟩ s
    else
      match body with
      | .error e => onError env e s
      | .ok data =>
        match onData env data s with
        | (s2, none) => s2
        | (s2, some e) => onError env e s2

/-- The function `loadAnalysisOverlays(map)` run to the settlement of its
promise chain. -/
def loadAnalysisOverlays (env : Env) (net : FetchResult) (s : MapState) : MapState :=
  onFinally (settle env net (appendLoadingIndicator s))

/-- What `fetch(url, options)` settles with on its own. -/
inductive FetchSettlement where
  | rejected (error : JSError)
  | resolved (ok : Bool) (status : Nat) (body : Except JSError Json)

/-- The race `fetchWithTimeout(url, options, timeout)`: `fetch` is `none` when
the request never settles, and otherwise the time in milliseconds at which it
settles and what it settles with; the timer rejects at `timeout`. -/
def fetchWithTimeout (timeout : Nat) (fetch : Option (Nat × FetchSettlement)) : FetchResult :=
  match fetch with
  | none => .timedOut
  | some (t, settlement) =>
    if t < timeout then
      match settlement with
      | .rejected e => .failed e
      | .resolved ok status body => .response ok status body
    else .timedOut

/-- The error the race and the first `then` callback hand to the catch handler
of `loadAnalysisOverlays`, `none` when the data callback runs. -/
def rejection : FetchResult → Option JSError
  | .timedOut => some ⟨"Error", "Request timeout"⟩
  | .failed e => some e
  | .response ok status body =>
    if !ok then some ⟨"Error", "HTTP error! status: " ++ toString status⟩
    else
      match body with
      | .error e => some e
      | .ok _ => none

/-- The function `loadAnalysisOverlays(map)` with the race spelled out: the
call `fetchWithTimeout('/api/vegetation_analyses')` leaves `timeout` at its
default, `10000`. -/
def loadAnalysisOverlaysRaced (env : Env) (fetch : Option (Nat × FetchSettlement))
    (s : MapState) : MapState :=
  loadAnalysisOverlays env (fetchWithTimeout 10000 fetch) s

/-! ## mapping.js: algorithm information and range defaults -/

/-- An entry of `algorithmDescriptions`. -/
structure AlgorithmInfo where
  title : String
  description : String
  range : String
  interpretation : String
deriving DecidableEq, Repr

/-- The table `algorithmDescriptions` of `updateAlgorithmInfo`. -/
def algorithmDescriptions : List (String × AlgorithmInfo) :=
  [("ndvi", ⟨"NDVI - Normalized Difference Vegetation Index",
      "Yeşil bitki örtüsü miktarını ölçer. Sağlıklı bitkiler yüksek NDVI değerine sahiptir.",
      "(-1, 1)",
      "Yüksek değerler sağlıklı bitki örtüsünü, düşük değerler su, toprak veya yapılaşmış alanları gösterir."⟩),
    ("gli", ⟨"GLI - Green Leaf Index", "Yeşil yaprak ve gövdeleri vurgular.", "(-1, 1)",
      "Bitki yoğunluğunun belirlenmesinde kullanılır."⟩),
    ("vari", ⟨"VARI - Visual Atmospheric Resistance Index",
      "Bitki örtüsü alanlarını atmosferik etkilerden bağımsız olarak gösterir.", "(-1, 1)",
      "Atmosferik koşulların etkisini minimize eder."⟩),
    ("endvi", ⟨"ENDVI - Enhanced NDVI", "NDVI'nin geliştirilmiş versiyonu.", "(-1, 1)",
      "Mavi ve yeşil bantları kullanarak bitki sağlığını analiz eder."⟩),
    ("ndwi", ⟨"NDWI - Normalized Difference Water Index",
      "Su kütlelerindeki su içeriği miktarını gösterir.", "(-1, 1)",
      "Su stresi tespitinde kullanılır."⟩)]

/-- The table `defaults` of `updateRangeDefaults`: name, min, max. -/
def defaults : List (String × Int × Int) :=
  [("ndvi", -1, 1), ("gli", -1, 1), ("vari", -1, 1), ("endvi", -1, 1), ("ndwi", -1, 1),
    ("exg", -255, 255), ("tgi", -255, 255), ("bai", 0, 100), ("vndvi", 0, 2)]

/-- The content of `#algorithmInfo`: markup the scripts did not write, or the
four texts `updateAlgorithmInfo` writes. -/
inductive InfoPanel where
  | other (html : String)
  | info (shown : AlgorithmInfo)
deriving DecidableEq, Repr

/-- The analysis form page, with both inputs `#min_range` and `#max_range`
present: their values, whether they are `type="number"` inputs, the content of
`#algorithmInfo` (`none`: no such element) and the notifications shown. -/
structure RangePage where
  minRange : String
  maxRange : String
  numberInputs : Bool
  infoDiv : Option InfoPanel
  notifications : List Notification
deriving DecidableEq, Repr

/-- The value an input holds after `input.value = undefined`: the text
`undefined`, which a number input sanitises to the empty string. -/
def assignUndefined (numberInput : Bool) : String :=
  if numberInput then "" else "undefined"

/-- The function `updateAlgorithmInfo(algorithm)`. -/
def updateAlgorithmInfo (algorithm : String) (p : RangePage) : RangePage :=
  match p.infoDiv with
  | none => p
  | some _ =>
    match getProperty algorithmDescriptions algorithm with
    | .own info => { p with infoDiv := some (.info info) }
    | .inherited =>
      { p with infoDiv := some (.info ⟨"undefined", "undefined", "undefined", "undefined"⟩) }
    | .absent => p

/-- The function `updateRangeDefaults(algorithm)`. -/
def updateRangeDefaults (algorithm : String) (p : RangePage) : RangePage :=
  match getProperty defaults algorithm with
  | .own (lo, hi) => { p with minRange := toString lo, maxRange := toString hi }
  | .inherited =>
    { p with minRange := assignUndefined p.numberInputs,
             maxRange := assignUndefined p.numberInputs }
  | .absent => p

/-- The `change` listener of `#algorithm`. -/
def onAlgorithmChange (algorithm : String) (p : RangePage) : RangePage :=
  updateRangeDefaults algorithm (updateAlgorithmInfo algorithm p)

/-- The function `validateRange()`: its return value and the page it leaves. -/
def validateRange (p : RangePage) : Bool × RangePage :=
  if numGe (parseFloat p.minRange) (parseFloat p.maxRange) then
    (false, { p with notifications := p.notifications ++
      [⟨"Minimum değer maksimum değerden küçük olmalıdır.", "warning"⟩] })
  else (true, p)

/-! ## mapping.js: the analysis detail modal -/

/-- The statistics column of the success layout: the formatted block (the five
`toFixed(3)` texts, the two pixel counts shown through `toLocaleString`, and
the `toFixed(1)` text that the template follows with `%`) or the notice that no
valid GeoTIFF data was found. -/
inductive StatisticsPanel where
  | block (mean std median min max : NumberText) (pixelCount totalPixels : Json)
      (ratio : NumberText)
  | notice

/-- The content of `#analysisModalContent`: markup the loader did not write;
the success layout (the values interpolated as image source and as the metadata
table's id, the algorithm text that is shown upper-cased, the values
interpolated as colormap and range bounds, the value the date is built from,
and the statistics column); an `alert-danger` panel with its text; or the panel
'Analiz detayları yüklenemedi: ' followed by the text of a value that is not a
string. -/
inductive ModalContent where
  | other (html : String)
  | details (resultPath id : Option Json) (algorithm : String)
      (colormap minRange maxRange createdAt : Option Json) (statistics : StatisticsPanel)
  | alert (text : String)
  | alertValue (shown : Json)

/-- The modal, with its element `#analysisModalContent` present as in the
markup of `createAnalysisModal`: the content of that element, the number of
`modal.show()` calls, the URLs fetched and the number of `console.error`
calls. -/
structure ModalState where
  content : ModalContent
  showCalls : Nat
  requests : List String
  consoleErrors : Nat

/-- What the network does with the detail request: `fetch` rejects, or it
resolves and `response.json()` either rejects or yields the parsed body. -/
inductive DetailOutcome where
  | rejected (error : JSError)
  | responded (body : Except JSError Json)

/-- The expression `((pixel_count / total_pixels) * 100).toFixed(1)` on two
Numbers. -/
def validRatioText (pixel_count total_pixels : JSNumber) : NumberText :=
  toFixed 1 (numMul (pixel_count.div total_pixels) (some (.finite 100 0)))

/-- The expression `((pixel_count / total_pixels) * 100).toFixed(1)` on values
that convert to Numbers: NaN goes through the division and the product. -/
def ratioText (pixel_count total_pixels : Json) : NumberText :=
  match pixel_count.toNumber, total_pixels.toNumber with
  | some x, some y => validRatioText x y
  | _, _ => toFixed 1 none

/-- The interpolation `${value}` in a template: the value whose text is
inserted, or the `TypeError` of its conversion to a string. -/
def interpolate : Option Json → Except JSError (Option Json)
  | none => .ok none
  | some value =>
    if value.stringifies then .ok (some value)
    else .error ⟨"TypeError", "Cannot convert object to primitive value"⟩

/-- The call `value.toUpperCase()`: only a string has the method.  The result
is the text before upper-casing. -/
def toUpperCaseOf : Option Json → Except JSError String
  | some (.str text) => .ok text
  | some .null => .error ⟨"TypeError", "Cannot read properties of null"⟩
  | none => .error ⟨"TypeError", "Cannot read properties of undefined"⟩
  | some _ => .error ⟨"TypeError", "data.algorithm.toUpperCase is not a function"⟩

/-- The call `value.toFixed(3)`: only a Number has the method. -/
def toFixedOf : Option Json → Except JSError NumberText
  | some (.num x) => .ok (toFixed 3 (some x))
  | some .null => .error ⟨"TypeError", "Cannot read properties of null"⟩
  | none => .error ⟨"TypeError", "Cannot read properties of undefined"⟩
  | some _ => .error ⟨"TypeError", "toFixed is not a function"⟩

/-- The call `value.toLocaleString('tr-TR')`: the value whose localised text is
inserted, or the `TypeError` of the call. -/
def toLocaleStringOf : Option Json → Except JSError Json
  | none => .error ⟨"TypeError", "Cannot read properties of undefined"⟩
  | some value =>
    if value.localizes then .ok value
    else .error ⟨"TypeError", "toLocaleString is not a function"⟩

/-- The conversion of an operand of `/` to a Number: the value, or the
`TypeError` of its conversion to a primitive. -/
def operand (value : Json) : Except JSError Json :=
  if value.stringifies then .ok value
  else .error ⟨"TypeError", "Cannot convert object to primitive value"⟩

/-- The statistics part of the success template: the conditional on
`data.has_valid_statistics`, and in its first branch the reads of
`data.statistics` and of its fields in the order of the template. -/
def renderStatistics (data : Json) : Except JSError StatisticsPanel := do
  let flag ← data.prop "has_valid_statistics"
  if truthy flag then
    let statistics ← data.prop "statistics"
    let mean ← readProp "mean" statistics >>= toFixedOf
    let std ← readProp "std" statistics >>= toFixedOf
    let median ← readProp "median" statistics >>= toFixedOf
    let min ← readProp "min" statistics >>= toFixedOf
    let max ← readProp "max" statistics >>= toFixedOf
    let pixelCount ← readProp "pixel_count" statistics >>= toLocaleStringOf
    let totalPixels ← readProp "total_pixels" statistics >>= toLocaleStringOf
    let dividend ← operand pixelCount
    let divisor ← operand totalPixels
    pure (.block mean std median min max pixelCount totalPixels (ratioText dividend divisor))
  else pure .notice

/-- The success template of `loadAnalysisDetails`, evaluated in the order of
its interpolations; `new Date(value)` converts an object or array to a
primitive, and `toLocaleDateString` returns for every date, valid or not. -/
def successTemplate (data : Json) : Except JSError ModalContent := do
  let resultPath ← data.prop "result_path" >>= interpolate
  let id ← data.prop "id" >>= interpolate
  let algorithm ← data.prop "algorithm" >>= toUpperCaseOf
  let colormap ← data.prop "colormap" >>= interpolate
  let minRange ← data.prop "min_range" >>= interpolate
  let maxRange ← data.prop "max_range" >>= interpolate
  let createdAt ← data.prop "created_at" >>= interpolate
  let statistics ← renderStatistics data
  pure (.details resultPath id algorithm colormap minRange maxRange createdAt statistics)

/-- The template of the `else` branch: the value of
`data.error || 'Bilinmeyen hata'` is interpolated. -/
def failureTemplate (data : Json) : Except JSError ModalContent := do
  let error ← data.prop "error"
  let shown :=
    match error with
    | some value => if value.truthy then value else .str "Bilinmeyen hata"
    | none => .str "Bilinmeyen hata"
  if shown.stringifies then
    match shown with
    | .str text => pure (.alert ("Analiz detayları yüklenemedi: " ++ text))
    | value => pure (.alertValue value)
  else throw ⟨"TypeError", "Cannot convert object to primitive value"⟩

/-- The `.then(data => ...)` callback of `loadAnalysisDetails`.  A template is
evaluated before `innerHTML` is assigned, so a throw leaves the modal as it
was. -/
def onDetailData (data : Json) (m : ModalState) : Except JSError ModalState := do
  let success ← data.prop "success"
  if truthy success then
    let content ← successTemplate data
    pure { m with content := content, showCalls := m.showCalls + 1 }
  else
    let content ← failureTemplate data
    pure { m with content := content }

/-- The `.catch(error => ...)` callback of `loadAnalysisDetails`. -/
def onDetailError (m : ModalState) : ModalState :=
  { m with consoleErrors := m.consoleErrors + 1,
           content := .alert "Analiz detayları yüklenirken hata oluştu." }

/-- The function `loadAnalysisDetails(analysisId, modal)` run to the settlement
of its promise chain. -/
def loadAnalysisDetails (net : DetailOutcome) (analysisId : Nat) (m : ModalState) :
    ModalState :=
  let m := { m with requests := m.requests ++ ["/api/analysis/" ++ toString analysisId] }
  match net with
  | .rejected _ => onDetailError m
  | .responded (.error _) => onDetailError m
  | .responded (.ok data) =>
    match onDetailData data m with
    | .ok q => q
    | .error _ => onDetailError m

/-! ## mapping.js: the vegetation analysis form -/

/-- The function `showAnalysisProgress()`; `spinner` stands for
`FarmVision.showLoadingSpinner` as in `showDetectionProgress`. -/
def showAnalysisProgress (spinner : Detection.Button → Detection.Button)
    (p : Detection.Page) : Detection.Page :=
  let p := { p with progressCalls := p.progressCalls + 1 }
  let p :=
    match p.progressDisplay with
    | some _ => { p with progressDisplay := some "block" }
    | none => p
  match p.submitBtn with
  | some b => { p with submitBtn := some (spinner b), restoreSubmitButton := some b }
  | none => p

/-- The method `name.toLowerCase()` as far as the two suffix tests can tell: the
letters A to Z become a to z.  JavaScript lower-cases other letters too, but
none of them becomes `.`, `t`, `i` or `f` on its own (U+0130 becomes `i`
followed by U+0307), so a suffix `.tif` or `.tiff` arises from ASCII letters
only. -/
def toLowerCase (name : String) : List Char := name.toList.map Char.toLower

/-- The method `text.endsWith(suffix)`. -/
def endsWith (text : List Char) (suffix : String) : Bool := suffix.toList.isSuffixOf text

/-- The page of `#vegetationForm` is a `Detection.Page`: the file input
`#image`, the submit event, the notifications and the progress elements. -/
def vegetationSubmit (spinner : Detection.Button → Detection.Button)
    (p : Detection.Page) : Detection.Page :=
  match p.files.head? with
  | none =>
    Detection.showNotification "Lütfen bir GeoTIFF dosyası seçin." "warning"
      (Detection.preventDefault p)
  | some file =>
    if !endsWith (toLowerCase file.name) ".tif" && !endsWith (toLowerCase file.name) ".tiff" then
      Detection.showNotification "Lütfen GeoTIFF (.tif/.tiff) formatında dosya seçin." "error"
        (Detection.preventDefault p)
    else showAnalysisProgress spinner p

end Mapping

/-! ## docs/js/main.js: tab switching -/

namespace Docs

/-- An element of the documentation page: its `id` attribute, whether
`querySelectorAll('.tab')` and `querySelectorAll('.tab-content')` found it when
the script ran, its `data-tab` attribute and whether its class list holds
`active`. -/
structure Element where
  id : Option String
  isTab : Bool
  isTabContent : Bool
  dataTab : Option String
  active : Bool
deriving DecidableEq, Repr

/-- The position of the first element with the given id: the result of
`document.getElementById(id)` on the elements in document order.  The empty
string finds nothing. -/
def getElementById (doc : List Element) (id : String) : Option Nat :=
  if id = "" then none
  else
    let k := doc.findIdx (fun e => e.id == some id)
    if k < doc.length then some k else none

/-- The action `classList.remove('active')` on the elements a list holds. -/
def removeActive (member : Element → Bool) (doc : List Element) : List Element :=
  doc.map (fun e => if member e then { e with active := false } else e)

/-- The action `classList.add('active')` on the element at a position. -/
def addActive (position : Nat) (doc : List Element) : List Element :=
  doc.mapIdx (fun k e => if k = position then { e with active := true } else e)

/-- The `click` listener of the tab at `position`; positions without a tab
have no listener.  A missing `data-tab` attribute reaches `getElementById` as
`null`, which it reads as the text `null`. -/
def clickTab (position : Nat) (doc : List Element) : List Element :=
  match doc[position]? with
  | none => doc
  | some tab =>
    if tab.isTab then
      let doc := removeActive (fun e => e.isTab) doc
      let doc := addActive position doc
      let doc := removeActive (fun e => e.isTabContent) doc
      let targetTab := tab.dataTab.getD "null"
      match getElementById doc targetTab with
      | some target => addActive target doc
      | none => doc
    else doc

end Docs

/-! ## Example inputs -/

namespace Examples

/-- A 200 MB GIF. -/
def hugeGif : File := ⟨"leaf.gif", "image/gif", 200 * 1024 * 1024⟩

/-- A JPEG of exactly `10 * 1024 * 1024` bytes. -/
def jpegAtLimit : File := ⟨"tree.jpg", "image/jpeg", 10485760⟩

/-- A PNG of exactly `100 * 1024 * 1024` bytes. -/
def pngAtLimit : File := ⟨"orchard.png", "image/png", 104857600⟩

/-- A PNG one byte above the 100 MB ceiling. -/
def pngOverLimit : File := ⟨"orchard.png", "image/png", 104857601⟩

/-- A TIFF one byte above the 10 MB ceiling. -/
def tiffOverLimit : File := ⟨"field.tiff", "image/tiff", 10485761⟩

/-- The body `{"success": true}`. -/
def successBody : Json := .obj [("success", .bool true)]

/-- The body `{"success": false}`. -/
def failureBody : Json := .obj [("success", .bool false)]

/-- A results table: a header row and records 3, 7 and 12. -/
def table : Detection.TablePage :=
  { rows := [⟨some "3", "apple"⟩, ⟨none, "header"⟩, ⟨some "7", "cherry"⟩, ⟨some "12", "pear"⟩],
    notifications := [], requests := [], consoleErrors := 0 }

/-- A page without `window.logError` on which `L.imageOverlay` never throws. -/
def quietEnv : Mapping.Env := { hasLogError := false, overlayError := fun _ => none }

/-- The bounds of record A. -/
def boundsA : Json :=
  .arr [.arr [.num (.finite 39 0), .num (.finite 32 0)],
    .arr [.num (.finite 40 0), .num (.finite 33 0)]]

/-- A record with bounds, result path and algorithm. -/
def recordA : Json :=
  .obj [("bounds", boundsA), ("result_path", .str "/static/results/ndvi_1.png"),
    ("algorithm", .str "ndvi")]

/-- A record without bounds. -/
def recordB : Json :=
  .obj [("result_path", .str "/static/results/gli_2.png"), ("algorithm", .str "gli")]

/-- The body `{"analyses": [...]}`. -/
def analysesBody (analyses : List Json) : Json := .obj [("analyses", .arr analyses)]

/-- The map container. -/
def mapElement : Mapping.Element := ⟨"map", "leaflet-container", ""⟩

/-- The page footer. -/
def footerElement : Mapping.Element := ⟨"footer", "site-footer", ""⟩

/-- The map page before the loader runs: the container is in the document and
no element has the id `map-loading`. -/
def freshMap : Mapping.MapState :=
  { containerInDocument := true, preceding := [mapElement], following := [footerElement],
    detached := [], layerControls := [], notifications := [], successTimers := 0,
    logged := [] }

/-- An element with the id `map-loading` that is not the loader's. -/
def olderIndicator : Mapping.Element := ⟨"map-loading", "page-banner", "Harita"⟩

/-- A map page that holds an element with the id `map-loading` before the map
container. -/
def crowdedMap : Mapping.MapState :=
  { freshMap with preceding := [olderIndicator, mapElement] }

/-- A map whose container is not in the document. -/
def detachedMap : Mapping.MapState :=
  { freshMap with containerInDocument := false, preceding := [], detached := [] }

/-- The error `response.json()` rejects with on an HTML error page. -/
def parseError : JSError := ⟨"SyntaxError", "Unexpected token < in JSON at position 0"⟩

/-- A request that is answered after 12 seconds. -/
def slowFetch : Option (Nat × Mapping.FetchSettlement) :=
  some (12000, .resolved true 200 (.ok (analysesBody [recordA])))

/-- A file whose type the browser could not determine. -/
def untypedFile : File := ⟨"notes", "", 2048⟩

/-- A stand-in for `FarmVision.formatFileSize`. -/
def formatFileSize (n : Nat) : String := toString n ++ " B"

/-- An image input before any selection was shown. -/
def previewWith (f : File) : Detection.PreviewState :=
  { files := [f], reads := [], fileInfo := none }

/-- The analysis form with empty range inputs and an untouched info panel. -/
def rangePage : Mapping.RangePage :=
  { minRange := "", maxRange := "", numberInputs := true, infoDiv := some (.other ""),
    notifications := [] }

/-- The analysis form with an empty minimum and the maximum 5. -/
def emptyMinPage : Mapping.RangePage :=
  { minRange := "", maxRange := "5", numberInputs := true, infoDiv := none,
    notifications := [] }

/-- The analysis form with minimum 3 and maximum 2. -/
def invertedPage : Mapping.RangePage :=
  { minRange := "3", maxRange := "2", numberInputs := true, infoDiv := none,
    notifications := [] }

/-- The modal while its spinner is shown. -/
def freshModal : Mapping.ModalState :=
  { content := .other "Yükleniyor...", showCalls := 0, requests := [], consoleErrors := 0 }

/-- The statistics of an analysis with 8000 valid pixels of 10000. -/
def sampleStatistics : Json :=
  .obj [("mean", .num (.finite 1 (-1))), ("std", .num (.finite 1 (-2))),
    ("median", .num (.finite 1 (-1))), ("min", .num (.finite (-1) 0)),
    ("max", .num (.finite 1 0)), ("pixel_count", .num (.finite 8000 0)),
    ("total_pixels", .num (.finite 10000 0))]

/-- The fields of a successful detail response other than `algorithm`,
`has_valid_statistics` and `statistics`. -/
def detailFields : List (String × Json) :=
  [("success", .bool true), ("id", .num (.finite 4 0)), ("colormap", .str "rdylgn"),
    ("min_range", .num (.finite (-1) 0)), ("max_range", .num (.finite 1 0)),
    ("created_at", .str "2024-05-01T10:00:00"),
    ("result_path", .str "/static/results/ndvi_4.png")]

/-- A detail response of an NDVI analysis with the given flag and, when given,
the statistics object. -/
def detailWith (statistics : Option Json) (valid : Bool) : Json :=
  .obj (detailFields ++ [("algorithm", .str "ndvi"), ("has_valid_statistics", .bool valid)] ++
    match statistics with
    | some st => [("statistics", st)]
    | none => [])

/-- A successful detail response without statistics whose `algorithm` is
`null`. -/
def detailWithoutAlgorithm : Json :=
  .obj (detailFields ++ [("algorithm", .null), ("has_valid_statistics", .bool false)])

/-- A detail response reporting a failure with the given message. -/
def failedDetail (error : Option String) : Json :=
  .obj (("success", .bool false) ::
    match error with
    | some text => [("error", .str text)]
    | none => [])

/-- The analysis form after NDVI was selected. -/
def ndviPage : Mapping.RangePage :=
  { minRange := "-1", maxRange := "1", numberInputs := true,
    infoDiv := some (.info ⟨"NDVI - Normalized Difference Vegetation Index", "", "(-1, 1)", ""⟩),
    notifications := [] }

/-- A file with the given name, of a type and size a GeoTIFF would not have. -/
def named (name : String) : File := ⟨name, "text/plain", 300 * 1024 * 1024⟩

/-- A documentation page: two tabs, their panels and a navigation element, all
with the class `active`. -/
def docsPage : List Docs.Element :=
  [⟨none, true, false, some "install", true⟩, ⟨none, true, false, some "usage", true⟩,
    ⟨some "install", false, true, none, true⟩, ⟨some "usage", false, true, none, true⟩,
    ⟨some "nav-menu", false, false, none, true⟩]

/-- Two tabs, both without `active`; the first one's `data-tab` is the id of
the second tab. -/
def crossedTabs : List Docs.Element :=
  [⟨none, true, false, some "second", false⟩, ⟨some "second", true, false, some "first", false⟩]

/-- An element that is a tab and a tab-content at once, and its panel. -/
def selfPanel : List Docs.Element :=
  [⟨none, true, true, some "usage", false⟩, ⟨some "usage", false, true, none, false⟩]

/-- A tab without `data-tab` attribute and a panel whose id is `null`. -/
def unnamedTab : List Docs.Element :=
  [⟨none, true, false, none, false⟩, ⟨some "null", false, true, none, false⟩]

/-- The batch page with three images selected and the bar hidden. -/
def batchOfThree : Detection.BatchPage :=
  { files := [⟨"a.jpg", "image/jpeg", 100⟩, ⟨"b.jpg", "image/jpeg", 200⟩,
      ⟨"c.png", "image/png", 300⟩],
    display := "none", barWidth := .css "0%", barText := "", notifications := [],
    processed := 0, total := 0, interval := false, hideTimers := 0 }

/-- A change event on an input holding `f`. -/
def changeWith (f : File) : FormHandlers.State :=
  { files := some [f], value := "C:/fakepath/" ++ f.name, alerts := [], reads := [] }

/-- A fresh submit event on the fruit form with `f` selected. -/
def fruitPageWith (f : File) : Detection.Page :=
  { files := [f], value := "C:/fakepath/" ++ f.name, defaultPrevented := false,
    notifications := [], progressDisplay := some "none",
    submitBtn := some ⟨false, "Tespit Et"⟩, restoreSubmitButton := none, progressCalls := 0 }

/-- A stand-in for `FarmVision.showLoadingSpinner`. -/
def spinner (_ : Detection.Button) : Detection.Button := ⟨true, "..."⟩

end Examples

/-! ## Theorems: rounding to binary64 -/

theorem log2Fuel_spec (fuel : Nat) :
    ∀ n : Nat, 1 ≤ n → n ≤ fuel →
      2 ^ log2Fuel fuel n ≤ n ∧ n < 2 ^ (log2Fuel fuel n + 1) := by
  induction fuel with
  | zero => intro n h1 h2; omega
  | succ fuel ih =>
    intro n h1 h2
    unfold log2Fuel
    by_cases h : 2 ≤ n
    · simp only [h, if_true]
      obtain ⟨ih1, ih2⟩ := ih (n / 2) (by omega) (by omega)
      rw [pow_succ] at ih2 ⊢
      rw [pow_succ]
      constructor <;> omega
    · simp only [h, if_false]
      have : n = 1 := by omega
      subst this
      simp

theorem bitLog2_spec (n : Nat) (h : 1 ≤ n) :
    2 ^ bitLog2 n ≤ n ∧ n < 2 ^ (bitLog2 n + 1) :=
  log2Fuel_spec n n h (Nat.le_refl n)

theorem floorLog2_le (A B k : Nat) (hA : 0 < A) (hB : 0 < B) (h : A < B * 2 ^ (k + 1)) :
    floorLog2 A B ≤ (k : Int) := by
  obtain ⟨a1, -⟩ := bitLog2_spec A hA
  obtain ⟨-, b2⟩ := bitLog2_spec B hB
  have hlt : 2 ^ bitLog2 A < 2 ^ (bitLog2 B + 1 + (k + 1)) := by
    calc 2 ^ bitLog2 A ≤ A := a1
      _ < B * 2 ^ (k + 1) := h
      _ < 2 ^ (bitLog2 B + 1) * 2 ^ (k + 1) :=
        Nat.mul_lt_mul_of_pos_right b2 (Nat.pow_pos (by decide))
      _ = 2 ^ (bitLog2 B + 1 + (k + 1)) := (pow_add 2 _ _).symm
  have hl : bitLog2 A < bitLog2 B + 1 + (k + 1) :=
    (Nat.pow_lt_pow_iff_right (by decide)).mp hlt
  unfold floorLog2
  simp only
  split_ifs with htest
  · by_contra hcon
    have hl2 : (bitLog2 A : Int) - (bitLog2 B : Int) = (k : Int) + 1 := by omega
    rw [hl2] at htest
    have e1 : ((k : Int) + 1).toNat = k + 1 := by omega
    have e2 : (-((k : Int) + 1)).toNat = 0 := by omega
    rw [e1, e2, pow_zero, Nat.mul_one] at htest
    omega
  · omega

theorem divRoundEven_le (a b K : Nat) (hb : 0 < b) (h : a ≤ K * b) :
    divRoundEven a b ≤ K := by
  have hq : a / b ≤ K := by
    rw [Nat.mul_comm] at h
    exact Nat.div_le_of_le_mul h
  have hdm := Nat.div_add_mod a b
  have hr := Nat.mod_lt a hb
  have hstep : 0 < a % b → a / b + 1 ≤ K := by
    intro hpos
    by_contra hcon
    have hqk : a / b = K := by omega
    rw [hqk, Nat.mul_comm] at hdm
    omega
  unfold divRoundEven
  simp only
  split_ifs <;> first | exact hq | exact hstep (by omega)

theorem divRoundEven_near (a b : Nat) (hb : 0 < b) :
    2 * (divRoundEven a b * b) ≤ 2 * a + b ∧ 2 * a ≤ 2 * (divRoundEven a b * b) + b := by
  have hdm := Nat.div_add_mod a b
  have hr := Nat.mod_lt a hb
  have hc : a / b * b = b * (a / b) := Nat.mul_comm _ _
  have hs : (a / b + 1) * b = b * (a / b) + b := by rw [Nat.add_mul, Nat.one_mul, hc]
  unfold divRoundEven
  simp only
  split_ifs <;> (first | rw [hc] | rw [hs]) <;> omega

theorem roundBinary64_bounded (A B K k : Nat) (hB : 0 < B) (hA : A ≤ K * B)
    (hK : K < 2 ^ (k + 1)) (hk : k ≤ 51) :
    ∃ n t : Nat, roundBinary64 false A B = .finite (n : Int) (-(t : Int)) ∧
      n ≤ K * 2 ^ t ∧ 2 * (n * B) ≤ 2 * (A * 2 ^ t) + B ∧
      2 * (A * 2 ^ t) ≤ 2 * (n * B) + B ∧ (A = 0 ∨ 52 ≤ t + k) := by
  by_cases h0 : A = 0
  · subst h0
    exact ⟨0, 0, by simp [roundBinary64], by simp, by simp, by simp, Or.inl rfl⟩
  · have hApos : 0 < A := Nat.pos_of_ne_zero h0
    have hlt : A < B * 2 ^ (k + 1) := by
      calc A ≤ K * B := hA
        _ < 2 ^ (k + 1) * B := Nat.mul_lt_mul_of_pos_right hK hB
        _ = B * 2 ^ (k + 1) := Nat.mul_comm _ _
    have hfl := floorLog2_le A B k hApos hB hlt
    have he1 : max (floorLog2 A B) (-1022) ≤ (k : Int) := max_le hfl (by omega)
    have he2 : (-1022 : Int) ≤ max (floorLog2 A B) (-1022) := le_max_right _ _
    generalize hmax : max (floorLog2 A B) (-1022) = e at he1 he2
    have ht1 : (-(e - 52)).toNat = (52 - e).toNat := by omega
    have ht2 : (e - 52).toNat = 0 := by omega
    have ht3 : e - 52 = -(((52 - e).toNat : Nat) : Int) := by omega
    refine ⟨divRoundEven (A * 2 ^ (52 - e).toNat) B, (52 - e).toNat, ?_, ?_, ?_, ?_, ?_⟩
    · unfold roundBinary64
      rw [if_neg h0]
      simp only [hmax, ht1, ht2, pow_zero, Nat.mul_one]
      have hs : ¬ (0 ≤ e - 52 ∧ 2 ^ 1024 ≤ divRoundEven (A * 2 ^ (52 - e).toNat) B) :=
        fun h => by omega
      rw [if_neg hs, ← ht3]
      simp
    · apply divRoundEven_le _ _ _ hB
      calc A * 2 ^ (52 - e).toNat ≤ K * B * 2 ^ (52 - e).toNat := Nat.mul_le_mul_right _ hA
        _ = K * 2 ^ (52 - e).toNat * B := by ring
    · exact (divRoundEven_near _ _ hB).1
    · exact (divRoundEven_near _ _ hB).2
    · right; omega

theorem round_error (n t A B k : Nat) (hB : 0 < B)
    (h1 : 2 * (n * B) ≤ 2 * (A * 2 ^ t) + B) (h2 : 2 * (A * 2 ^ t) ≤ 2 * (n * B) + B)
    (h3 : A = 0 ∨ 52 ≤ t + k) :
    |(n : ℚ) / 2 ^ t - (A : ℚ) / B| ≤ 1 / 2 ^ (53 - k) := by
  have hBq : (0 : ℚ) < B := by exact_mod_cast hB
  have hpow : (0 : ℚ) < 2 ^ t := by positivity
  rcases h3 with h3 | h3
  · subst h3
    have hn : n = 0 := by
      rcases Nat.eq_zero_or_pos n with h | h
      · exact h
      · have : B ≤ n * B := Nat.le_mul_of_pos_left B h
        omega
    subst hn
    simp
  · have q1 : (2 : ℚ) * (n * B) ≤ 2 * (A * 2 ^ t) + B := by exact_mod_cast h1
    have q2 : (2 : ℚ) * (A * 2 ^ t) ≤ 2 * (n * B) + B := by exact_mod_cast h2
    have hdiff : (n : ℚ) / 2 ^ t - (A : ℚ) / B = (n * B - A * 2 ^ t) / (2 ^ t * B) := by
      field_simp
      ring
    rw [hdiff, abs_div, abs_of_pos (mul_pos hpow hBq)]
    have habs : |(n : ℚ) * B - A * 2 ^ t| ≤ B / 2 := by
      rw [abs_le]; constructor <;> linarith
    have hstep : |(n : ℚ) * B - A * 2 ^ t| / (2 ^ t * B) ≤ 1 / 2 ^ (t + 1) := by
      rw [div_le_div_iff₀ (mul_pos hpow hBq) (by positivity)]
      rw [pow_succ]
      nlinarith [mul_nonneg hpow.le hBq.le, mul_le_mul_of_nonneg_left habs hpow.le]
    refine hstep.trans ?_
    apply one_div_le_one_div_of_le (by positivity)
    exact pow_le_pow_right₀ (by norm_num) (by omega)

theorem toRat_scaled (m : Int) (e e2 : Int) (hm : 0 ≤ m) :
    (JSNumber.finite m e).toRat =
      ((m.natAbs * 2 ^ (e - e2).toNat : Nat) : ℚ) * (2 : ℚ) ^ (min e e2) := by
  have hcast : ((m.natAbs : Nat) : ℚ) = (m : ℚ) := by
    have h : ((m.natAbs : Nat) : Int) = m := Int.natAbs_of_nonneg hm
    rw [← Int.cast_natCast, h]
  simp only [JSNumber.toRat, Nat.cast_mul, Nat.cast_pow, Nat.cast_ofNat, hcast]
  rcases le_total e e2 with h | h
  · have h1 : (e - e2).toNat = 0 := by omega
    rw [h1, min_eq_left h]
    simp
  · have h1 : ((e - e2).toNat : Int) = e - e2 := by omega
    rw [min_eq_right h, mul_assoc, ← zpow_natCast, h1, ← zpow_add₀ (by norm_num)]
    congr 2
    omega

theorem div_of_nonneg (a b ea eb : Int) (ha : 0 ≤ a) (hb : 0 < b) :
    (JSNumber.finite a ea).div (.finite b eb) =
      some (roundBinary64 false (a.natAbs * 2 ^ (ea - eb).toNat)
        (b.natAbs * 2 ^ (eb - ea).toNat)) := by
  have h1 : ¬ a < 0 := by omega
  have h2 : ¬ b < 0 := by omega
  have h3 : b ≠ 0 := by omega
  simp [JSNumber.div, h1, h2, h3]

theorem mul_hundred (n t : Nat) :
    (JSNumber.finite (n : Int) (-(t : Int))).mul (.finite 100 0) =
      some (roundBinary64 false (n * 100) (2 ^ t)) := by
  have h1 : ¬ (n : Int) < 0 := by omega
  have e1 : (-(t : Int) + 0).toNat = 0 := by omega
  have e2 : (-(-(t : Int) + 0)).toNat = t := by omega
  simp only [JSNumber.mul, h1, e1, e2, pow_zero, Nat.mul_one, Int.natAbs_ofNat]
  simp

theorem toFixed_one_small (n t : Nat) (h : n ≤ 100 * 2 ^ t) :
    toFixed 1 (some (.finite (n : Int) (-(t : Int)))) =
        .plain (fixedDigits 1 ((2 * (n * 10) + 2 ^ t) / (2 * 2 ^ t))) ∧
      (2 * (n * 10) + 2 ^ t) / (2 * 2 ^ t) ≤ 1000 ∧
      |(((2 * (n * 10) + 2 ^ t) / (2 * 2 ^ t) : Nat) : ℚ) / 10 - (n : ℚ) / 2 ^ t| ≤ 1 / 20 := by
  have hpos : 0 < 2 ^ t := Nat.pow_pos (by decide)
  have e1 : (-(t : Int)).toNat = 0 := by omega
  have e2 : (-(-(t : Int))).toNat = t := by omega
  have h1 : ¬ (n : Int) < 0 := by omega
  have hbig : ¬ (10 ^ 21 * 2 ^ t ≤ n) := by
    have : 100 * 2 ^ t < 10 ^ 21 * 2 ^ t := Nat.mul_lt_mul_of_pos_right (by norm_num) hpos
    omega
  refine ⟨?_, ?_, ?_⟩
  · simp only [toFixed, scaledRound, e1, e2, pow_zero, Nat.mul_one, Int.natAbs_ofNat, h1,
      if_false, pow_one]
    rw [if_neg hbig]
    simp
  · apply Nat.le_of_lt_succ
    rw [Nat.div_lt_iff_lt_mul (by positivity)]
    omega
  · have hd : 0 < 2 * 2 ^ t := by positivity
    have k1 := Nat.div_mul_le_self (2 * (n * 10) + 2 ^ t) (2 * 2 ^ t)
    have k2 := Nat.lt_mul_div_succ (2 * (n * 10) + 2 ^ t) hd
    generalize (2 * (n * 10) + 2 ^ t) / (2 * 2 ^ t) = N at k1 k2 ⊢
    have hp : (0 : ℚ) < 2 ^ t := by positivity
    have q1 : (N : ℚ) * (2 * 2 ^ t) ≤ 2 * (n * 10) + 2 ^ t := by exact_mod_cast k1
    have q2 : (2 : ℚ) * (n * 10) + 2 ^ t < 2 * 2 ^ t * (N + 1) := by exact_mod_cast k2
    have hy : (n : ℚ) = (n : ℚ) / 2 ^ t * 2 ^ t := by field_simp
    generalize (n : ℚ) / 2 ^ t = y at hy ⊢
    rw [hy] at q1 q2
    have r1 : (2 : ℚ) * N ≤ 20 * y + 1 := by
      by_contra hc
      push_neg at hc
      nlinarith [mul_lt_mul_of_pos_right hc hp]
    have r2 : (20 : ℚ) * y + 1 < 2 * (N + 1) := by
      by_contra hc
      push_neg at hc
      nlinarith [mul_le_mul_of_nonneg_right hc hp.le]
    rw [abs_le]
    constructor <;> linarith

/-! ## Theorems: file validation -/

namespace FormHandlers

theorem mem_ALLOWED_TYPES (t : String) :
    ALLOWED_TYPES.indexOf t = ALLOWED_TYPES.length ↔
      ¬ (t = "image/jpeg" ∨ t = "image/png" ∨ t = "image/tiff") := by
  rw [List.indexOf_eq_length]
  simp [ALLOWED_TYPES]

theorem loadFile_rejected_type (s : State) (file : File) (rest : List File)
    (h : s.files = some (file :: rest))
    (ht : ¬ (file.type = "image/jpeg" ∨ file.type = "image/png" ∨ file.type = "image/tiff")) :
    loadFile s = clearInput { s with alerts := s.alerts ++ [typeAlert] } := by
  have ht2 := (mem_ALLOWED_TYPES file.type).mpr ht
  unfold loadFile
  rw [h]
  simp only [ht2, if_true]

theorem loadFile_rejected_size (s : State) (file : File) (rest : List File)
    (h : s.files = some (file :: rest))
    (ht : file.type = "image/jpeg" ∨ file.type = "image/png" ∨ file.type = "image/tiff")
    (hs : 10485760 < file.size) :
    loadFile s = clearInput { s with alerts := s.alerts ++ [sizeAlert] } := by
  have ht2 : ¬ (ALLOWED_TYPES.indexOf file.type = ALLOWED_TYPES.length) := by
    rw [mem_ALLOWED_TYPES]; exact not_not.mpr ht
  have hs2 : file.size > MAX_FILE_SIZE := by simpa [MAX_FILE_SIZE] using hs
  unfold loadFile
  rw [h]
  simp only [ht2, hs2, if_true, if_false]

theorem loadFile_accepted (s : State) (file : File) (rest : List File)
    (h : s.files = some (file :: rest))
    (ht : file.type = "image/jpeg" ∨ file.type = "image/png" ∨ file.type = "image/tiff")
    (hs : file.size ≤ 10485760) :
    loadFile s = { s with reads := s.reads ++ [file] } := by
  have ht2 : ¬ (ALLOWED_TYPES.indexOf file.type = ALLOWED_TYPES.length) := by
    rw [mem_ALLOWED_TYPES]; exact not_not.mpr ht
  have hs2 : ¬ (file.size > MAX_FILE_SIZE) := by simpa [MAX_FILE_SIZE] using hs
  unfold loadFile
  rw [h]
  simp only [ht2, hs2, if_false]

/-- C1: for every change event that carries a file, `loadFile` starts the
preview read and leaves the input's value untouched if and only if the file's
MIME type is one of image/jpeg, image/png, image/tiff and its size is at most
10485760 bytes; in every other case it shows one alert, sets the input's value
to the empty string and starts no read. -/
theorem loadFile_reads_iff_valid (s : State) (file : File) (rest : List File)
    (h : s.files = some (file :: rest)) :
    (((loadFile s).reads = s.reads ++ [file] ∧ (loadFile s).value = s.value) ↔
        ((file.type = "image/jpeg" ∨ file.type = "image/png" ∨ file.type = "image/tiff") ∧
          file.size ≤ 10485760)) ∧
      (((file.type = "image/jpeg" ∨ file.type = "image/png" ∨ file.type = "image/tiff") ∧
          file.size ≤ 10485760) → (loadFile s).alerts = s.alerts) ∧
      (¬ ((file.type = "image/jpeg" ∨ file.type = "image/png" ∨ file.type = "image/tiff") ∧
          file.size ≤ 10485760) →
        (∃ text, (loadFile s).alerts = s.alerts ++ [text]) ∧ (loadFile s).value = "" ∧
          (loadFile s).reads = s.reads) := by
  by_cases ht : file.type = "image/jpeg" ∨ file.type = "image/png" ∨ file.type = "image/tiff"
  · by_cases hs : file.size ≤ 10485760
    · rw [loadFile_accepted s file rest h ht hs]
      simp [ht, hs]
    · rw [loadFile_rejected_size s file rest h ht (by omega)]
      simp [ht, hs, clearInput]
  · rw [loadFile_rejected_type s file rest h ht]
    simp [ht, clearInput]

/-- Witness of C1: a JPEG of exactly 10485760 bytes. -/
theorem loadFile_reads_iff_valid_witness :
    (Examples.changeWith Examples.jpegAtLimit).files = some (Examples.jpegAtLimit :: []) ∧
      (loadFile (Examples.changeWith Examples.jpegAtLimit)).reads = [Examples.jpegAtLimit] ∧
      (loadFile (Examples.changeWith Examples.jpegAtLimit)).value = "C:/fakepath/tree.jpg" :=
  ⟨rfl,
    ((loadFile_reads_iff_valid (Examples.changeWith Examples.jpegAtLimit)
        Examples.jpegAtLimit [] rfl).1.mpr ⟨Or.inl rfl, by decide⟩).1,
    by decide⟩

end FormHandlers

namespace Detection

theorem contains_allowedTypes (t : String) :
    allowedTypes.contains t = true ↔
      (t = "image/jpeg" ∨ t = "image/jpg" ∨ t = "image/png") := by
  simp [allowedTypes]

theorem fruitSubmit_no_file (spinner : Button → Button) (p : Page)
    (h : p.files.head? = none) :
    fruitSubmit spinner p = showNotification noFileMessage "warning" (preventDefault p) := by
  unfold fruitSubmit
  rw [h]

theorem fruitSubmit_bad_type (spinner : Button → Button) (p : Page) (file : File)
    (h : p.files.head? = some file)
    (ht : ¬ (file.type = "image/jpeg" ∨ file.type = "image/jpg" ∨ file.type = "image/png")) :
    fruitSubmit spinner p = showNotification typeMessage "error" (preventDefault p) := by
  have ht2 : allowedTypes.contains file.type = false := by
    rw [← Bool.not_eq_true, contains_allowedTypes]; exact ht
  unfold fruitSubmit
  rw [h]
  simp only [ht2, Bool.not_false, if_true]

theorem fruitSubmit_too_large (spinner : Button → Button) (p : Page) (file : File)
    (h : p.files.head? = some file)
    (ht : file.type = "image/jpeg" ∨ file.type = "image/jpg" ∨ file.type = "image/png")
    (hs : 104857600 < file.size) :
    fruitSubmit spinner p = showNotification sizeMessage "error" (preventDefault p) := by
  have ht2 : allowedTypes.contains file.type = true := (contains_allowedTypes _).mpr ht
  have hs2 : file.size > maxSize := by simpa [maxSize] using hs
  unfold fruitSubmit
  rw [h]
  simp only [ht2, hs2, Bool.not_true, Bool.false_eq_true, if_false, if_true]

theorem fruitSubmit_accepted (spinner : Button → Button) (p : Page) (file : File)
    (h : p.files.head? = some file)
    (ht : file.type = "image/jpeg" ∨ file.type = "image/jpg" ∨ file.type = "image/png")
    (hs : file.size ≤ 104857600) :
    fruitSubmit spinner p = showDetectionProgress spinner p := by
  have ht2 : allowedTypes.contains file.type = true := (contains_allowedTypes _).mpr ht
  have hs2 : ¬ (file.size > maxSize) := by simpa [maxSize] using hs
  unfold fruitSubmit
  rw [h]
  simp only [ht2, hs2, Bool.not_true, Bool.false_eq_true, if_false]

theorem showDetectionProgress_frame (spinner : Button → Button) (p : Page) :
    (showDetectionProgress spinner p).defaultPrevented = p.defaultPrevented ∧
      (showDetectionProgress spinner p).progressCalls = p.progressCalls + 1 ∧
      (showDetectionProgress spinner p).notifications = p.notifications ∧
      (showDetectionProgress spinner p).value = p.value ∧
      (showDetectionProgress spinner p).files = p.files := by
  unfold showDetectionProgress
  cases p.progressDisplay <;> cases p.submitBtn <;> simp

/-- C2 fails as stated: on a GIF the fruit-detection handler blocks the
submission and shows the type error, yet the input keeps its value. -/
theorem fruitSubmit_value_not_cleared :
    ¬ (Examples.hugeGif.type = "image/jpeg" ∨ Examples.hugeGif.type = "image/jpg" ∨
        Examples.hugeGif.type = "image/png") ∧
      (fruitSubmit Examples.spinner (Examples.fruitPageWith Examples.hugeGif)).defaultPrevented
        = true ∧
      (fruitSubmit Examples.spinner (Examples.fruitPageWith Examples.hugeGif)).value
        = "C:/fakepath/leaf.gif" ∧
      (fruitSubmit Examples.spinner (Examples.fruitPageWith Examples.hugeGif)).value ≠ "" := by
  decide

/-- C2 (amended): for every file whose MIME type is none of image/jpeg,
image/jpg, image/png, the fruit-detection submit handler calls preventDefault
and shows the type error notification; the file input's value and file list
stay as they were, and `showDetectionProgress` is not called. -/
theorem fruitSubmit_blocks_bad_type (spinner : Button → Button) (p : Page) (file : File)
    (h : p.files.head? = some file)
    (ht : ¬ (file.type = "image/jpeg" ∨ file.type = "image/jpg" ∨ file.type = "image/png")) :
    (fruitSubmit spinner p).defaultPrevented = true ∧
      (fruitSubmit spinner p).notifications = p.notifications ++
        [⟨"Desteklenmeyen dosya formatı. Lütfen JPG, JPEG veya PNG dosyası seçin.", "error"⟩] ∧
      (fruitSubmit spinner p).value = p.value ∧
      (fruitSubmit spinner p).files = p.files ∧
      (fruitSubmit spinner p).progressCalls = p.progressCalls := by
  rw [fruitSubmit_bad_type spinner p file h ht]
  simp [showNotification, preventDefault, typeMessage]

/-- Witness of C2 (amended): a GIF on the fruit form. -/
theorem fruitSubmit_blocks_bad_type_witness :
    (fruitSubmit Examples.spinner (Examples.fruitPageWith Examples.hugeGif)).defaultPrevented
        = true ∧
      (fruitSubmit Examples.spinner (Examples.fruitPageWith Examples.hugeGif)).value
        = (Examples.fruitPageWith Examples.hugeGif).value :=
  ⟨(fruitSubmit_blocks_bad_type Examples.spinner (Examples.fruitPageWith Examples.hugeGif)
      Examples.hugeGif rfl (by decide)).1,
    (fruitSubmit_blocks_bad_type Examples.spinner (Examples.fruitPageWith Examples.hugeGif)
      Examples.hugeGif rfl (by decide)).2.2.1⟩

/-- C3 fails as stated: a 200 MB GIF exceeds both ceilings, and both validators
answer with their type message, not the size-specific one. -/
theorem oversize_gif_gets_type_message :
    104857600 < Examples.hugeGif.size ∧
      (fruitSubmit Examples.spinner (Examples.fruitPageWith Examples.hugeGif)).notifications
        = [⟨"Desteklenmeyen dosya formatı. Lütfen JPG, JPEG veya PNG dosyası seçin.", "error"⟩] ∧
      (fruitSubmit Examples.spinner (Examples.fruitPageWith Examples.hugeGif)).notifications
        ≠ [⟨"Dosya boyutu çok büyük. Maksimum 100MB olabilir.", "error"⟩] ∧
      (FormHandlers.loadFile (Examples.changeWith Examples.hugeGif)).alerts
        = ["Geçersiz dosya formatı. Sadece JPEG, PNG ve TIFF formatları kabul edilir."] ∧
      (FormHandlers.loadFile (Examples.changeWith Examples.hugeGif)).alerts
        ≠ ["Dosya boyutu çok büyük. Maksimum 10MB yüklenebilir."] := by
  decide

/-- C3 (amended): every selected file whose size exceeds the ceiling (104857600
bytes on the fruit-detection form, 10485760 bytes in `loadFile`) is rejected
whatever its MIME type; the message is the size-specific one when the MIME type
is in the validator's allow-list and the type message otherwise. -/
theorem oversize_rejected (spinner : Button → Button) (p : Page) (s : FormHandlers.State)
    (file : File) (rest : List File) :
    (p.files.head? = some file → 104857600 < file.size →
      (fruitSubmit spinner p).defaultPrevented = true ∧
      (fruitSubmit spinner p).progressCalls = p.progressCalls ∧
      (fruitSubmit spinner p).notifications = p.notifications ++
        [⟨if file.type = "image/jpeg" ∨ file.type = "image/jpg" ∨ file.type = "image/png"
            then "Dosya boyutu çok büyük. Maksimum 100MB olabilir."
            else "Desteklenmeyen dosya formatı. Lütfen JPG, JPEG veya PNG dosyası seçin.",
          "error"⟩]) ∧
    (s.files = some (file :: rest) → 10485760 < file.size →
      (FormHandlers.loadFile s).reads = s.reads ∧
      (FormHandlers.loadFile s).value = "" ∧
      (FormHandlers.loadFile s).alerts = s.alerts ++
        [if file.type = "image/jpeg" ∨ file.type = "image/png" ∨ file.type = "image/tiff"
            then "Dosya boyutu çok büyük. Maksimum 10MB yüklenebilir."
            else "Geçersiz dosya formatı. Sadece JPEG, PNG ve TIFF formatları kabul edilir."]) := by
  refine ⟨fun h hs => ?_, fun h hs => ?_⟩
  · by_cases ht : file.type = "image/jpeg" ∨ file.type = "image/jpg" ∨ file.type = "image/png"
    · rw [fruitSubmit_too_large spinner p file h ht hs]
      simp [showNotification, preventDefault, sizeMessage, ht]
    · rw [fruitSubmit_bad_type spinner p file h ht]
      simp [showNotification, preventDefault, typeMessage, ht]
  · by_cases ht : file.type = "image/jpeg" ∨ file.type = "image/png" ∨ file.type = "image/tiff"
    · rw [FormHandlers.loadFile_rejected_size s file rest h ht hs]
      simp [FormHandlers.clearInput, FormHandlers.sizeAlert, ht]
    · rw [FormHandlers.loadFile_rejected_type s file rest h ht]
      simp [FormHandlers.clearInput, FormHandlers.typeAlert, ht]

/-- Witness of C3 (amended): a PNG of 104857601 bytes on the fruit form and a
TIFF of 10485761 bytes in `loadFile`. -/
theorem oversize_rejected_witness :
    (fruitSubmit Examples.spinner (Examples.fruitPageWith Examples.pngOverLimit)).notifications
        = [⟨"Dosya boyutu çok büyük. Maksimum 100MB olabilir.", "error"⟩] ∧
      (FormHandlers.loadFile (Examples.changeWith Examples.tiffOverLimit)).alerts
        = ["Dosya boyutu çok büyük. Maksimum 10MB yüklenebilir."] :=
  ⟨((oversize_rejected Examples.spinner (Examples.fruitPageWith Examples.pngOverLimit)
      (Examples.changeWith Examples.pngOverLimit) Examples.pngOverLimit []).1 rfl
        (by decide)).2.2,
    ((oversize_rejected Examples.spinner (Examples.fruitPageWith Examples.tiffOverLimit)
      (Examples.changeWith Examples.tiffOverLimit) Examples.tiffOverLimit []).2 rfl
        (by decide)).2.2⟩

/-- C4: on a fresh submit event the fruit-detection handler calls
preventDefault if and only if no file is selected, or the file's type is none
of image/jpeg, image/jpg, image/png, or its size is greater than 104857600
bytes; in the complementary case the default is not prevented and
`showDetectionProgress` is called once, and after a rejection it is not called. -/
theorem fruitSubmit_prevents_iff (spinner : Button → Button) (p : Page)
    (h0 : p.defaultPrevented = false) :
    ((fruitSubmit spinner p).defaultPrevented = true ↔
        (p.files.head? = none ∨ ∃ file, p.files.head? = some file ∧
          (¬ (file.type = "image/jpeg" ∨ file.type = "image/jpg" ∨ file.type = "image/png") ∨
            104857600 < file.size))) ∧
      ((fruitSubmit spinner p).defaultPrevented = false →
        (fruitSubmit spinner p).progressCalls = p.progressCalls + 1 ∧
          (fruitSubmit spinner p).notifications = p.notifications) ∧
      ((fruitSubmit spinner p).defaultPrevented = true →
        (fruitSubmit spinner p).progressCalls = p.progressCalls) := by
  cases hf : p.files.head? with
  | none =>
    rw [fruitSubmit_no_file spinner p hf]
    simp [showNotification, preventDefault]
  | some file =>
    by_cases ht : file.type = "image/jpeg" ∨ file.type = "image/jpg" ∨ file.type = "image/png"
    · by_cases hs : file.size ≤ 104857600
      · rw [fruitSubmit_accepted spinner p file hf ht hs]
        obtain ⟨h1, h2, h3, -, -⟩ := showDetectionProgress_frame spinner p
        rw [h1, h2, h3, h0]
        refine ⟨⟨fun h => absurd h (by decide), ?_⟩, fun _ => ⟨rfl, rfl⟩,
          fun h => absurd h (by decide)⟩
        rintro (h | ⟨f, hf2, h | h⟩)
        · exact absurd h (by simp)
        · cases hf2; exact absurd ht h
        · cases hf2; omega
      · have hs3 : 104857600 < file.size := by omega
        rw [fruitSubmit_too_large spinner p file hf ht hs3]
        refine ⟨⟨fun _ => Or.inr ⟨file, rfl, Or.inr hs3⟩, fun _ => rfl⟩,
          fun h => absurd h (by simp [showNotification, preventDefault]), fun _ => rfl⟩
    · rw [fruitSubmit_bad_type spinner p file hf ht]
      refine ⟨⟨fun _ => Or.inr ⟨file, rfl, Or.inl ht⟩, fun _ => rfl⟩,
        fun h => absurd h (by simp [showNotification, preventDefault]), fun _ => rfl⟩

/-- Witness of C4: a PNG of exactly 104857600 bytes passes. -/
theorem fruitSubmit_prevents_iff_witness :
    (Examples.fruitPageWith Examples.pngAtLimit).defaultPrevented = false ∧
      (fruitSubmit Examples.spinner (Examples.fruitPageWith Examples.pngAtLimit)).defaultPrevented
        = false ∧
      (fruitSubmit Examples.spinner (Examples.fruitPageWith Examples.pngAtLimit)).progressCalls
        = 1 :=
  ⟨rfl, by decide,
    ((fruitSubmit_prevents_iff Examples.spinner (Examples.fruitPageWith Examples.pngAtLimit)
      rfl).2.1 (by decide)).1⟩

/-! ## Theorems: deleting a detection -/

theorem removeRow_filter_other (detectionId : Nat) (rows : List Row) :
    (removeRow detectionId rows).filter
        (fun r => decide (r.detectionId ≠ some (toString detectionId))) =
      rows.filter (fun r => decide (r.detectionId ≠ some (toString detectionId))) := by
  induction rows with
  | nil => rfl
  | cons r rest ih =>
    by_cases hm : r.detectionId = some (toString detectionId)
    · simp [removeRow, matchesId, hm]
    · have ih2 := ih
      simp only [ne_eq, decide_not] at ih2
      simp [removeRow, matchesId, hm, ih2]

theorem removeRow_filter_same (detectionId : Nat) (rows : List Row) :
    (removeRow detectionId rows).filter
        (fun r => decide (r.detectionId = some (toString detectionId))) =
      (rows.filter (fun r => decide (r.detectionId = some (toString detectionId)))).tail := by
  induction rows with
  | nil => rfl
  | cons r rest ih =>
    by_cases hm : r.detectionId = some (toString detectionId)
    · simp [removeRow, matchesId, hm]
    · simp [removeRow, matchesId, hm, ih]

/-- C5: for every numeric detection id and every table, when the user confirms
and the DELETE response parses to a value whose `success` is truthy,
`deleteDetection` issues the DELETE request, fires the success notification,
removes the first row whose data-detection-id equals the id, and leaves the rows
with any other id (or none) as they were, in their order. -/
theorem deleteDetection_success (detectionId : Nat) (p : TablePage) (data : Json)
    (success : Option Json) (hd : data.prop "success" = .ok success)
    (ht : truthy success = true) :
    (deleteDetection true (.responded (.ok data)) detectionId p).notifications =
        p.notifications ++ [⟨"Tespit sonucu silindi.", "success"⟩] ∧
      (deleteDetection true (.responded (.ok data)) detectionId p).rows.filter
          (fun r => decide (r.detectionId ≠ some (toString detectionId))) =
        p.rows.filter (fun r => decide (r.detectionId ≠ some (toString detectionId))) ∧
      (deleteDetection true (.responded (.ok data)) detectionId p).rows.filter
          (fun r => decide (r.detectionId = some (toString detectionId))) =
        (p.rows.filter (fun r => decide (r.detectionId = some (toString detectionId)))).tail ∧
      (deleteDetection true (.responded (.ok data)) detectionId p).requests =
        p.requests ++ [⟨"DELETE", "/detection/delete/" ++ toString detectionId⟩] := by
  simp only [deleteDetection, onDeleteData, hd, ht, if_true, notify]
  exact ⟨trivial, removeRow_filter_other detectionId p.rows,
    removeRow_filter_same detectionId p.rows, trivial⟩

/-- Witness of C5: deleting record 7 from a table of three rows. -/
theorem deleteDetection_success_witness :
    (deleteDetection true (.responded (.ok Examples.successBody)) 7 Examples.table).rows.filter
          (fun r => decide (r.detectionId ≠ some (toString 7))) =
        [⟨some "3", "apple"⟩, ⟨none, "header"⟩, ⟨some "12", "pear"⟩] ∧
      (deleteDetection true (.responded (.ok Examples.successBody)) 7 Examples.table).rows.filter
          (fun r => decide (r.detectionId = some (toString 7))) = [] :=
  ⟨(deleteDetection_success 7 Examples.table Examples.successBody
      (some (.bool true)) rfl rfl).2.1,
    (deleteDetection_success 7 Examples.table Examples.successBody
      (some (.bool true)) rfl rfl).2.2.1⟩

/-- C6: for every detection id, when the user confirms and the request fails,
or parsing the response as JSON fails, or the parsed value has a falsy
`success` (or is `null`), `deleteDetection` leaves every row in place and fires
exactly one notification, of type error. -/
theorem deleteDetection_failure (detectionId : Nat) (p : TablePage) (net : DeleteOutcome)
    (h : (∃ e, net = .rejected e) ∨ (∃ e, net = .responded (.error e)) ∨
      (∃ data success, net = .responded (.ok data) ∧ data.prop "success" = .ok success ∧
        truthy success = false) ∨
      (∃ data e, net = .responded (.ok data) ∧ data.prop "success" = .error e)) :
    (deleteDetection true net detectionId p).rows = p.rows ∧
      ∃ text, (deleteDetection true net detectionId p).notifications =
        p.notifications ++ [⟨text, "error"⟩] := by
  rcases h with ⟨e, rfl⟩ | ⟨e, rfl⟩ | ⟨data, success, rfl, hd, ht⟩ | ⟨data, e, rfl, hd⟩
  · exact ⟨rfl, _, rfl⟩
  · exact ⟨rfl, _, rfl⟩
  · simp only [deleteDetection, onDeleteData, hd, ht, if_true, notify]
    exact ⟨rfl, _, rfl⟩
  · simp only [deleteDetection, onDeleteData, hd, if_true]
    exact ⟨rfl, _, rfl⟩

/-- Witness of C6: the server answers `{"success": false}`. -/
theorem deleteDetection_failure_witness :
    (deleteDetection true (.responded (.ok Examples.failureBody)) 7 Examples.table).rows =
        Examples.table.rows ∧
      ∃ text, (deleteDetection true (.responded (.ok Examples.failureBody)) 7
          Examples.table).notifications = Examples.table.notifications ++ [⟨text, "error"⟩] :=
  deleteDetection_failure 7 Examples.table (.responded (.ok Examples.failureBody))
    (Or.inr (Or.inr (Or.inl ⟨Examples.failureBody, some (.bool false), rfl, rfl, rfl⟩)))

/-- C7: for every detection id, when the user declines the confirmation dialog,
`deleteDetection` leaves the page as it was: no request, no row removed, no
notification. -/
theorem deleteDetection_declined (detectionId : Nat) (net : DeleteOutcome) (p : TablePage) :
    deleteDetection false net detectionId p = p ∧
      (deleteDetection false net detectionId p).requests = p.requests ∧
      (deleteDetection false net detectionId p).rows = p.rows ∧
      (deleteDetection false net detectionId p).notifications = p.notifications := by
  simp [deleteDetection]

end Detection

/-! ## Theorems: the analysis overlay loader -/

namespace Mapping

theorem prop_of_not_null (key : String) (a : Json) (h : a.isNull = false) :
    a.prop key = .ok (a.get key) := by
  cases a <;> first | rfl | simp [Json.isNull] at h

theorem get_isNull (key : String) (a : Json) (h : a.isNull = true) : a.get key = none := by
  cases a <;> first | rfl | simp [Json.isNull] at h

theorem addAnalysis_null (env : Env) (st : List Overlay × List (String × String)) (a : Json)
    (h : a.isNull = true) :
    addAnalysis env st a = .error ⟨"TypeError", "Cannot read properties of null"⟩ := by
  cases a <;> first | rfl | simp [Json.isNull] at h

theorem addAnalysis_qualifying (env : Env) (st : List Overlay × List (String × String))
    (a : Json) (hq : (truthy (a.get "bounds") && truthy (a.get "result_path")) = true)
    (he : env.overlayError a = none) :
    ∃ o : Overlay, addAnalysis env st a = .ok (st.1 ++ [o], st.2) ∧
      some o.bounds = a.get "bounds" ∧ some o.url = a.get "result_path" ∧
      o.title = a.get "algorithm" ∧ o.opacity = 0.7 := by
  have hn : a.isNull = false := by
    cases hnull : a.isNull with
    | false => rfl
    | true => rw [get_isNull "bounds" a hnull] at hq; simp [truthy] at hq
  cases hb : a.get "bounds" with
  | none => rw [hb] at hq; simp [truthy] at hq
  | some b =>
    cases hu : a.get "result_path" with
    | none => rw [hu] at hq; simp [truthy] at hq
    | some u =>
      rw [hb, hu] at hq
      simp only [truthy] at hq
      exact ⟨mkOverlay u b a, by simp [addAnalysis, prop_of_not_null "bounds" a hn, hb, hu, hq, he],
        rfl, rfl, rfl, rfl⟩

theorem addAnalysis_other (env : Env) (st : List Overlay × List (String × String))
    (a : Json) (hn : a.isNull = false)
    (hq : (truthy (a.get "bounds") && truthy (a.get "result_path")) = false) :
    addAnalysis env st a = .ok st := by
  cases hb : a.get "bounds" with
  | none => simp [addAnalysis, prop_of_not_null "bounds" a hn, hb]
  | some b =>
    cases hu : a.get "result_path" with
    | none => simp [addAnalysis, prop_of_not_null "bounds" a hn, hb, hu]
    | some u =>
      rw [hb, hu] at hq
      simp only [truthy] at hq
      simp [addAnalysis, prop_of_not_null "bounds" a hn, hb, hu, hq]

theorem forEachAnalysis_spec (env : Env) (analyses : List Json)
    (hn : ∀ a ∈ analyses, a.isNull = false)
    (h : ∀ a ∈ analyses, env.overlayError a = none) :
    ∀ st : List Overlay × List (String × String),
      ((forEachAnalysis env analyses st).1.1.map
          (fun o => (some o.bounds, some o.url, o.title)) =
        st.1.map (fun o => (some o.bounds, some o.url, o.title)) ++
          (analyses.filter
              (fun a => truthy (a.get "bounds") && truthy (a.get "result_path"))).map
            (fun a => (a.get "bounds", a.get "result_path", a.get "algorithm"))) ∧
      (∀ o ∈ (forEachAnalysis env analyses st).1.1, o ∈ st.1 ∨ o.opacity = 0.7) ∧
      (forEachAnalysis env analyses st).1.2 = st.2 ∧
      (forEachAnalysis env analyses st).2 = none := by
  induction analyses with
  | nil => intro st; exact ⟨by simp [forEachAnalysis], fun o ho => Or.inl ho, rfl, rfl⟩
  | cons a rest ih =>
    intro st
    have hrest : ∀ x ∈ rest, env.overlayError x = none :=
      fun x hx => h x (List.mem_cons_of_mem _ hx)
    have hnrest : ∀ x ∈ rest, x.isNull = false :=
      fun x hx => hn x (List.mem_cons_of_mem _ hx)
    cases hq : (truthy (a.get "bounds") && truthy (a.get "result_path")) with
    | false =>
      rw [forEachAnalysis, addAnalysis_other env st a (hn a (List.mem_cons_self _ _)) hq]
      simpa [List.filter_cons, hq] using ih hnrest hrest st
    | true =>
      obtain ⟨o, ho, hb, hu, htitle, hop⟩ :=
        addAnalysis_qualifying env st a hq (h a (List.mem_cons_self _ _))
      rw [forEachAnalysis, ho]
      obtain ⟨h1, h2, h3, h4⟩ := ih hnrest hrest (st.1 ++ [o], st.2)
      refine ⟨?_, ?_, h3, h4⟩
      · rw [h1]
        simp [List.filter_cons, hq, hb, hu, htitle]
      · intro x hx
        rcases h2 x hx with hx2 | hx2
        · rcases List.mem_append.mp hx2 with hx3 | hx3
          · exact Or.inl hx3
          · rw [List.mem_singleton.mp hx3]; exact Or.inr hop
        · exact Or.inr hx2

theorem forEachAnalysis_none (env : Env) (analyses : List Json)
    (h : ∀ a ∈ analyses, a.isNull = false ∧
      (truthy (a.get "bounds") && truthy (a.get "result_path")) = false)
    (st : List Overlay × List (String × String)) :
    forEachAnalysis env analyses st = (st, none) := by
  induction analyses with
  | nil => rfl
  | cons a rest ih =>
    rw [forEachAnalysis, addAnalysis_other env st a (h a (List.mem_cons_self _ _)).1
      (h a (List.mem_cons_self _ _)).2]
    exact ih (fun x hx => h x (List.mem_cons_of_mem _ hx))

theorem forEachAnalysis_null (env : Env) (analyses : List Json)
    (h : ∃ a ∈ analyses, a.isNull = true) :
    ∀ st : List Overlay × List (String × String),
      (forEachAnalysis env analyses st).2 =
        some ⟨"TypeError", "Cannot read properties of null"⟩ := by
  induction analyses with
  | nil => obtain ⟨a, ha, -⟩ := h; simp at ha
  | cons a rest ih =>
    intro st
    cases hnull : a.isNull with
    | true => rw [forEachAnalysis, addAnalysis_null env st a hnull]
    | false =>
      have hrest : ∃ x ∈ rest, x.isNull = true := by
        obtain ⟨x, hx, hxn⟩ := h
        rcases List.mem_cons.mp hx with rfl | hx2
        · rw [hnull] at hxn; exact absurd hxn (by decide)
        · exact ⟨x, hx2, hxn⟩
      rw [forEachAnalysis]
      cases hstep : addAnalysis env st a with
      | error e =>
        exfalso
        cases hb : a.get "bounds" with
        | none => simp [addAnalysis, prop_of_not_null "bounds" a hnull, hb] at hstep
        | some b =>
          cases hu : a.get "result_path" with
          | none => simp [addAnalysis, prop_of_not_null "bounds" a hnull, hb, hu] at hstep
          | some u =>
            simp only [addAnalysis, prop_of_not_null "bounds" a hnull, hb, hu] at hstep
            split at hstep
            · split at hstep <;> cases hstep
            · cases hstep
      | ok st2 => exact ih hrest st2

theorem appendLoadingIndicator_frame (s : MapState) :
    (appendLoadingIndicator s).layerControls = s.layerControls ∧
      (appendLoadingIndicator s).notifications = s.notifications ∧
      (appendLoadingIndicator s).successTimers = s.successTimers ∧
      (appendLoadingIndicator s).logged = s.logged ∧
      (appendLoadingIndicator s).following = s.following ∧
      (appendLoadingIndicator s).containerInDocument = s.containerInDocument := by
  unfold appendLoadingIndicator
  split <;> exact ⟨rfl, rfl, rfl, rfl, rfl, rfl⟩

theorem onFinally_frame (s : MapState) :
    (onFinally s).layerControls = s.layerControls ∧
      (onFinally s).notifications = s.notifications ∧
      (onFinally s).successTimers = s.successTimers ∧
      (onFinally s).detached = s.detached := by
  unfold onFinally
  split <;> exact ⟨rfl, rfl, rfl, rfl⟩

theorem onData_null_record (env : Env) (data : Json) (analyses : List Json) (s : MapState)
    (hd : data.get "analyses" = some (.arr analyses)) (h : ∃ a ∈ analyses, a.isNull = true) :
    (onData env data s).2 = some ⟨"TypeError", "Cannot read properties of null"⟩ ∧
      (onData env data s).1.layerControls = s.layerControls ∧
      (onData env data s).1.notifications = s.notifications ∧
      (onData env data s).1.successTimers = s.successTimers := by
  have hdn : data.isNull = false := by
    cases hnull : data.isNull with
    | false => rfl
    | true => rw [get_isNull "analyses" data hnull] at hd; cases hd
  have hlen : analyses.length > 0 := by
    obtain ⟨a, ha, -⟩ := h
    exact List.length_pos_of_mem ha
  have hr := forEachAnalysis_null env analyses h ([], s.logged)
  simp only [onData, prop_of_not_null "analyses" data hdn, hd, hlen, if_true, layerGroup, hr]
  exact ⟨trivial, trivial, trivial, trivial⟩

theorem errorMessage_null_read :
    errorMessage ⟨"TypeError", "Cannot read properties of null"⟩ =
      "Analiz verileri yüklenemedi." := by
  decide

/-- C8 fails as stated: in the list [null, A], where A has a truthy bounds and
a truthy result_path and overlay construction does not throw, the callback
throws at the null record; A gets no overlay, no layers control reaches the
map, and the default warning is shown. -/
theorem null_record_blocks_later_overlays :
    truthy (Examples.recordA.get "bounds") = true ∧
      truthy (Examples.recordA.get "result_path") = true ∧
      Examples.quietEnv.overlayError Examples.recordA = none ∧
      (layerGroup Examples.quietEnv [.null, Examples.recordA] []).1.1.length = 0 ∧
      (layerGroup Examples.quietEnv [.null, Examples.recordA] []).2 =
        some ⟨"TypeError", "Cannot read properties of null"⟩ ∧
      (loadAnalysisOverlays Examples.quietEnv
        (.response true 200 (.ok (Examples.analysesBody [.null, Examples.recordA])))
        Examples.freshMap).layerControls.length = 0 ∧
      (loadAnalysisOverlays Examples.quietEnv
        (.response true 200 (.ok (Examples.analysesBody [.null, Examples.recordA])))
        Examples.freshMap).notifications = [⟨"Analiz verileri yüklenemedi.", "warning"⟩] := by
  refine ⟨rfl, rfl, rfl, rfl, rfl, by decide, by decide⟩

/-- C8 (amended): for every analyses list without a null record, provided
overlay construction does not throw, the loop ends without an error and the
layer group receives exactly one image overlay for each record whose bounds and
result_path are both truthy, in list order and built from that record's bounds,
result_path and algorithm, each with opacity 0.7, and none for any other
record; a non-empty group is what the layers control put on the map holds.  In
particular, for a list [A, B] where A has both fields and B is a record without
bounds, the group holds exactly A's overlay.  A list with a null record makes
the callback throw, and no layers control is put on the map. -/
theorem layerGroup_exactly_qualifying (env : Env) :
    (∀ (analyses : List Json) (s : MapState),
      (∀ a ∈ analyses, a.isNull = false) → (∀ a ∈ analyses, env.overlayError a = none) →
        (layerGroup env analyses s.logged).2 = none ∧
        (layerGroup env analyses s.logged).1.1.map
            (fun o => (some o.bounds, some o.url, o.title)) =
          (analyses.filter
              (fun a => truthy (a.get "bounds") && truthy (a.get "result_path"))).map
            (fun a => (a.get "bounds", a.get "result_path", a.get "algorithm")) ∧
        (∀ o ∈ (layerGroup env analyses s.logged).1.1, o.opacity = 0.7) ∧
        ((layerGroup env analyses s.logged).1.1 ≠ [] →
          ∀ data : Json, data.get "analyses" = some (.arr analyses) →
            (onData env data s).1.layerControls =
                s.layerControls ++ [(layerGroup env analyses s.logged).1.1] ∧
              (onData env data s).2 = none)) ∧
      (∀ (A B : Json) (logged : List (String × String)),
        env.overlayError A = none → truthy (A.get "bounds") = true →
          truthy (A.get "result_path") = true → B.isNull = false → B.get "bounds" = none →
            (layerGroup env [A, B] logged).1.1.map
                (fun o => (some o.bounds, some o.url, o.title)) =
              [(A.get "bounds", A.get "result_path", A.get "algorithm")]) ∧
      (∀ (analyses : List Json) (data : Json) (status : Nat) (s : MapState),
        data.get "analyses" = some (.arr analyses) → (∃ a ∈ analyses, a.isNull = true) →
          (loadAnalysisOverlays env (.response true status (.ok data)) s).layerControls =
            s.layerControls) := by
  refine ⟨?_, ?_, ?_⟩
  · intro analyses s hn h
    obtain ⟨h1, h2, -, h4⟩ := forEachAnalysis_spec env analyses hn h ([], s.logged)
    refine ⟨h4, by simpa [layerGroup] using h1, ?_, ?_⟩
    · intro o ho
      rcases h2 o ho with hx | hx
      · simp at hx
      · exact hx
    · intro hne data hd
      have hdn : data.isNull = false := by
        cases hnull : data.isNull with
        | false => rfl
        | true => rw [get_isNull "analyses" data hnull] at hd; cases hd
      have hlen : analyses.length > 0 := by
        cases analyses with
        | nil => simp [layerGroup, forEachAnalysis] at hne
        | cons a rest => simp
      have hglen : (layerGroup env analyses s.logged).1.1.length > 0 :=
        List.length_pos.mpr hne
      have h4b : (layerGroup env analyses s.logged).2 = none := h4
      simp only [onData, prop_of_not_null "analyses" data hdn, hd, hlen, if_true, h4b, hglen]
      exact ⟨trivial, trivial⟩
  · intro A B logged hA hb hr hBn hB
    have hqA : (truthy (A.get "bounds") && truthy (A.get "result_path")) = true := by
      simp [hb, hr]
    have hqB : (truthy (B.get "bounds") && truthy (B.get "result_path")) = false := by
      simp [hB, truthy]
    obtain ⟨o, ho, hob, hou, hot, -⟩ := addAnalysis_qualifying env ([], logged) A hqA hA
    simp only [layerGroup, forEachAnalysis, ho, addAnalysis_other env _ B hBn hqB]
    simp [hob, hou, hot]
  · intro analyses data status s hd hnull
    have hdata := onData_null_record env data analyses (appendLoadingIndicator s) hd hnull
    have hfin := onFinally_frame
      (settle env (.response true status (.ok data)) (appendLoadingIndicator s))
    unfold loadAnalysisOverlays
    rw [hfin.1]
    simp only [settle, Bool.not_true, Bool.false_eq_true, if_false]
    rcases hres : onData env data (appendLoadingIndicator s) with ⟨s2, err⟩
    rw [hres] at hdata
    obtain ⟨herr, hlc, -, -⟩ := hdata
    simp only at herr hlc
    subst herr
    simp only [onError]
    rw [hlc]
    exact (appendLoadingIndicator_frame s).1

/-- Witness of C8 (amended): record A has bounds and a result path, record B
has no bounds. -/
theorem layerGroup_exactly_qualifying_witness :
    (layerGroup Examples.quietEnv [Examples.recordA, Examples.recordB] []).1.1.map
        (fun o => (some o.bounds, some o.url, o.title)) =
      [(Examples.recordA.get "bounds", Examples.recordA.get "result_path",
        Examples.recordA.get "algorithm")] :=
  (layerGroup_exactly_qualifying Examples.quietEnv).2.1 Examples.recordA Examples.recordB []
    rfl rfl rfl rfl rfl

/-- C9 fails as stated: in the body {"analyses": [null]} no record has both
bounds and result_path, and in the body null there is no analyses field, yet
the callback throws and the loader shows the default warning. -/
theorem null_record_shows_warning :
    (truthy ((Json.null).get "bounds") && truthy ((Json.null).get "result_path")) = false ∧
      (loadAnalysisOverlays Examples.quietEnv
        (.response true 200 (.ok (Examples.analysesBody [.null])))
        Examples.freshMap).notifications = [⟨"Analiz verileri yüklenemedi.", "warning"⟩] ∧
      (Json.null).get "analyses" = none ∧
      (loadAnalysisOverlays Examples.quietEnv (.response true 200 (.ok .null))
        Examples.freshMap).notifications = [⟨"Analiz verileri yüklenemedi.", "warning"⟩] := by
  refine ⟨rfl, by decide, rfl, by decide⟩

/-- C9 (amended): when the response is ok and its body is not null and has no
analyses field or a falsy one, an empty analyses list, or a list of records
none of which is null or has both a truthy bounds and a truthy result_path,
`loadAnalysisOverlays` puts no layers control on the map, shows no notification
and leaves no success timer pending.  When the body is null or the list holds a
null record, it puts no layers control on the map either, but shows one
warning, 'Analiz verileri yüklenemedi.'. -/
theorem loadAnalysisOverlays_empty (env : Env) (status : Nat) (data : Json) (s : MapState) :
    (data.isNull = false →
      (truthy (data.get "analyses") = false ∨ data.get "analyses" = some (.arr []) ∨
        ∃ analyses, data.get "analyses" = some (.arr analyses) ∧
          ∀ a ∈ analyses, a.isNull = false ∧
            (truthy (a.get "bounds") && truthy (a.get "result_path")) = false) →
      (loadAnalysisOverlays env (.response true status (.ok data)) s).layerControls =
          s.layerControls ∧
        (loadAnalysisOverlays env (.response true status (.ok data)) s).notifications =
          s.notifications ∧
        (loadAnalysisOverlays env (.response true status (.ok data)) s).successTimers =
          s.successTimers) ∧
    ((data.isNull = true ∨
        ∃ analyses, data.get "analyses" = some (.arr analyses) ∧ ∃ a ∈ analyses, a.isNull = true) →
      (loadAnalysisOverlays env (.response true status (.ok data)) s).layerControls =
          s.layerControls ∧
        (loadAnalysisOverlays env (.response true status (.ok data)) s).notifications =
          s.notifications ++ [⟨"Analiz verileri yüklenemedi.", "warning"⟩] ∧
        (loadAnalysisOverlays env (.response true status (.ok data)) s).successTimers =
          s.successTimers) := by
  obtain ⟨a1, a2, a3, -, -, -⟩ := appendLoadingIndicator_frame s
  obtain ⟨f1, f2, f3, -⟩ := onFinally_frame
    (settle env (.response true status (.ok data)) (appendLoadingIndicator s))
  have hsettle : settle env (.response true status (.ok data)) (appendLoadingIndicator s) =
      match onData env data (appendLoadingIndicator s) with
      | (s2, none) => s2
      | (s2, some e) => onError env e s2 := rfl
  unfold loadAnalysisOverlays
  rw [f1, f2, f3, hsettle]
  constructor
  · intro hdn h
    have hquiet : onData env data (appendLoadingIndicator s) = (appendLoadingIndicator s, none) := by
      rcases h with h | h | ⟨l, h, hl⟩
      · simp only [onData, prop_of_not_null "analyses" data hdn]
        cases hv : data.get "analyses" with
        | none => rfl
        | some v =>
          rw [hv] at h
          cases v with
          | null => rfl
          | bool b => rfl
          | num x => rfl
          | str text =>
            have : text = "" := by simpa [truthy, Json.truthy] using h
            subst this
            rfl
          | arr items => simp [truthy, Json.truthy] at h
          | obj fields => simp [truthy, Json.truthy] at h
      · simp [onData, prop_of_not_null "analyses" data hdn, h]
      · cases l with
        | nil => simp [onData, prop_of_not_null "analyses" data hdn, h]
        | cons a rest =>
          simp [onData, prop_of_not_null "analyses" data hdn, h, layerGroup,
            forEachAnalysis_none env (a :: rest) hl]
    rw [hquiet]
    exact ⟨a1, a2, a3⟩
  · rintro (hnull | ⟨l, hl, hnull⟩)
    · have hd : onData env data (appendLoadingIndicator s) =
          (appendLoadingIndicator s, some ⟨"TypeError", "Cannot read properties of null"⟩) := by
        cases data <;> first | rfl | simp [Json.isNull] at hnull
      rw [hd]
      simp only [onError, errorMessage_null_read]
      rw [a1, a2, a3]
      exact ⟨rfl, rfl, rfl⟩
    · have hdata := onData_null_record env data l (appendLoadingIndicator s) hl hnull
      rcases hres : onData env data (appendLoadingIndicator s) with ⟨s2, err⟩
      rw [hres] at hdata
      obtain ⟨herr, hlc, hno, hti⟩ := hdata
      simp only at herr hlc hno hti
      subst herr
      simp only [onError, errorMessage_null_read]
      rw [hlc, hno, hti, a1, a2, a3]
      exact ⟨rfl, rfl, rfl⟩

/-- Witness of C9 (amended): the only record lacks bounds. -/
theorem loadAnalysisOverlays_empty_witness :
    (loadAnalysisOverlays Examples.quietEnv
        (.response true 200 (.ok (Examples.analysesBody [Examples.recordB])))
        Examples.freshMap).layerControls = Examples.freshMap.layerControls ∧
      (loadAnalysisOverlays Examples.quietEnv
        (.response true 200 (.ok (Examples.analysesBody [Examples.recordB])))
        Examples.freshMap).notifications = Examples.freshMap.notifications ∧
      (loadAnalysisOverlays Examples.quietEnv
        (.response true 200 (.ok (Examples.analysesBody [Examples.recordB])))
        Examples.freshMap).successTimers = Examples.freshMap.successTimers :=
  (loadAnalysisOverlays_empty Examples.quietEnv 200 (Examples.analysesBody [Examples.recordB])
    Examples.freshMap).1 rfl
    (Or.inr (Or.inr ⟨[Examples.recordB], rfl, by
      intro a ha
      rw [List.mem_singleton.mp ha]
      exact ⟨rfl, rfl⟩⟩))

/-- C10 fails as stated: a JSON parse error reaching the catch handler is
reported with the default text, which is none of the timeout, connectivity and
server-error messages. -/
theorem onError_default_message :
    (onError Examples.quietEnv Examples.parseError Examples.freshMap).notifications =
        [⟨"Analiz verileri yüklenemedi.", "warning"⟩] ∧
      errorMessage Examples.parseError ≠ "Bağlantı zaman aşımına uğradı. Lütfen tekrar deneyin." ∧
      errorMessage Examples.parseError ≠ "İnternet bağlantınızı kontrol edin ve tekrar deneyin." ∧
      errorMessage Examples.parseError ≠ "Sunucu hatası. Lütfen daha sonra tekrar deneyin." := by
  decide

/-- C10 (amended): for every error that reaches the catch handler, whatever its
name and message, exactly one notification is shown, its type is warning, and
its text is one of exactly four messages: the timeout message, the connectivity
message, the server-error message, or the default 'Analiz verileri
yüklenemedi.'. -/
theorem onError_warning_one_of_four (env : Env) (error : JSError) (s : MapState) :
    (onError env error s).notifications =
        s.notifications ++ [⟨errorMessage error, "warning"⟩] ∧
      (errorMessage error = "Bağlantı zaman aşımına uğradı. Lütfen tekrar deneyin." ∨
        errorMessage error = "İnternet bağlantınızı kontrol edin ve tekrar deneyin." ∨
        errorMessage error = "Sunucu hatası. Lütfen daha sonra tekrar deneyin." ∨
        errorMessage error = "Analiz verileri yüklenemedi.") := by
  refine ⟨rfl, ?_⟩
  unfold errorMessage
  split_ifs
  · exact Or.inl rfl
  · exact Or.inr (Or.inl rfl)
  · exact Or.inr (Or.inr (Or.inl rfl))
  · exact Or.inr (Or.inr (Or.inr rfl))

/-! ### Timeout, HTTP errors and the loading indicator -/

theorem settle_rejected (env : Env) (net : FetchResult) (s : MapState)
    (e : JSError) (h : rejection net = some e) :
    settle env net s = onError env e s := by
  cases net with
  | timedOut => simp only [rejection, Option.some.injEq] at h; subst h; rfl
  | failed e2 => simp only [rejection, Option.some.injEq] at h; subst h; rfl
  | response ok status body =>
    cases ok with
    | false => simp [rejection] at h; subst h; rfl
    | true =>
      cases body with
      | error e2 => simp [rejection] at h; subst h; rfl
      | ok d => simp [rejection] at h

theorem loadAnalysisOverlays_rejected (env : Env) (net : FetchResult) (s : MapState)
    (e : JSError) (h : rejection net = some e) :
    loadAnalysisOverlays env net s = onFinally (onError env e (appendLoadingIndicator s)) := by
  unfold loadAnalysisOverlays
  rw [settle_rejected env net _ e h]

theorem rejected_notifications (env : Env) (e : JSError) (s : MapState) :
    (onFinally (onError env e (appendLoadingIndicator s))).notifications =
      s.notifications ++ [⟨errorMessage e, "warning"⟩] := by
  rw [(onFinally_frame _).2.1]
  simp only [onError]
  rw [(appendLoadingIndicator_frame s).2.1]

theorem fetchWithTimeout_late (fetch : Option (Nat × FetchSettlement))
    (h : fetch = none ∨ ∃ t r, fetch = some (t, r) ∧ 10000 ≤ t) :
    fetchWithTimeout 10000 fetch = .timedOut := by
  rcases h with rfl | ⟨t, r, rfl, ht⟩
  · rfl
  · have : ¬ t < 10000 := by omega
    simp [fetchWithTimeout, this]

/-- C11: when the fetch of /api/vegetation_analyses has not settled before the
10000 ms timer fires (it never settles, or settles at 10000 ms or later), the
race rejects with an error whose message is exactly 'Request timeout' and the
loader shows one warning, the timeout message 'Bağlantı zaman aşımına uğradı.
Lütfen tekrar deneyin.', which differs from the connectivity, server-error and
default messages. -/
theorem timeout_shows_timeout_warning (env : Env) (s : MapState)
    (fetch : Option (Nat × FetchSettlement))
    (h : fetch = none ∨ ∃ t r, fetch = some (t, r) ∧ 10000 ≤ t) :
    rejection (fetchWithTimeout 10000 fetch) = some ⟨"Error", "Request timeout"⟩ ∧
      (loadAnalysisOverlaysRaced env fetch s).notifications = s.notifications ++
        [⟨"Bağlantı zaman aşımına uğradı. Lütfen tekrar deneyin.", "warning"⟩] ∧
      timeoutMessage ≠ connectivityMessage ∧ timeoutMessage ≠ serverMessage ∧
      timeoutMessage ≠ genericMessage := by
  have hr : rejection (fetchWithTimeout 10000 fetch) = some ⟨"Error", "Request timeout"⟩ := by
    rw [fetchWithTimeout_late fetch h]; rfl
  refine ⟨hr, ?_, by decide, by decide, by decide⟩
  unfold loadAnalysisOverlaysRaced
  rw [loadAnalysisOverlays_rejected env _ s _ hr, rejected_notifications]
  rfl

/-- Witness of C11: the response arrives after 12 seconds. -/
theorem timeout_shows_timeout_warning_witness :
    (loadAnalysisOverlaysRaced Examples.quietEnv Examples.slowFetch
        Examples.freshMap).notifications =
      [⟨"Bağlantı zaman aşımına uğradı. Lütfen tekrar deneyin.", "warning"⟩] :=
  (timeout_shows_timeout_warning Examples.quietEnv Examples.freshMap Examples.slowFetch
    (Or.inr ⟨12000, _, rfl, by decide⟩)).2.1

theorem digitChar_ne_f (d : Nat) (h : d < 10) : Nat.digitChar d ≠ 'f' := by
  interval_cases d <;> decide

theorem toDigitsCore_no_f (fuel : Nat) :
    ∀ (n : Nat) (ds : List Char), 'f' ∉ ds → 'f' ∉ Nat.toDigitsCore 10 fuel n ds := by
  induction fuel with
  | zero => intro n ds h; simpa [Nat.toDigitsCore] using h
  | succ fuel ih =>
    intro n ds h
    have hd : Nat.digitChar (n % 10) ≠ 'f' := digitChar_ne_f _ (Nat.mod_lt _ (by decide))
    have hcons : 'f' ∉ Nat.digitChar (n % 10) :: ds := by
      simp only [List.mem_cons, not_or]
      exact ⟨fun h2 => hd h2.symm, h⟩
    rw [Nat.toDigitsCore]
    split_ifs
    · exact hcons
    · exact ih _ _ hcons

theorem toString_nat_no_f (n : Nat) : 'f' ∉ (toString n).toList := by
  have h := toDigitsCore_no_f (n + 1) n [] (by simp)
  simpa [toString, Nat.repr, Nat.toDigits, List.asString] using h

theorem mem_of_includes (haystack needle : String) (c : Char)
    (h : includes haystack needle = true) (hc : c ∈ needle.toList) : c ∈ haystack.toList := by
  unfold includes at h
  rw [List.any_eq_true] at h
  obtain ⟨t, ht, hp⟩ := h
  have hp2 : needle.toList <+: t := List.isPrefixOf_iff_prefix.mp hp
  have hs : t <:+ haystack.toList := (List.mem_tails _ _).mp ht
  exact hs.subset (hp2.subset hc)

theorem includes_of_prefix (start rest needle : String)
    (h : needle.toList.isPrefixOf start.toList = true) :
    includes (start ++ rest) needle = true := by
  unfold includes
  rw [List.any_eq_true]
  refine ⟨(start ++ rest).toList, ?_, ?_⟩
  · exact (List.mem_tails _ _).mpr (List.suffix_refl _)
  · rw [List.isPrefixOf_iff_prefix] at h ⊢
    have : (start ++ rest).toList = start.toList ++ rest.toList := by
      simp [String.toList]
    rw [this]
    exact h.trans (List.prefix_append _ _)

/-- C12: for every response with `response.ok` false, whatever its numeric
status N, the error thrown has the message 'HTTP error! status: N', which is
not 'Request timeout' and does not contain 'fetch', and the loader shows one
warning, the server-error message 'Sunucu hatası. Lütfen daha sonra tekrar
deneyin.'. -/
theorem http_error_shows_server_warning (env : Env) (s : MapState) (status : Nat)
    (body : Except JSError Json) :
    rejection (.response false status body) =
        some ⟨"Error", "HTTP error! status: " ++ toString status⟩ ∧
      "HTTP error! status: " ++ toString status ≠ "Request timeout" ∧
      includes ("HTTP error! status: " ++ toString status) "fetch" = false ∧
      (loadAnalysisOverlays env (.response false status body) s).notifications =
        s.notifications ++ [⟨"Sunucu hatası. Lütfen daha sonra tekrar deneyin.", "warning"⟩] := by
  have hne : "HTTP error! status: " ++ toString status ≠ "Request timeout" := by
    intro h
    have h2 := congrArg String.toList h
    have h3 : ("HTTP error! status: " ++ toString status).toList =
        "HTTP error! status: ".toList ++ (toString status).toList := by simp [String.toList]
    have hH : "HTTP error! status: ".toList = 'H' :: "TTP error! status: ".toList := by decide
    have hR : "Request timeout".toList = 'R' :: "equest timeout".toList := by decide
    rw [h3, hH, hR, List.cons_append] at h2
    exact absurd (List.cons.inj h2).1 (by decide)
  have hfetch : includes ("HTTP error! status: " ++ toString status) "fetch" = false := by
    rw [← Bool.not_eq_true]
    intro h
    have hmem := mem_of_includes _ "fetch" 'f' h (by decide)
    have h3 : ("HTTP error! status: " ++ toString status).toList =
        "HTTP error! status: ".toList ++ (toString status).toList := by simp [String.toList]
    rw [h3, List.mem_append] at hmem
    rcases hmem with hmem | hmem
    · revert hmem; decide
    · exact toString_nat_no_f status hmem
  have hhttp : includes ("HTTP error! status: " ++ toString status) "HTTP error" = true :=
    includes_of_prefix _ _ _ (by decide)
  refine ⟨rfl, hne, hfetch, ?_⟩
  rw [loadAnalysisOverlays_rejected env (.response false status body) s
    ⟨"Error", "HTTP error! status: " ++ toString status⟩ rfl, rejected_notifications]
  simp [errorMessage, hne, hfetch, hhttp, serverMessage]

theorem removeFirstWithId_append_of_not_mem (id : String) (xs : List Element) (y : Element)
    (h : ∀ e ∈ xs, e.id ≠ id) (hy : y.id = id) :
    removeFirstWithId id (xs ++ [y]) = xs := by
  induction xs with
  | nil => simp [removeFirstWithId, hy]
  | cons x rest ih =>
    have hx : x.id ≠ id := h x (List.mem_cons_self _ _)
    simp [removeFirstWithId, hx, ih (fun e he => h e (List.mem_cons_of_mem _ he))]

theorem onData_frame (env : Env) (data : Json) (s : MapState) :
    (onData env data s).1.preceding = s.preceding ∧
      (onData env data s).1.following = s.following ∧
      (onData env data s).1.detached = s.detached ∧
      (onData env data s).1.containerInDocument = s.containerInDocument := by
  unfold onData
  split
  · exact ⟨rfl, rfl, rfl, rfl⟩
  · dsimp only
    split
    · split
      · exact ⟨rfl, rfl, rfl, rfl⟩
      · split <;> exact ⟨rfl, rfl, rfl, rfl⟩
    · exact ⟨rfl, rfl, rfl, rfl⟩
  · split <;> exact ⟨rfl, rfl, rfl, rfl⟩
  · split
    · exact ⟨rfl, rfl, rfl, rfl⟩
    · split
      · split <;> exact ⟨rfl, rfl, rfl, rfl⟩
      · exact ⟨rfl, rfl, rfl, rfl⟩
  · exact ⟨rfl, rfl, rfl, rfl⟩

theorem settle_frame (env : Env) (net : FetchResult) (s : MapState) :
    (settle env net s).preceding = s.preceding ∧
      (settle env net s).following = s.following ∧
      (settle env net s).detached = s.detached ∧
      (settle env net s).containerInDocument = s.containerInDocument := by
  cases net with
  | timedOut => exact ⟨rfl, rfl, rfl, rfl⟩
  | failed e => exact ⟨rfl, rfl, rfl, rfl⟩
  | response ok status body =>
    cases ok with
    | false => exact ⟨rfl, rfl, rfl, rfl⟩
    | true =>
      cases body with
      | error e => exact ⟨rfl, rfl, rfl, rfl⟩
      | ok data =>
        have h := onData_frame env data s
        simp only [settle, Bool.not_true, Bool.false_eq_true, if_false]
        rcases hres : onData env data s with ⟨s2, err⟩
        rw [hres] at h
        cases err with
        | none => exact h
        | some e => exact h

theorem settled_document (env : Env) (net : FetchResult) (s : MapState)
    (hdoc : s.containerInDocument = true) :
    (loadAnalysisOverlays env net s).preceding =
        removeFirstWithId "map-loading" (s.preceding ++ [loadingIndicator]) ∧
      (loadAnalysisOverlays env net s).following = s.following := by
  obtain ⟨h1, h2, -, -⟩ := settle_frame env net (appendLoadingIndicator s)
  have ha : (appendLoadingIndicator s).preceding = s.preceding ++ [loadingIndicator] := by
    simp [appendLoadingIndicator, hdoc]
  have hany : (settle env net (appendLoadingIndicator s)).preceding.any
      (fun e => e.id = "map-loading") = true := by
    rw [h1, ha]
    simp [loadingIndicator]
  unfold loadAnalysisOverlays onFinally
  rw [if_pos hany]
  dsimp only
  rw [h1, h2, ha]
  exact ⟨rfl, (appendLoadingIndicator_frame s).2.2.2.2.1⟩

/-- C13 fails as stated: on a page that holds an element with the id
'map-loading' before the map container, the settled chain has removed that
older element, and the indicator the loader appended is still the last child of
the map container; and in a map container that is not in the document the
indicator is not found and stays. -/
theorem older_indicator_removed_instead :
    Examples.crowdedMap.preceding = [Examples.olderIndicator, Examples.mapElement] ∧
      (appendLoadingIndicator Examples.crowdedMap).preceding =
        [Examples.olderIndicator, Examples.mapElement, loadingIndicator] ∧
      (loadAnalysisOverlays Examples.quietEnv .timedOut Examples.crowdedMap).preceding =
        [Examples.mapElement, loadingIndicator] ∧
      (loadAnalysisOverlays Examples.quietEnv
        (.response true 200 (.ok (Examples.analysesBody [])))
        Examples.crowdedMap).preceding = [Examples.mapElement, loadingIndicator] ∧
      (loadAnalysisOverlays Examples.quietEnv .timedOut Examples.detachedMap).detached =
        [loadingIndicator] := by
  decide

/-- C13 (amended): when the map container is in the document, the loader
appends the indicator element with id 'map-loading' as the last child of the
container before the request is made, and in every outcome of
`loadAnalysisOverlays` (timeout, network failure, non-2xx response, unreadable
body, a callback that throws, empty or populated data) the settled chain has
removed the first element of the document with that id.  When no element before
the appended indicator carries the id, that first element is the indicator: the
document is again as it was before the call, the indicator gone and every other
element in place. -/
theorem loading_indicator_removed (env : Env) (net : FetchResult) (s : MapState)
    (hdoc : s.containerInDocument = true) :
    (appendLoadingIndicator s).preceding = s.preceding ++ [loadingIndicator] ∧
      (appendLoadingIndicator s).following = s.following ∧
      loadingIndicator.id = "map-loading" ∧
      (loadAnalysisOverlays env net s).preceding =
        removeFirstWithId "map-loading" (s.preceding ++ [loadingIndicator]) ∧
      (loadAnalysisOverlays env net s).following = s.following ∧
      ((∀ e ∈ s.preceding, e.id ≠ "map-loading") →
        (loadAnalysisOverlays env net s).preceding = s.preceding) := by
  obtain ⟨h1, h2⟩ := settled_document env net s hdoc
  refine ⟨by simp [appendLoadingIndicator, hdoc], (appendLoadingIndicator_frame s).2.2.2.2.1,
    rfl, h1, h2, fun hnone => ?_⟩
  rw [h1]
  exact removeFirstWithId_append_of_not_mem _ _ _ hnone rfl

/-- Witness of C13 (amended): a populated load on a page without indicator
leaves the document as it was. -/
theorem loading_indicator_removed_witness :
    (loadAnalysisOverlays Examples.quietEnv
        (.response true 200 (.ok (Examples.analysesBody [Examples.recordA])))
        Examples.freshMap).preceding = [Examples.mapElement] :=
  (loading_indicator_removed Examples.quietEnv
    (.response true 200 (.ok (Examples.analysesBody [Examples.recordA]))) Examples.freshMap
    rfl).2.2.2.2.2 (by decide)

/-! ### The analysis detail modal -/

theorem bind_ok_iff {α β : Type} (x : Except JSError α) (f : α → Except JSError β) (b : β) :
    (x >>= f) = .ok b ↔ ∃ a, x = .ok a ∧ f a = .ok b := by
  cases x with
  | error e => simp [bind, Except.bind]
  | ok a => simp [bind, Except.bind]

theorem interpolate_ok_iff (value shown : Option Json) :
    interpolate value = .ok shown ↔
      shown = value ∧ ∀ v, value = some v → v.stringifies = true := by
  cases value with
  | none =>
    simp only [interpolate, Except.ok.injEq]
    constructor
    · intro h; exact ⟨h.symm, fun v hv => by cases hv⟩
    · intro h; exact h.1.symm
  | some v =>
    cases hv : v.stringifies
    · simp only [interpolate, hv, Bool.false_eq_true, if_false]
      constructor
      · intro h; cases h
      · intro h
        have := h.2 v rfl
        rw [hv] at this
        cases this
    · simp only [interpolate, hv, if_true, Except.ok.injEq]
      constructor
      · intro h
        refine ⟨h.symm, fun w hw => ?_⟩
        cases hw
        exact hv
      · intro h; exact h.1.symm

theorem toUpperCaseOf_ok_iff (value : Option Json) (text : String) :
    toUpperCaseOf value = .ok text ↔ value = some (.str text) := by
  cases value with
  | none => simp [toUpperCaseOf]
  | some v =>
    cases v <;> simp only [toUpperCaseOf] <;>
      (constructor <;> intro h <;> cases h <;> rfl)

theorem toFixedOf_ok_iff (value : Option Json) (t : NumberText) :
    toFixedOf value = .ok t ↔ ∃ x, value = some (.num x) ∧ t = toFixed 3 (some x) := by
  cases value with
  | none =>
    simp only [toFixedOf]
    constructor
    · intro h; cases h
    · rintro ⟨x, h, -⟩; cases h
  | some v =>
    cases v <;> simp only [toFixedOf] <;>
      first
      | (constructor
         · intro h; cases h
         · rintro ⟨x, h, -⟩; cases h)
      | (constructor
         · intro h; cases h; exact ⟨_, rfl, rfl⟩
         · rintro ⟨x, h, ht⟩; cases h; rw [ht])

theorem toLocaleStringOf_ok_iff (value : Option Json) (v : Json) :
    toLocaleStringOf value = .ok v ↔ value = some v ∧ v.localizes = true := by
  cases value with
  | none =>
    simp only [toLocaleStringOf]
    constructor
    · intro h; cases h
    · rintro ⟨h, -⟩; cases h
  | some w =>
    cases hw : w.localizes
    · simp only [toLocaleStringOf, hw, Bool.false_eq_true, if_false]
      constructor
      · intro h; cases h
      · rintro ⟨h, h2⟩
        cases h
        rw [hw] at h2
        cases h2
    · simp only [toLocaleStringOf, hw, if_true, Except.ok.injEq]
      constructor
      · intro h; subst h; exact ⟨rfl, hw⟩
      · rintro ⟨h, -⟩; cases h; rfl

theorem readProp_ok_iff (key : String) (value result : Option Json) :
    readProp key value = .ok result ↔
      ∃ v, value = some v ∧ v.isNull = false ∧ result = v.get key := by
  cases value with
  | none =>
    simp only [readProp]
    constructor
    · intro h; cases h
    · rintro ⟨v, h, -⟩; cases h
  | some v =>
    cases hn : v.isNull
    · rw [readProp, prop_of_not_null key v hn]
      constructor
      · intro h; cases h; exact ⟨v, rfl, hn, rfl⟩
      · rintro ⟨w, h, -, hr⟩; cases h; rw [hr]
    · have hv : v = .null := by cases v <;> first | rfl | simp [Json.isNull] at hn
      subst hv
      simp only [readProp, Json.prop]
      constructor
      · intro h; cases h
      · rintro ⟨w, h, hw, -⟩
        cases h
        simp [Json.isNull] at hw

mutual
theorem localizes_stringifies : ∀ v : Json, v.localizes = true → v.stringifies = true
  | .null, _ => rfl
  | .bool _, _ => rfl
  | .num _, _ => rfl
  | .str _, _ => rfl
  | .obj fields, h => by
    simp only [Json.localizes, Bool.and_eq_true] at h
    simpa [Json.stringifies] using h.2
  | .arr items, h => by
    simp only [Json.localizes] at h
    simpa [Json.stringifies] using localizesAll_stringifiesAll items h
theorem localizesAll_stringifiesAll : ∀ items : List Json,
    localizesAll items = true → stringifiesAll items = true
  | [], _ => rfl
  | x :: xs, h => by
    simp only [localizesAll, Bool.and_eq_true, Bool.or_eq_true] at h
    simp only [stringifiesAll, Bool.and_eq_true]
    refine ⟨?_, localizesAll_stringifiesAll xs h.2⟩
    rcases h.1 with hx | hx
    · cases x <;> first | rfl | simp [Json.isNull] at hx
    · exact localizes_stringifies x hx
end

theorem operand_ok_iff (value result : Json) :
    operand value = .ok result ↔ result = value ∧ value.stringifies = true := by
  cases hv : value.stringifies
  · simp only [operand, hv, Bool.false_eq_true, if_false]
    constructor
    · intro h; cases h
    · rintro ⟨-, h⟩; cases h
  · simp only [operand, hv, if_true, Except.ok.injEq]
    constructor
    · intro h; exact ⟨h.symm, trivial⟩
    · rintro ⟨h, -⟩; exact h.symm

theorem ok_bind {α β : Type} (a : α) (f : α → Except JSError β) :
    ((Except.ok a : Except JSError α) >>= f) = f a := rfl

theorem renderStatistics_notice (data : Json) (hn : data.isNull = false)
    (hf : truthy (data.get "has_valid_statistics") = false) :
    renderStatistics data = .ok .notice := by
  rw [renderStatistics, prop_of_not_null _ data hn, ok_bind]
  simp only [hf, Bool.false_eq_true, if_false]
  rfl

theorem renderStatistics_block_iff (data : Json) (hn : data.isNull = false)
    (hf : truthy (data.get "has_valid_statistics") = true) (panel : StatisticsPanel) :
    renderStatistics data = .ok panel ↔
      ∃ (st : Json) (mean std median min max : JSNumber) (pc tp : Json),
        data.get "statistics" = some st ∧
        st.get "mean" = some (.num mean) ∧ st.get "std" = some (.num std) ∧
        st.get "median" = some (.num median) ∧ st.get "min" = some (.num min) ∧
        st.get "max" = some (.num max) ∧
        st.get "pixel_count" = some pc ∧ st.get "total_pixels" = some tp ∧
        pc.localizes = true ∧ tp.localizes = true ∧
        panel = .block (toFixed 3 (some mean)) (toFixed 3 (some std)) (toFixed 3 (some median))
          (toFixed 3 (some min)) (toFixed 3 (some max)) pc tp (ratioText pc tp) := by
  rw [renderStatistics, prop_of_not_null _ data hn, ok_bind]
  simp only [hf, if_true]
  rw [prop_of_not_null _ data hn, ok_bind]
  simp only [bind_ok_iff, readProp_ok_iff, toFixedOf_ok_iff, toLocaleStringOf_ok_iff,
    operand_ok_iff, pure, Except.pure, Except.ok.injEq]
  constructor
  · rintro ⟨t1, ⟨r1, ⟨st, hst, -, rfl⟩, mean, hmean, rfl⟩, t2, ⟨r2, ⟨st2, hst2, -, rfl⟩, std, hstd, rfl⟩,
      t3, ⟨r3, ⟨st3, hst3, -, rfl⟩, median, hmedian, rfl⟩,
      t4, ⟨r4, ⟨st4, hst4, -, rfl⟩, min, hmin, rfl⟩,
      t5, ⟨r5, ⟨st5, hst5, -, rfl⟩, max, hmax, rfl⟩,
      pc, ⟨r6, ⟨st6, hst6, -, rfl⟩, hpc, hpcl⟩,
      tp, ⟨r7, ⟨st7, hst7, -, rfl⟩, htp, htpl⟩,
      w1, ⟨hw1, -⟩, w2, ⟨hw2, -⟩, hpanel⟩
    rw [hw1, hw2] at hpanel
    rw [hst] at hst2 hst3 hst4 hst5 hst6 hst7
    cases hst2; cases hst3; cases hst4; cases hst5; cases hst6; cases hst7
    exact ⟨st, mean, std, median, min, max, pc, tp, hst, hmean, hstd, hmedian, hmin, hmax,
      hpc, htp, hpcl, htpl, hpanel.symm⟩
  · rintro ⟨st, mean, std, median, min, max, pc, tp, hst, hmean, hstd, hmedian, hmin, hmax,
      hpc, htp, hpcl, htpl, hpanel⟩
    have hstn : st.isNull = false := by
      cases hnull : st.isNull with
      | false => rfl
      | true => rw [get_isNull "mean" st hnull] at hmean; cases hmean
    exact ⟨_, ⟨_, ⟨st, hst, hstn, rfl⟩, mean, hmean, rfl⟩, _, ⟨_, ⟨st, hst, hstn, rfl⟩, std, hstd, rfl⟩,
      _, ⟨_, ⟨st, hst, hstn, rfl⟩, median, hmedian, rfl⟩,
      _, ⟨_, ⟨st, hst, hstn, rfl⟩, min, hmin, rfl⟩,
      _, ⟨_, ⟨st, hst, hstn, rfl⟩, max, hmax, rfl⟩,
      pc, ⟨_, ⟨st, hst, hstn, rfl⟩, hpc, hpcl⟩,
      tp, ⟨_, ⟨st, hst, hstn, rfl⟩, htp, htpl⟩,
      pc, ⟨rfl, localizes_stringifies pc hpcl⟩, tp, ⟨rfl, localizes_stringifies tp htpl⟩,
      hpanel.symm⟩

theorem not_null_of_truthy (key : String) (a : Json) (h : truthy (a.get key) = true) :
    a.isNull = false := by
  cases hnull : a.isNull with
  | false => rfl
  | true => rw [get_isNull key a hnull] at h; cases h

theorem renderStatistics_returns_iff (data : Json) (hn : data.isNull = false) :
    (∃ panel, renderStatistics data = .ok panel) ↔
      (truthy (data.get "has_valid_statistics") = false ∨
        ∃ st, data.get "statistics" = some st ∧
          (∀ key ∈ ["mean", "std", "median", "min", "max"], ∃ x, st.get key = some (.num x)) ∧
          (∀ key ∈ ["pixel_count", "total_pixels"],
            ∃ v, st.get key = some v ∧ v.localizes = true)) := by
  cases hf : truthy (data.get "has_valid_statistics") with
  | false =>
    simp only [true_or, iff_true]
    exact ⟨_, renderStatistics_notice data hn hf⟩
  | true =>
    simp only [Bool.true_eq_false, false_or]
    constructor
    · rintro ⟨panel, hp⟩
      obtain ⟨st, mean, std, median, min, max, pc, tp, hst, hmean, hstd, hmedian, hmin, hmax,
        hpc, htp, hpcl, htpl, -⟩ := (renderStatistics_block_iff data hn hf panel).mp hp
      refine ⟨st, hst, ?_, ?_⟩
      · intro key hkey
        simp only [List.mem_cons, List.mem_singleton, List.not_mem_nil, or_false] at hkey
        rcases hkey with rfl | rfl | rfl | rfl | rfl
        exacts [⟨_, hmean⟩, ⟨_, hstd⟩, ⟨_, hmedian⟩, ⟨_, hmin⟩, ⟨_, hmax⟩]
      · intro key hkey
        simp only [List.mem_cons, List.mem_singleton, List.not_mem_nil, or_false] at hkey
        rcases hkey with rfl | rfl
        exacts [⟨_, hpc, hpcl⟩, ⟨_, htp, htpl⟩]
    · rintro ⟨st, hst, hnum, hloc⟩
      obtain ⟨mean, hmean⟩ := hnum "mean" (by simp)
      obtain ⟨std, hstd⟩ := hnum "std" (by simp)
      obtain ⟨median, hmedian⟩ := hnum "median" (by simp)
      obtain ⟨min, hmin⟩ := hnum "min" (by simp)
      obtain ⟨max, hmax⟩ := hnum "max" (by simp)
      obtain ⟨pc, hpc, hpcl⟩ := hloc "pixel_count" (by simp)
      obtain ⟨tp, htp, htpl⟩ := hloc "total_pixels" (by simp)
      exact ⟨_, (renderStatistics_block_iff data hn hf _).mpr
        ⟨st, mean, std, median, min, max, pc, tp, hst, hmean, hstd, hmedian, hmin, hmax,
          hpc, htp, hpcl, htpl, rfl⟩⟩

theorem successTemplate_ok_iff (data : Json) (hn : data.isNull = false)
    (content : ModalContent) :
    successTemplate data = .ok content ↔
      ∃ (algorithm : String) (panel : StatisticsPanel),
        data.get "algorithm" = some (.str algorithm) ∧
        (∀ key ∈ ["result_path", "id", "colormap", "min_range", "max_range", "created_at"],
          ∀ v, data.get key = some v → v.stringifies = true) ∧
        renderStatistics data = .ok panel ∧
        content = .details (data.get "result_path") (data.get "id") algorithm
          (data.get "colormap") (data.get "min_range") (data.get "max_range")
          (data.get "created_at") panel := by
  rw [successTemplate]
  simp only [prop_of_not_null _ data hn, ok_bind, bind_ok_iff, interpolate_ok_iff,
    toUpperCaseOf_ok_iff, pure, Except.pure, Except.ok.injEq]
  constructor
  · rintro ⟨r1, ⟨rfl, h1⟩, r2, ⟨rfl, h2⟩, algorithm, halg, r4, ⟨rfl, h4⟩, r5, ⟨rfl, h5⟩,
      r6, ⟨rfl, h6⟩, r7, ⟨rfl, h7⟩, panel, hpanel, hc⟩
    refine ⟨algorithm, panel, halg, ?_, hpanel, hc.symm⟩
    intro key hkey
    simp only [List.mem_cons, List.mem_singleton, List.not_mem_nil, or_false] at hkey
    rcases hkey with rfl | rfl | rfl | rfl | rfl | rfl
    exacts [h1, h2, h4, h5, h6, h7]
  · rintro ⟨algorithm, panel, halg, hkeys, hpanel, hc⟩
    exact ⟨_, ⟨rfl, hkeys "result_path" (by simp)⟩, _, ⟨rfl, hkeys "id" (by simp)⟩,
      algorithm, halg, _, ⟨rfl, hkeys "colormap" (by simp)⟩,
      _, ⟨rfl, hkeys "min_range" (by simp)⟩, _, ⟨rfl, hkeys "max_range" (by simp)⟩,
      _, ⟨rfl, hkeys "created_at" (by simp)⟩, panel, hpanel, hc.symm⟩

theorem loadAnalysisDetails_success (data : Json) (analysisId : Nat) (m : ModalState)
    (hs : truthy (data.get "success") = true) :
    loadAnalysisDetails (.responded (.ok data)) analysisId m =
      match successTemplate data with
      | .ok content =>
        { m with requests := m.requests ++ ["/api/analysis/" ++ toString analysisId],
                 content := content, showCalls := m.showCalls + 1 }
      | .error _ =>
        onDetailError { m with requests := m.requests ++ ["/api/analysis/" ++ toString analysisId] } := by
  have hn := not_null_of_truthy "success" data hs
  simp only [loadAnalysisDetails, onDetailData, prop_of_not_null _ data hn, ok_bind, hs, if_true]
  cases successTemplate data with
  | error e => rfl
  | ok c => rfl

theorem loadAnalysisDetails_failure (data : Json) (analysisId : Nat) (m : ModalState)
    (hn : data.isNull = false) (hs : truthy (data.get "success") = false) :
    loadAnalysisDetails (.responded (.ok data)) analysisId m =
      match failureTemplate data with
      | .ok content =>
        { m with requests := m.requests ++ ["/api/analysis/" ++ toString analysisId],
                 content := content }
      | .error _ =>
        onDetailError { m with requests := m.requests ++ ["/api/analysis/" ++ toString analysisId] } := by
  simp only [loadAnalysisDetails, onDetailData, prop_of_not_null _ data hn, ok_bind, hs,
    Bool.false_eq_true, if_false]
  cases failureTemplate data with
  | error e => rfl
  | ok c => rfl

theorem loadAnalysisDetails_template_ok (data : Json) (analysisId : Nat) (m : ModalState)
    (hs : truthy (data.get "success") = true) (content : ModalContent)
    (h : successTemplate data = .ok content) :
    (loadAnalysisDetails (.responded (.ok data)) analysisId m).content = content ∧
      (loadAnalysisDetails (.responded (.ok data)) analysisId m).showCalls = m.showCalls + 1 := by
  rw [loadAnalysisDetails_success data analysisId m hs, h]
  exact ⟨rfl, rfl⟩

theorem loadAnalysisDetails_template_error (data : Json) (analysisId : Nat) (m : ModalState)
    (hs : truthy (data.get "success") = true)
    (h : ∀ content, successTemplate data ≠ .ok content) :
    (loadAnalysisDetails (.responded (.ok data)) analysisId m).content =
        .alert "Analiz detayları yüklenirken hata oluştu." ∧
      (loadAnalysisDetails (.responded (.ok data)) analysisId m).showCalls = m.showCalls := by
  rw [loadAnalysisDetails_success data analysisId m hs]
  cases hc : successTemplate data with
  | error e => exact ⟨rfl, rfl⟩
  | ok c => exact absurd hc (h c)

theorem successTemplate_returns_iff (data : Json) (hn : data.isNull = false) :
    (∃ content, successTemplate data = .ok content) ↔
      ((∃ algorithm : String, data.get "algorithm" = some (.str algorithm)) ∧
        (∀ key ∈ ["result_path", "id", "colormap", "min_range", "max_range", "created_at"],
          ∀ v, data.get key = some v → v.stringifies = true) ∧
        (truthy (data.get "has_valid_statistics") = false ∨
          ∃ st, data.get "statistics" = some st ∧
            (∀ key ∈ ["mean", "std", "median", "min", "max"],
              ∃ x, st.get key = some (.num x)) ∧
            (∀ key ∈ ["pixel_count", "total_pixels"],
              ∃ v, st.get key = some v ∧ v.localizes = true))) := by
  constructor
  · rintro ⟨content, hc⟩
    obtain ⟨algorithm, panel, halg, hkeys, hpanel, -⟩ :=
      (successTemplate_ok_iff data hn content).mp hc
    exact ⟨⟨algorithm, halg⟩, hkeys, (renderStatistics_returns_iff data hn).mp ⟨panel, hpanel⟩⟩
  · rintro ⟨⟨algorithm, halg⟩, hkeys, hstat⟩
    obtain ⟨panel, hpanel⟩ := (renderStatistics_returns_iff data hn).mpr hstat
    exact ⟨_, (successTemplate_ok_iff data hn _).mpr ⟨algorithm, panel, halg, hkeys, hpanel, rfl⟩⟩

theorem failureTemplate_content (data : Json) (content : ModalContent)
    (h : failureTemplate data = .ok content) :
    (∃ text, content = .alert text) ∨ ∃ v, content = .alertValue v := by
  cases hp : data.prop "error" with
  | error e => simp [failureTemplate, hp, bind, Except.bind] at h
  | ok error =>
    simp only [failureTemplate, hp, ok_bind] at h
    split at h
    · split at h
      · cases h; exact Or.inl ⟨_, rfl⟩
      · cases h; exact Or.inr ⟨_, rfl⟩
    · cases h

/-- C15 fails as stated: a response with success true and has_valid_statistics
true but no statistics object makes the template throw, and so does a response
with success true, has_valid_statistics false and algorithm null; in both the
modal shows the load-error panel: neither statistics block nor notice, neither
image nor metadata table. -/
theorem flagged_without_statistics_shows_error :
    truthy ((Examples.detailWith none true).get "success") = true ∧
      truthy ((Examples.detailWith none true).get "has_valid_statistics") = true ∧
      (loadAnalysisDetails (.responded (.ok (Examples.detailWith none true))) 4
          Examples.freshModal).content = .alert "Analiz detayları yüklenirken hata oluştu." ∧
      (loadAnalysisDetails (.responded (.ok (Examples.detailWith none true))) 4
          Examples.freshModal).showCalls = 0 ∧
      truthy (Examples.detailWithoutAlgorithm.get "success") = true ∧
      truthy (Examples.detailWithoutAlgorithm.get "has_valid_statistics") = false ∧
      (loadAnalysisDetails (.responded (.ok Examples.detailWithoutAlgorithm)) 4
          Examples.freshModal).content = .alert "Analiz detayları yüklenirken hata oluştu." ∧
      (loadAnalysisDetails (.responded (.ok Examples.detailWithoutAlgorithm)) 4
          Examples.freshModal).showCalls = 0 :=
  ⟨rfl, rfl, rfl, rfl, rfl, rfl, rfl, rfl⟩

/-- C15 (amended): for every detail response with a truthy success whose
algorithm is a string and whose result_path, id, colormap, min_range, max_range
and created_at convert to strings: when has_valid_statistics is falsy the
image, the metadata table and the 'no valid GeoTIFF data' notice are rendered,
whatever the statistics field holds; when it is truthy and statistics is an
object whose mean, std, median, min and max are numbers and whose pixel_count
and total_pixels have a usable toLocaleString, the image, the metadata table
and the formatted statistics block are rendered; when it is truthy and
statistics is not such an object, the load-error panel is rendered instead.
When algorithm is not a string or one of the six fields does not convert to a
string, the load-error panel is rendered whatever the flag. -/
theorem details_statistics_by_flag (analysisId : Nat) (m : ModalState) (data : Json)
    (hs : truthy (data.get "success") = true) :
    (∀ algorithm : String, data.get "algorithm" = some (.str algorithm) →
      (∀ key ∈ ["result_path", "id", "colormap", "min_range", "max_range", "created_at"],
        ∀ v, data.get key = some v → v.stringifies = true) →
      (truthy (data.get "has_valid_statistics") = false →
        (loadAnalysisDetails (.responded (.ok data)) analysisId m).content =
          .details (data.get "result_path") (data.get "id") algorithm (data.get "colormap")
            (data.get "min_range") (data.get "max_range") (data.get "created_at") .notice) ∧
      (truthy (data.get "has_valid_statistics") = true →
        ∀ (st : Json) (mean std median min max : JSNumber) (pc tp : Json),
          data.get "statistics" = some st →
          st.get "mean" = some (.num mean) → st.get "std" = some (.num std) →
          st.get "median" = some (.num median) → st.get "min" = some (.num min) →
          st.get "max" = some (.num max) →
          st.get "pixel_count" = some pc → st.get "total_pixels" = some tp →
          pc.localizes = true → tp.localizes = true →
            (loadAnalysisDetails (.responded (.ok data)) analysisId m).content =
              .details (data.get "result_path") (data.get "id") algorithm (data.get "colormap")
                (data.get "min_range") (data.get "max_range") (data.get "created_at")
                (.block (toFixed 3 (some mean)) (toFixed 3 (some std))
                  (toFixed 3 (some median)) (toFixed 3 (some min)) (toFixed 3 (some max))
                  pc tp (ratioText pc tp))) ∧
      (truthy (data.get "has_valid_statistics") = true →
        (¬ ∃ st, data.get "statistics" = some st ∧
          (∀ key ∈ ["mean", "std", "median", "min", "max"], ∃ x, st.get key = some (.num x)) ∧
          (∀ key ∈ ["pixel_count", "total_pixels"],
            ∃ v, st.get key = some v ∧ v.localizes = true)) →
        (loadAnalysisDetails (.responded (.ok data)) analysisId m).content =
          .alert "Analiz detayları yüklenirken hata oluştu.")) ∧
    (((∀ algorithm : String, data.get "algorithm" ≠ some (.str algorithm)) ∨
        ∃ key ∈ ["result_path", "id", "colormap", "min_range", "max_range", "created_at"],
          ∃ v, data.get key = some v ∧ v.stringifies = false) →
      (loadAnalysisDetails (.responded (.ok data)) analysisId m).content =
        .alert "Analiz detayları yüklenirken hata oluştu.") := by
  have hn := not_null_of_truthy "success" data hs
  constructor
  · intro algorithm halg hkeys
    refine ⟨fun hf => ?_, fun hf st mean std median min max pc tp hst hmean hstd hmedian hmin
      hmax hpc htp hpcl htpl => ?_, fun hf hnot => ?_⟩
    · exact (loadAnalysisDetails_template_ok data analysisId m hs _
        ((successTemplate_ok_iff data hn _).mpr
          ⟨algorithm, .notice, halg, hkeys, renderStatistics_notice data hn hf, rfl⟩)).1
    · exact (loadAnalysisDetails_template_ok data analysisId m hs _
        ((successTemplate_ok_iff data hn _).mpr
          ⟨algorithm, _, halg, hkeys, (renderStatistics_block_iff data hn hf _).mpr
            ⟨st, mean, std, median, min, max, pc, tp, hst, hmean, hstd, hmedian, hmin, hmax,
              hpc, htp, hpcl, htpl, rfl⟩, rfl⟩)).1
    · refine (loadAnalysisDetails_template_error data analysisId m hs ?_).1
      intro content hc
      obtain ⟨-, -, hstat⟩ := (successTemplate_returns_iff data hn).mp ⟨content, hc⟩
      rcases hstat with h | h
      · rw [hf] at h; cases h
      · exact hnot h
  · intro h
    refine (loadAnalysisDetails_template_error data analysisId m hs ?_).1
    intro content hc
    obtain ⟨⟨algorithm, halg⟩, hkeys, -⟩ := (successTemplate_returns_iff data hn).mp ⟨content, hc⟩
    rcases h with h | ⟨key, hkey, v, hv, hvs⟩
    · exact h algorithm halg
    · have := hkeys key hkey v hv
      rw [hvs] at this
      cases this

/-- Witness of C15 (amended): a response without valid statistics shows the
notice under the image and the table. -/
theorem details_statistics_by_flag_witness :
    (loadAnalysisDetails (.responded (.ok (Examples.detailWith none false))) 4
        Examples.freshModal).content =
      .details (some (.str "/static/results/ndvi_4.png")) (some (.num (.finite 4 0))) "ndvi"
        (some (.str "rdylgn")) (some (.num (.finite (-1) 0))) (some (.num (.finite 1 0)))
        (some (.str "2024-05-01T10:00:00")) .notice :=
  ((details_statistics_by_flag 4 Examples.freshModal (Examples.detailWith none false) rfl).1
    "ndvi" rfl (by
      intro key hkey v hv
      simp only [List.mem_cons, List.mem_singleton, List.not_mem_nil, or_false] at hkey
      rcases hkey with rfl | rfl | rfl | rfl | rfl | rfl <;> (cases hv; rfl))).1 rfl

/-- C16: for every detail response whose success is falsy, the modal shows an
error panel whose text is 'Analiz detayları yüklenemedi: ' followed by the
server's error message when it is a string and not empty, and by 'Bilinmeyen
hata' when the error field is missing or falsy; when the request or the JSON
parsing fails, or the body is null, it shows the panel 'Analiz detayları
yüklenirken hata oluştu.'.  In all these cases the content is an error panel,
not the success layout, and `show()` is not called. -/
theorem detail_failure_panels (analysisId : Nat) (m : ModalState) :
    (∀ data : Json, data.isNull = false → truthy (data.get "success") = false →
      (∀ text, data.get "error" = some (.str text) → text ≠ "" →
        (loadAnalysisDetails (.responded (.ok data)) analysisId m).content =
          .alert ("Analiz detayları yüklenemedi: " ++ text)) ∧
      (truthy (data.get "error") = false →
        (loadAnalysisDetails (.responded (.ok data)) analysisId m).content =
          .alert "Analiz detayları yüklenemedi: Bilinmeyen hata") ∧
      ((∃ text, (loadAnalysisDetails (.responded (.ok data)) analysisId m).content =
          .alert text) ∨
        ∃ v, (loadAnalysisDetails (.responded (.ok data)) analysisId m).content =
          .alertValue v) ∧
      (loadAnalysisDetails (.responded (.ok data)) analysisId m).showCalls = m.showCalls) ∧
    (∀ net, ((∃ e, net = .rejected e) ∨ (∃ e, net = .responded (.error e)) ∨
        net = .responded (.ok .null)) →
      (loadAnalysisDetails net analysisId m).content =
          .alert "Analiz detayları yüklenirken hata oluştu." ∧
        (loadAnalysisDetails net analysisId m).showCalls = m.showCalls) := by
  constructor
  · intro data hn hs
    have hload := loadAnalysisDetails_failure data analysisId m hn hs
    refine ⟨fun text ht hne => ?_, fun h => ?_, ?_, ?_⟩
    · have hf : failureTemplate data =
          .ok (.alert ("Analiz detayları yüklenemedi: " ++ text)) := by
        have htr : (Json.str text).truthy = true := by simpa [Json.truthy] using hne
        simp only [failureTemplate, prop_of_not_null _ data hn, ok_bind, ht, htr, if_true,
          Json.stringifies]
        rfl
      rw [hload, hf]
    · have hf : failureTemplate data =
          .ok (.alert "Analiz detayları yüklenemedi: Bilinmeyen hata") := by
        simp only [failureTemplate, prop_of_not_null _ data hn, ok_bind]
        cases he : data.get "error" with
        | none => rfl
        | some v =>
          rw [he] at h
          simp only [truthy] at h
          simp only [h, Bool.false_eq_true, if_false, Json.stringifies, if_true]
          rfl
      rw [hload, hf]
    · rw [hload]
      cases hf : failureTemplate data with
      | error e => exact Or.inl ⟨_, rfl⟩
      | ok c =>
        rcases failureTemplate_content data c hf with ⟨text, rfl⟩ | ⟨v, rfl⟩
        · exact Or.inl ⟨_, rfl⟩
        · exact Or.inr ⟨_, rfl⟩
    · rw [hload]
      cases failureTemplate data <;> rfl
  · rintro net (⟨e, rfl⟩ | ⟨e, rfl⟩ | rfl) <;> exact ⟨rfl, rfl⟩

/-- Witness of C16: the server reports 'Dosya bulunamadı'. -/
theorem detail_failure_panels_witness :
    (loadAnalysisDetails (.responded (.ok (Examples.failedDetail (some "Dosya bulunamadı")))) 4
        Examples.freshModal).content =
      .alert ("Analiz detayları yüklenemedi: " ++ "Dosya bulunamadı") :=
  ((detail_failure_panels 4 Examples.freshModal).1
    (Examples.failedDetail (some "Dosya bulunamadı")) rfl rfl).1 "Dosya bulunamadı" rfl
      (by decide)

/-! ### Algorithm information and range defaults -/

/-- C17: for each of the nine algorithm names `updateRangeDefaults` writes the
table values into the range inputs: ndvi, gli, vari, endvi, ndwi give -1 and 1;
exg, tgi give -255 and 255; bai gives 0 and 100; vndvi gives 0 and 2. -/
theorem updateRangeDefaults_table (p : RangePage) :
    ((updateRangeDefaults "ndvi" p).minRange = "-1" ∧
        (updateRangeDefaults "ndvi" p).maxRange = "1") ∧
      ((updateRangeDefaults "gli" p).minRange = "-1" ∧
        (updateRangeDefaults "gli" p).maxRange = "1") ∧
      ((updateRangeDefaults "vari" p).minRange = "-1" ∧
        (updateRangeDefaults "vari" p).maxRange = "1") ∧
      ((updateRangeDefaults "endvi" p).minRange = "-1" ∧
        (updateRangeDefaults "endvi" p).maxRange = "1") ∧
      ((updateRangeDefaults "ndwi" p).minRange = "-1" ∧
        (updateRangeDefaults "ndwi" p).maxRange = "1") ∧
      ((updateRangeDefaults "exg" p).minRange = "-255" ∧
        (updateRangeDefaults "exg" p).maxRange = "255") ∧
      ((updateRangeDefaults "tgi" p).minRange = "-255" ∧
        (updateRangeDefaults "tgi" p).maxRange = "255") ∧
      ((updateRangeDefaults "bai" p).minRange = "0" ∧
        (updateRangeDefaults "bai" p).maxRange = "100") ∧
      ((updateRangeDefaults "vndvi" p).minRange = "0" ∧
        (updateRangeDefaults "vndvi" p).maxRange = "2") := by
  refine ⟨⟨?_, ?_⟩, ⟨?_, ?_⟩, ⟨?_, ?_⟩, ⟨?_, ?_⟩, ⟨?_, ?_⟩, ⟨?_, ?_⟩, ⟨?_, ?_⟩,
    ⟨?_, ?_⟩, ⟨?_, ?_⟩⟩ <;> rfl

/-- C18 fails on the code: `algorithmDescriptions` has entries for ndvi, gli,
vari, endvi and ndwi only, so for exg, tgi, bai and vndvi `updateAlgorithmInfo`
leaves the page as it is; after ndvi then exg the panel still shows the NDVI
text while the range inputs hold the exg defaults. -/
theorem updateAlgorithmInfo_misses_four (p : RangePage) :
    updateAlgorithmInfo "exg" p = p ∧ updateAlgorithmInfo "tgi" p = p ∧
      updateAlgorithmInfo "bai" p = p ∧ updateAlgorithmInfo "vndvi" p = p ∧
      (onAlgorithmChange "exg" (onAlgorithmChange "ndvi" Examples.rangePage)).infoDiv =
        (onAlgorithmChange "ndvi" Examples.rangePage).infoDiv ∧
      (onAlgorithmChange "exg" (onAlgorithmChange "ndvi" Examples.rangePage)).minRange =
        "-255" := by
  refine ⟨?_, ?_, ?_, ?_, by decide, by decide⟩ <;>
    (unfold updateAlgorithmInfo; cases p.infoDiv <;> rfl)

theorem ge_eq_not_lt (x y : JSNumber) : x.ge y = !x.lt y := by
  cases x <;> cases y <;> simp [JSNumber.ge, JSNumber.lt, ← not_lt]

/-- C19 fails as stated: with an empty minimum and the maximum 5 the minimum
does not parse to a number, it is not less than the maximum, and yet
`validateRange` returns true and shows no warning. -/
theorem validateRange_accepts_empty_minimum :
    parseFloat Examples.emptyMinPage.minRange = none ∧
      numLt (parseFloat Examples.emptyMinPage.minRange)
        (parseFloat Examples.emptyMinPage.maxRange) = false ∧
      (validateRange Examples.emptyMinPage).1 = true ∧
      (validateRange Examples.emptyMinPage).2.notifications = [] := by
  decide

/-- C19 (amended): for every pair of contents of the min_range and max_range
inputs, `validateRange` returns true exactly when the minimum read by
`parseFloat` is less than the maximum or one of the two contents does not parse
to a number (empty or non-numeric text); when it returns false it fires the
warning notification once, when it returns true it fires none; and in no case
does it change either input field. -/
theorem validateRange_spec (p : RangePage) :
    ((validateRange p).1 = true ↔
        (parseFloat p.minRange = none ∨ parseFloat p.maxRange = none ∨
          numLt (parseFloat p.minRange) (parseFloat p.maxRange) = true)) ∧
      ((validateRange p).1 = false → (validateRange p).2.notifications = p.notifications ++
        [⟨"Minimum değer maksimum değerden küçük olmalıdır.", "warning"⟩]) ∧
      ((validateRange p).1 = true → (validateRange p).2.notifications = p.notifications) ∧
      (validateRange p).2.minRange = p.minRange ∧
      (validateRange p).2.maxRange = p.maxRange := by
  unfold validateRange
  cases hx : parseFloat p.minRange with
  | none => simp [numGe, numLt]
  | some x =>
    cases hy : parseFloat p.maxRange with
    | none => simp [numGe, numLt]
    | some y =>
      simp only [numGe, numLt, ge_eq_not_lt]
      cases x.lt y <;> simp

/-- Witness of C19 (amended): minimum 3 and maximum 2. -/
theorem validateRange_spec_witness :
    (validateRange Examples.invertedPage).2.notifications =
      [⟨"Minimum değer maksimum değerden küçük olmalıdır.", "warning"⟩] :=
  (validateRange_spec Examples.invertedPage).2.1 (by decide)

end Mapping

namespace Detection

/-! ### File info -/

theorem splitOn_ne_nil (sep : Char) (cs : List Char) : splitOn sep cs ≠ [] := by
  cases cs with
  | nil => simp [splitOn]
  | cons c rest =>
    unfold splitOn
    split_ifs
    · simp
    · split <;> simp

theorem splitOn_second (cs : List Char) :
    ((splitOn '/' cs)[1]? = none ↔ '/' ∉ cs) := by
  induction cs with
  | nil => simp [splitOn]
  | cons c rest ih =>
    unfold splitOn
    by_cases hc : c = '/'
    · subst hc
      have hne := splitOn_ne_nil '/' rest
      cases hsp : splitOn '/' rest with
      | nil => exact absurd hsp hne
      | cons a b => simp
    · simp only [hc, if_false]
      cases hsp : splitOn '/' rest with
      | nil => exact absurd hsp (splitOn_ne_nil '/' rest)
      | cons a b =>
        rw [hsp] at ih
        simp only [List.mem_cons, not_or]
        constructor
        · intro h
          exact ⟨fun h2 => hc h2.symm, ih.mp (by simpa using h)⟩
        · intro h
          have := ih.mpr h.2
          simpa using this

/-- C20 fails on the code: `showFileInfo` completes without throwing exactly
when the MIME type contains a '/'; for a file with the empty type it creates the
info container, throws a TypeError at `split('/')[1].toUpperCase()` and renders
neither name, badge nor size. -/
theorem showFileInfo_throws_without_slash (formatFileSize : Nat → String) (file : File)
    (st : PreviewState) :
    ((showFileInfo formatFileSize file st).2 = none ↔ '/' ∈ file.type.toList) ∧
      (onImageChange Examples.formatFileSize (Examples.previewWith Examples.untypedFile)).2 =
        some ⟨"TypeError", "Cannot read properties of undefined"⟩ ∧
      (onImageChange Examples.formatFileSize (Examples.previewWith Examples.untypedFile)).1.fileInfo =
        some .empty := by
  refine ⟨?_, by decide, by decide⟩
  unfold showFileInfo
  cases h : (splitOn '/' file.type.toList)[1]? with
  | none =>
    have := (splitOn_second file.type.toList).mp h
    simpa using this
  | some sub =>
    have : ¬ ('/' ∉ file.type.toList) := fun h2 => by
      rw [(splitOn_second file.type.toList).mpr h2] at h
      exact absurd h (by simp)
    simpa using not_not.mp this

end Detection

namespace Mapping

/-! ### The valid-data percentage -/

/-- C14 fails as stated: for 23 valid pixels of 80 the exact percentage is
28.75, which `toFixed(1)` itself would show as 28.8, and the modal shows 28.7;
for 9233498559044 of 16772931079099 the modal shows 55.0 although the exact
percentage is more than 0.05 above it, so that 55.1 is the nearest tenth. -/
theorem ratio_text_differs_from_exact_rounding :
    validRatioText (.finite 23 0) (.finite 80 0) = .plain "28.7" ∧
      (100 * ((23 : ℚ) / 80) = 115 / 4 ∧ toFixed 1 (some (.finite 115 (-2))) = .plain "28.8") ∧
      validRatioText (.finite 9233498559044 0) (.finite 16772931079099 0) = .plain "55.0" ∧
      (55 : ℚ) + 1 / 20 < 100 * ((9233498559044 : ℚ) / 16772931079099) := by
  refine ⟨by decide, ⟨by norm_num, by decide⟩, by decide, by norm_num⟩

/-- C14 (amended): for every statistics payload whose total_pixels is positive
and whose pixel_count lies between 0 and total_pixels, the percentage shown is
the `toFixed(1)` text of the double `(pixel_count / total_pixels) * 100`: a
number of tenths N between 0 ('0.0') and 1000 ('100.0'), written with one
decimal and followed by '%' in the template, at most 0.05 + 2^-45 away from the
exact percentage; it need not be the exact percentage rounded to one decimal.
For pixel_count 8000 and total_pixels 10000 the text is exactly '80.0'. -/
theorem validRatioText_spec (a ea b eb : Int) (ha : 0 ≤ a) (hb : 0 < b)
    (hle : (JSNumber.finite a ea).toRat ≤ (JSNumber.finite b eb).toRat) :
    (∃ N : Nat, N ≤ 1000 ∧
      validRatioText (.finite a ea) (.finite b eb) = .plain (fixedDigits 1 N) ∧
      |(N : ℚ) / 10 - 100 * ((JSNumber.finite a ea).toRat / (JSNumber.finite b eb).toRat)| ≤
        1 / 20 + 1 / 2 ^ 45) ∧
    fixedDigits 1 0 = "0.0" ∧ fixedDigits 1 1000 = "100.0" ∧
    validRatioText (.finite 8000 0) (.finite 10000 0) = .plain "80.0" := by
  refine ⟨?_, by decide, by decide, by decide⟩
  have hc : (0 : ℚ) < (2 : ℚ) ^ (min ea eb) := by positivity
  have hpa := toRat_scaled a ea eb ha
  have hpb := toRat_scaled b eb ea hb.le
  rw [min_comm eb ea] at hpb
  generalize hA : a.natAbs * 2 ^ (ea - eb).toNat = A at hpa
  generalize hB : b.natAbs * 2 ^ (eb - ea).toNat = B at hpb
  have hBpos : 0 < B := by
    rw [← hB]
    have : 0 < b.natAbs := Int.natAbs_pos.mpr (by omega)
    positivity
  have hBq : (0 : ℚ) < B := by exact_mod_cast hBpos
  have hAB : A ≤ B := by
    rw [hpa, hpb] at hle
    have := le_of_mul_le_mul_right hle hc
    exact_mod_cast this
  have hratio : (JSNumber.finite a ea).toRat / (JSNumber.finite b eb).toRat = (A : ℚ) / B := by
    rw [hpa, hpb, mul_div_mul_right _ _ hc.ne']
  obtain ⟨n, t, hr, hn, e1, e2, e3⟩ :=
    roundBinary64_bounded A B 1 0 hBpos (by simpa using hAB) (by norm_num) (by norm_num)
  have err1 := round_error n t A B 0 hBpos e1 e2 e3
  have hpt : 0 < 2 ^ t := Nat.pow_pos (by decide)
  obtain ⟨n', t', hr', hn', e1', e2', e3'⟩ :=
    roundBinary64_bounded (n * 100) (2 ^ t) 100 6 hpt (by omega) (by norm_num) (by norm_num)
  have err2 := round_error n' t' (n * 100) (2 ^ t) 6 hpt e1' e2' e3'
  obtain ⟨f1, f2, f3⟩ := toFixed_one_small n' t' hn'
  refine ⟨_, f2, ?_, ?_⟩
  · rw [← f1, ← hr']
    unfold validRatioText
    rw [div_of_nonneg a b ea eb ha hb, hA, hB, hr]
    simp only [numMul, Option.bind]
    rw [mul_hundred]
  · rw [hratio]
    generalize ((2 * (n' * 10) + 2 ^ t') / (2 * 2 ^ t') : Nat) = N at f3 ⊢
    have err2' : |(n' : ℚ) / 2 ^ t' - 100 * ((n : ℚ) / 2 ^ t)| ≤ 1 / 2 ^ 47 := by
      have : ((n * 100 : Nat) : ℚ) / ((2 ^ t : Nat) : ℚ) = 100 * ((n : ℚ) / 2 ^ t) := by
        push_cast; ring
      rw [this] at err2
      simpa using err2
    have err1' : |(n : ℚ) / 2 ^ t - (A : ℚ) / B| ≤ 1 / 2 ^ 53 := by simpa using err1
    rw [abs_le] at f3 err2' err1' ⊢
    have hnum : (1 : ℚ) / 2 ^ 47 + 100 * (1 / 2 ^ 53) ≤ 1 / 2 ^ 45 := by norm_num
    constructor <;> linarith [f3.1, f3.2, err2'.1, err2'.2, err1'.1, err1'.2]

/-- Witness of C14 (amended): 1 valid pixel of 3. -/
theorem validRatioText_spec_witness :
    ∃ N : Nat, N ≤ 1000 ∧
      validRatioText (.finite 1 0) (.finite 3 0) = .plain (fixedDigits 1 N) ∧
      |(N : ℚ) / 10 - 100 * ((JSNumber.finite 1 0).toRat / (JSNumber.finite 3 0).toRat)| ≤
        1 / 20 + 1 / 2 ^ 45 :=
  (validRatioText_spec 1 0 3 0 (by decide) (by decide) (by norm_num [JSNumber.toRat])).1

end Mapping

namespace Mapping

/-! ### The vegetation analysis form -/

theorem showAnalysisProgress_frame (spinner : Detection.Button → Detection.Button)
    (p : Detection.Page) :
    (showAnalysisProgress spinner p).defaultPrevented = p.defaultPrevented ∧
      (showAnalysisProgress spinner p).progressCalls = p.progressCalls + 1 ∧
      (showAnalysisProgress spinner p).notifications = p.notifications := by
  unfold showAnalysisProgress
  cases p.progressDisplay <;> cases p.submitBtn <;> simp

theorem vegetationSubmit_of_file (spinner : Detection.Button → Detection.Button)
    (p : Detection.Page) (file : File) (h : p.files.head? = some file) :
    vegetationSubmit spinner p =
      if !endsWith (toLowerCase file.name) ".tif" && !endsWith (toLowerCase file.name) ".tiff"
      then Detection.showNotification "Lütfen GeoTIFF (.tif/.tiff) formatında dosya seçin."
        "error" (Detection.preventDefault p)
      else showAnalysisProgress spinner p := by
  unfold vegetationSubmit
  rw [h]

/-- C21: on a fresh submit event the vegetation-analysis handler calls
preventDefault if and only if no file is selected or the lower-cased file name
ends with neither '.tif' nor '.tiff'; in the complementary case it calls
`showAnalysisProgress` once and does not prevent the default.  The file's MIME
type and size do not enter the decision.  'A.TIF' and 'b.TiFf' are accepted,
'tiff' and 'a.tif.png' are rejected. -/
theorem vegetationSubmit_prevents_iff (spinner : Detection.Button → Detection.Button)
    (p : Detection.Page) (h0 : p.defaultPrevented = false) :
    ((vegetationSubmit spinner p).defaultPrevented = true ↔
        (p.files.head? = none ∨ ∃ file, p.files.head? = some file ∧
          ¬ (".tif".toList <:+ toLowerCase file.name) ∧
          ¬ (".tiff".toList <:+ toLowerCase file.name))) ∧
      ((vegetationSubmit spinner p).defaultPrevented = false →
        (vegetationSubmit spinner p).progressCalls = p.progressCalls + 1 ∧
          (vegetationSubmit spinner p).notifications = p.notifications) ∧
      ((vegetationSubmit spinner p).defaultPrevented = true →
        (vegetationSubmit spinner p).progressCalls = p.progressCalls) ∧
      (∀ (file : File) (rest : List File) (type : String) (size : Nat),
        (vegetationSubmit spinner { p with files := file :: rest }).defaultPrevented =
          (vegetationSubmit spinner
            { p with files := { file with type := type, size := size } :: rest }).defaultPrevented) ∧
      ((vegetationSubmit Examples.spinner
          (Examples.fruitPageWith (Examples.named "A.TIF"))).defaultPrevented = false ∧
        (vegetationSubmit Examples.spinner
          (Examples.fruitPageWith (Examples.named "b.TiFf"))).defaultPrevented = false ∧
        (vegetationSubmit Examples.spinner
          (Examples.fruitPageWith (Examples.named "tiff"))).defaultPrevented = true ∧
        (vegetationSubmit Examples.spinner
          (Examples.fruitPageWith (Examples.named "a.tif.png"))).defaultPrevented = true) := by
  refine ⟨?_, ?_, ?_, ?_, by decide⟩
  · cases hf : p.files.head? with
    | none =>
      simp [vegetationSubmit, hf, Detection.showNotification, Detection.preventDefault]
    | some file =>
      rw [vegetationSubmit_of_file spinner p file hf]
      by_cases ht : (!endsWith (toLowerCase file.name) ".tif" &&
          !endsWith (toLowerCase file.name) ".tiff") = true
      · rw [if_pos ht]
        simp only [endsWith, Bool.and_eq_true, Bool.not_eq_true', ← Bool.not_eq_true,
          List.isSuffixOf_iff_suffix] at ht
        simp only [Detection.showNotification, Detection.preventDefault, true_iff]
        exact Or.inr ⟨file, rfl, ht.1, ht.2⟩
      · rw [if_neg ht, (showAnalysisProgress_frame spinner p).1, h0]
        simp only [endsWith, Bool.and_eq_true, Bool.not_eq_true', ← Bool.not_eq_true,
          List.isSuffixOf_iff_suffix] at ht
        constructor
        · intro h; exact absurd h (by decide)
        · rintro (h | ⟨f, hf2, h1, h2⟩)
          · exact absurd h (by simp)
          · cases hf2; exact absurd ⟨h1, h2⟩ ht
  · cases hf : p.files.head? with
    | none =>
      simp [vegetationSubmit, hf, Detection.showNotification, Detection.preventDefault]
    | some file =>
      rw [vegetationSubmit_of_file spinner p file hf]
      split_ifs
      · simp [Detection.showNotification, Detection.preventDefault]
      · intro _
        exact ⟨(showAnalysisProgress_frame spinner p).2.1,
          (showAnalysisProgress_frame spinner p).2.2⟩
  · cases hf : p.files.head? with
    | none =>
      simp [vegetationSubmit, hf, Detection.showNotification, Detection.preventDefault]
    | some file =>
      rw [vegetationSubmit_of_file spinner p file hf]
      split_ifs
      · simp [Detection.showNotification, Detection.preventDefault]
      · rw [(showAnalysisProgress_frame spinner p).1, h0]
        intro h; exact absurd h (by decide)
  · intro file rest type size
    rw [vegetationSubmit_of_file spinner { p with files := file :: rest } file rfl,
      vegetationSubmit_of_file spinner
        { p with files := { file with type := type, size := size } :: rest }
        { file with type := type, size := size } rfl]
    split_ifs
    · rfl
    · rw [(showAnalysisProgress_frame spinner _).1, (showAnalysisProgress_frame spinner _).1]

/-- Witness of C21: a fresh submit with 'A.TIF' selected runs the progress
display. -/
theorem vegetationSubmit_prevents_iff_witness :
    (Examples.fruitPageWith (Examples.named "A.TIF")).defaultPrevented = false ∧
      (vegetationSubmit Examples.spinner
        (Examples.fruitPageWith (Examples.named "A.TIF"))).progressCalls = 1 :=
  ⟨rfl, ((vegetationSubmit_prevents_iff Examples.spinner
    (Examples.fruitPageWith (Examples.named "A.TIF")) rfl).2.1 (by decide)).1⟩

/-! ### Range defaults against the range check -/

theorem validateRange_of_not_ge (p : RangePage)
    (h : numGe (parseFloat p.minRange) (parseFloat p.maxRange) = false) :
    validateRange p = (true, p) := by
  unfold validateRange
  simp [h]

/-- C22: every entry of the range-defaults table has its min strictly below its
max, and for each of the nine algorithm names `validateRange`, run on the
values `updateRangeDefaults` has just written, returns true and fires no
notification. -/
theorem defaults_pass_validateRange (p : RangePage) :
    (∀ entry ∈ defaults, entry.2.1 < entry.2.2) ∧
      (∀ name ∈ ["ndvi", "gli", "vari", "endvi", "ndwi", "exg", "tgi", "bai", "vndvi"],
        (validateRange (updateRangeDefaults name p)).1 = true ∧
          (validateRange (updateRangeDefaults name p)).2.notifications = p.notifications) := by
  constructor
  · decide
  · intro name hname
    have h1 : numGe (parseFloat "-1") (parseFloat "1") = false := by decide
    have h2 : numGe (parseFloat "-255") (parseFloat "255") = false := by decide
    have h3 : numGe (parseFloat "0") (parseFloat "100") = false := by decide
    have h4 : numGe (parseFloat "0") (parseFloat "2") = false := by decide
    simp only [List.mem_cons, List.mem_singleton, List.mem_nil_iff, or_false] at hname
    rcases hname with rfl | rfl | rfl | rfl | rfl | rfl | rfl | rfl | rfl
    · rw [validateRange_of_not_ge _ h1]; exact ⟨rfl, rfl⟩
    · rw [validateRange_of_not_ge _ h1]; exact ⟨rfl, rfl⟩
    · rw [validateRange_of_not_ge _ h1]; exact ⟨rfl, rfl⟩
    · rw [validateRange_of_not_ge _ h1]; exact ⟨rfl, rfl⟩
    · rw [validateRange_of_not_ge _ h1]; exact ⟨rfl, rfl⟩
    · rw [validateRange_of_not_ge _ h2]; exact ⟨rfl, rfl⟩
    · rw [validateRange_of_not_ge _ h2]; exact ⟨rfl, rfl⟩
    · rw [validateRange_of_not_ge _ h3]; exact ⟨rfl, rfl⟩
    · rw [validateRange_of_not_ge _ h4]; exact ⟨rfl, rfl⟩

/-- Witness of C22: the defaults of bai, 0 and 100. -/
theorem defaults_pass_validateRange_witness :
    (validateRange (updateRangeDefaults "bai" Examples.invertedPage)).1 = true ∧
      (validateRange (updateRangeDefaults "bai" Examples.invertedPage)).2.notifications =
        Examples.invertedPage.notifications :=
  (defaults_pass_validateRange Examples.invertedPage).2 "bai" (by decide)

/-- C23 fails on the code: 'constructor' is a key of neither table, yet both
guards find the member inherited from `Object.prototype`: `updateRangeDefaults`
assigns `undefined` to both range inputs (number inputs end up empty) and
`updateAlgorithmInfo` rewrites the panel with four times 'undefined'.  For a
string that is neither a table key nor such an inherited name, both functions
leave the page as it is. -/
theorem inherited_key_passes_guards :
    (defaults.lookup "constructor" = none ∧ algorithmDescriptions.lookup "constructor" = none) ∧
      ((updateRangeDefaults "constructor" Examples.ndviPage).minRange = "" ∧
        (updateRangeDefaults "constructor" Examples.ndviPage).maxRange = "" ∧
        Examples.ndviPage.minRange = "-1" ∧ Examples.ndviPage.maxRange = "1") ∧
      ((updateAlgorithmInfo "constructor" Examples.ndviPage).infoDiv =
          some (.info ⟨"undefined", "undefined", "undefined", "undefined"⟩) ∧
        (updateAlgorithmInfo "constructor" Examples.ndviPage).infoDiv ≠
          Examples.ndviPage.infoDiv) ∧
      (∀ (algorithm : String) (p : RangePage), algorithm ∉ objectPrototypeKeys →
        (defaults.lookup algorithm = none → updateRangeDefaults algorithm p = p) ∧
        (algorithmDescriptions.lookup algorithm = none → updateAlgorithmInfo algorithm p = p)) := by
  refine ⟨by decide, by decide, by decide, ?_⟩
  intro algorithm p hk
  constructor
  · intro h
    simp [updateRangeDefaults, getProperty, h, hk]
  · intro h
    unfold updateAlgorithmInfo
    cases p.infoDiv <;> simp [getProperty, h, hk]

/-! ### Showing the modal -/

/-- C27: `loadAnalysisDetails` calls the modal's `show()` (once) if and only if
the response is parsed, its success is truthy and the success template is
evaluated without a throw, that is: algorithm is a string; result_path, id,
colormap, min_range, max_range and created_at convert to strings; and
has_valid_statistics is falsy or statistics is an object whose mean, std,
median, min and max are numbers and whose pixel_count and total_pixels have a
usable toLocaleString.  In every other case (success falsy, request or parsing
failed, template threw) `show()` is not called and the modal content is an
error panel. -/
theorem show_iff_success_rendered (net : DetailOutcome) (analysisId : Nat) (m : ModalState) :
    ((loadAnalysisDetails net analysisId m).showCalls = m.showCalls + 1 ↔
        ∃ data, net = .responded (.ok data) ∧ truthy (data.get "success") = true ∧
          (∃ algorithm : String, data.get "algorithm" = some (.str algorithm)) ∧
          (∀ key ∈ ["result_path", "id", "colormap", "min_range", "max_range", "created_at"],
            ∀ v, data.get key = some v → v.stringifies = true) ∧
          (truthy (data.get "has_valid_statistics") = false ∨
            ∃ st, data.get "statistics" = some st ∧
              (∀ key ∈ ["mean", "std", "median", "min", "max"],
                ∃ x, st.get key = some (.num x)) ∧
              (∀ key ∈ ["pixel_count", "total_pixels"],
                ∃ v, st.get key = some v ∧ v.localizes = true))) ∧
      ((loadAnalysisDetails net analysisId m).showCalls ≠ m.showCalls + 1 →
        (loadAnalysisDetails net analysisId m).showCalls = m.showCalls ∧
          ((∃ text, (loadAnalysisDetails net analysisId m).content = .alert text) ∨
            ∃ v, (loadAnalysisDetails net analysisId m).content = .alertValue v)) := by
  cases net with
  | rejected e =>
    refine ⟨⟨fun h => ?_, fun ⟨_, h, _⟩ => by cases h⟩, fun _ => ⟨rfl, Or.inl ⟨_, rfl⟩⟩⟩
    simp [loadAnalysisDetails, onDetailError] at h
  | responded body =>
    cases body with
    | error e =>
      refine ⟨⟨fun h => ?_, fun ⟨_, h, _⟩ => by cases h⟩, fun _ => ⟨rfl, Or.inl ⟨_, rfl⟩⟩⟩
      simp [loadAnalysisDetails, onDetailError] at h
    | ok data =>
      cases hs : truthy (data.get "success") with
      | false =>
        have hcalls : (loadAnalysisDetails (.responded (.ok data)) analysisId m).showCalls =
              m.showCalls ∧
            ((∃ text, (loadAnalysisDetails (.responded (.ok data)) analysisId m).content =
                .alert text) ∨
              ∃ v, (loadAnalysisDetails (.responded (.ok data)) analysisId m).content =
                .alertValue v) := by
          cases hn : data.isNull with
          | true =>
            have hd : data = .null := by
              cases data <;> first | rfl | simp [Json.isNull] at hn
            subst hd
            exact ⟨rfl, Or.inl ⟨_, rfl⟩⟩
          | false =>
            rw [loadAnalysisDetails_failure data analysisId m hn hs]
            cases hf : failureTemplate data with
            | error e => exact ⟨rfl, Or.inl ⟨_, rfl⟩⟩
            | ok c =>
              rcases failureTemplate_content data c hf with ⟨text, rfl⟩ | ⟨v, rfl⟩
              · exact ⟨rfl, Or.inl ⟨_, rfl⟩⟩
              · exact ⟨rfl, Or.inr ⟨_, rfl⟩⟩
        refine ⟨⟨fun h => ?_, ?_⟩, fun _ => hcalls⟩
        · rw [hcalls.1] at h; omega
        · rintro ⟨d, h, h2, -⟩
          cases h
          rw [hs] at h2
          cases h2
      | true =>
        have hn := not_null_of_truthy "success" data hs
        cases hc : successTemplate data with
        | error e =>
          have hnot : ∀ content, successTemplate data ≠ .ok content := by
            intro content h; rw [hc] at h; cases h
          obtain ⟨hcontent, hcalls⟩ :=
            loadAnalysisDetails_template_error data analysisId m hs hnot
          refine ⟨⟨fun h => ?_, ?_⟩, fun _ => ⟨hcalls, Or.inl ⟨_, hcontent⟩⟩⟩
          · rw [hcalls] at h; omega
          · rintro ⟨d, h, -, h3⟩
            cases h
            obtain ⟨content, h4⟩ := (successTemplate_returns_iff data hn).mpr h3
            exact absurd h4 (hnot content)
        | ok content =>
          obtain ⟨-, hcalls⟩ := loadAnalysisDetails_template_ok data analysisId m hs content hc
          exact ⟨⟨fun _ => ⟨data, rfl, hs, (successTemplate_returns_iff data hn).mp ⟨content, hc⟩⟩,
            fun _ => hcalls⟩, fun h => absurd hcalls h⟩

/-- Witness of C27: a response with valid statistics is shown once; a failed
request leaves the modal unshown with an error panel. -/
theorem show_iff_success_rendered_witness :
    (loadAnalysisDetails
        (.responded (.ok (Examples.detailWith (some Examples.sampleStatistics) true))) 4
        Examples.freshModal).showCalls = 0 + 1 ∧
      (loadAnalysisDetails (.rejected Examples.parseError) 4 Examples.freshModal).showCalls = 0 :=
  ⟨(show_iff_success_rendered
      (.responded (.ok (Examples.detailWith (some Examples.sampleStatistics) true))) 4
      Examples.freshModal).1.mpr
      ⟨_, rfl, rfl, ⟨"ndvi", rfl⟩,
        (by
          intro key hkey v hv
          simp only [List.mem_cons, List.mem_singleton, List.not_mem_nil, or_false] at hkey
          rcases hkey with rfl | rfl | rfl | rfl | rfl | rfl <;> (cases hv; rfl)),
        Or.inr ⟨Examples.sampleStatistics, rfl,
          (by
            intro key hkey
            simp only [List.mem_cons, List.mem_singleton, List.not_mem_nil, or_false] at hkey
            rcases hkey with rfl | rfl | rfl | rfl | rfl <;> exact ⟨_, rfl⟩),
          (by
            intro key hkey
            simp only [List.mem_cons, List.mem_singleton, List.not_mem_nil, or_false] at hkey
            rcases hkey with rfl | rfl <;> exact ⟨_, rfl, rfl⟩)⟩⟩,
    ((show_iff_success_rendered (.rejected Examples.parseError) 4 Examples.freshModal).2
      (by decide)).1⟩

end Mapping

namespace Detection

/-! ### The leaf and tree forms -/

/-- C24: on a fresh submit event the leaf-detection and the tree-detection
handlers call preventDefault if and only if no file is selected; with any
selected file, whatever its MIME type and size, the default is not prevented,
no notification is shown and `showDetectionProgress` is called once. -/
theorem leaf_tree_block_iff_no_file (spinner : Button → Button) (p : Page)
    (h0 : p.defaultPrevented = false) :
    (((leafSubmit spinner p).defaultPrevented = true ↔ p.files.head? = none) ∧
        ((treeSubmit spinner p).defaultPrevented = true ↔ p.files.head? = none)) ∧
      (∀ file, p.files.head? = some file →
        ((leafSubmit spinner p).defaultPrevented = false ∧
          (leafSubmit spinner p).progressCalls = p.progressCalls + 1 ∧
          (leafSubmit spinner p).notifications = p.notifications) ∧
        ((treeSubmit spinner p).defaultPrevented = false ∧
          (treeSubmit spinner p).progressCalls = p.progressCalls + 1 ∧
          (treeSubmit spinner p).notifications = p.notifications)) ∧
      (p.files.head? = none →
        (leafSubmit spinner p).progressCalls = p.progressCalls ∧
          (treeSubmit spinner p).progressCalls = p.progressCalls) := by
  obtain ⟨f1, f2, f3, -, -⟩ := showDetectionProgress_frame spinner p
  cases hf : p.files.head? with
  | none =>
    simp [leafSubmit, treeSubmit, hf, showNotification, preventDefault]
  | some file =>
    simp [leafSubmit, treeSubmit, hf, f1, f2, f3, h0]

/-- Witness of C24: a 200 MB GIF passes both forms. -/
theorem leaf_tree_block_iff_no_file_witness :
    (leafSubmit Examples.spinner (Examples.fruitPageWith Examples.hugeGif)).defaultPrevented
        = false ∧
      (treeSubmit Examples.spinner (Examples.fruitPageWith Examples.hugeGif)).progressCalls = 1 :=
  ⟨((leaf_tree_block_iff_no_file Examples.spinner (Examples.fruitPageWith Examples.hugeGif)
      rfl).2.1 Examples.hugeGif rfl).1.1,
    ((leaf_tree_block_iff_no_file Examples.spinner (Examples.fruitPageWith Examples.hugeGif)
      rfl).2.1 Examples.hugeGif rfl).2.2.1⟩

end Detection

namespace Docs

/-! ### Tab switching -/

theorem getElem?_removeActive (member : Element → Bool) (doc : List Element) (j : Nat) :
    (removeActive member doc)[j]? =
      doc[j]?.map (fun e => if member e then { e with active := false } else e) := by
  simp [removeActive]

theorem getElem?_addActive (position : Nat) (doc : List Element) (j : Nat) :
    (addActive position doc)[j]? =
      doc[j]?.map (fun e => if j = position then { e with active := true } else e) := by
  simp [addActive]

theorem findIdx_ids (d : String) (doc : List Element) :
    doc.findIdx (fun e => e.id == some d) =
      (doc.map (fun e => e.id)).findIdx (fun x => x == some d) := by
  induction doc with
  | nil => rfl
  | cons e rest ih => simp [List.findIdx_cons, ih]

theorem getElementById_congr (doc doc2 : List Element) (d : String)
    (h : doc2.map (fun e => e.id) = doc.map (fun e => e.id)) :
    getElementById doc2 d = getElementById doc d := by
  have hlen : doc2.length = doc.length := by
    simpa using congrArg List.length h
  unfold getElementById
  rw [findIdx_ids d doc2, findIdx_ids d doc, h, hlen]

theorem ids_removeActive (member : Element → Bool) (doc : List Element) :
    (removeActive member doc).map (fun e => e.id) = doc.map (fun e => e.id) := by
  simp only [removeActive, List.map_map]
  apply List.map_congr_left
  intro e _
  simp only [Function.comp]
  split_ifs <;> rfl

theorem ids_addActive (position : Nat) (doc : List Element) :
    (addActive position doc).map (fun e => e.id) = doc.map (fun e => e.id) := by
  apply List.ext_getElem?
  intro j
  simp only [List.getElem?_map, getElem?_addActive]
  cases doc[j]? with
  | none => rfl
  | some e =>
    simp only [Option.map_some']
    split_ifs <;> rfl

theorem getElementById_some (doc : List Element) (d : String) (j : Nat)
    (h : getElementById doc d = some j) :
    d ≠ "" ∧ ∃ e, doc[j]? = some e ∧ e.id = some d := by
  unfold getElementById at h
  by_cases hd : d = ""
  · simp [hd] at h
  · simp only [hd, if_false] at h
    split_ifs at h with hlt
    simp only [Option.some.injEq] at h
    subst h
    refine ⟨hd, _, List.getElem?_eq_getElem hlt, ?_⟩
    have := @List.findIdx_getElem _ (fun e => e.id == some d) doc hlt
    simpa using this

theorem getElementById_of_unique (doc : List Element) (d : String) (j : Nat) (e : Element)
    (hd : d ≠ "") (hj : doc[j]? = some e) (hid : e.id = some d)
    (huniq : ∀ k ek, doc[k]? = some ek → ek.id = some d → k = j) :
    getElementById doc d = some j := by
  have hex : ∃ x ∈ doc, (fun e => e.id == some d) x = true :=
    ⟨e, List.getElem?_mem hj, by simp [hid]⟩
  have hlt := List.findIdx_lt_length_of_exists hex
  have hp := @List.findIdx_getElem _ (fun e => e.id == some d) doc hlt
  have hk := huniq _ _ (List.getElem?_eq_getElem hlt) (by simpa using hp)
  have hjl : j < doc.length := hk ▸ hlt
  unfold getElementById
  simp only [hd, if_false, hk, hjl, if_true]

theorem getElem?_clickTab (doc : List Element) (i : Nat) (tab : Element)
    (hi : doc[i]? = some tab) (htab : tab.isTab = true) (j : Nat) :
    (clickTab i doc)[j]? = doc[j]?.map (fun e =>
      if getElementById doc (tab.dataTab.getD "null") = some j then
        { e with active := true }
      else if e.isTabContent then { e with active := false }
      else if j = i then { e with active := true }
      else if e.isTab then { e with active := false }
      else e) := by
  have hids : (removeActive (fun e => e.isTabContent)
      (addActive i (removeActive (fun e => e.isTab) doc))).map (fun e => e.id) =
      doc.map (fun e => e.id) := by
    rw [ids_removeActive, ids_addActive, ids_removeActive]
  have hget := getElementById_congr doc _ (tab.dataTab.getD "null") hids
  unfold clickTab
  rw [hi]
  simp only [htab, if_true]
  rw [hget]
  cases ht : getElementById doc (tab.dataTab.getD "null") with
  | none =>
    simp only [getElem?_removeActive, getElem?_addActive]
    cases doc[j]? with
    | none => rfl
    | some e =>
      simp only [Option.map_some', Option.some.injEq]
      by_cases h1 : e.isTab = true <;> by_cases h2 : j = i <;>
        by_cases h3 : e.isTabContent = true <;> simp [h1, h2, h3]
  | some target =>
    simp only [getElem?_removeActive, getElem?_addActive]
    cases doc[j]? with
    | none => rfl
    | some e =>
      simp only [Option.map_some', Option.some.injEq]
      by_cases h0 : target = j
      · subst h0
        by_cases h1 : e.isTab = true <;> by_cases h2 : target = i <;>
          by_cases h3 : e.isTabContent = true <;> simp [h1, h2, h3]
      · have h0b : ¬ j = target := fun h => h0 h.symm
        by_cases h2 : j = i
        · subst h2
          by_cases h1 : e.isTab = true <;> by_cases h3 : e.isTabContent = true <;>
            simp [h0, h0b, h1, h3]
        · by_cases h1 : e.isTab = true <;> by_cases h3 : e.isTabContent = true <;>
            simp [h0, h0b, h1, h2, h3]

theorem clickTab_origin (doc : List Element) (i : Nat) (tab : Element)
    (hi : doc[i]? = some tab) (htab : tab.isTab = true) (j : Nat) (e : Element)
    (he : (clickTab i doc)[j]? = some e) :
    ∃ e0, doc[j]? = some e0 ∧ e.id = e0.id ∧ e.isTab = e0.isTab ∧
      e.isTabContent = e0.isTabContent ∧
      (e.active = true ↔
        (getElementById doc (tab.dataTab.getD "null") = some j ∨
          (e0.isTabContent = false ∧ (j = i ∨ (e0.isTab = false ∧ e0.active = true))))) := by
  rw [getElem?_clickTab doc i tab hi htab j, Option.map_eq_some'] at he
  obtain ⟨e0, h0, rfl⟩ := he
  by_cases h3 : j = i
  · subst h3
    refine ⟨e0, h0, ?_, ?_, ?_, ?_⟩ <;>
      by_cases h1 : getElementById doc (tab.dataTab.getD "null") = some j <;>
      by_cases h2 : e0.isTabContent = true <;>
      by_cases h4 : e0.isTab = true <;> simp [h1, h2, h4]
  · refine ⟨e0, h0, ?_, ?_, ?_, ?_⟩ <;>
      by_cases h1 : getElementById doc (tab.dataTab.getD "null") = some j <;>
      by_cases h2 : e0.isTabContent = true <;>
      by_cases h4 : e0.isTab = true <;> simp [h1, h2, h3, h4]

/-- C26 fails as stated: when the clicked tab's data-tab is the id of another
tab, both tabs carry 'active' after the click; when the clicked tab is a
tab-content element too, no tab carries 'active' after the click; and when the
clicked tab has no data-tab attribute, the panel whose id is 'null' carries
'active' although the tab names none. -/
theorem clickTab_breaks_on_odd_pages :
    clickTab 0 Examples.crossedTabs =
        [⟨none, true, false, some "second", true⟩,
          ⟨some "second", true, false, some "first", true⟩] ∧
      clickTab 0 Examples.selfPanel =
        [⟨none, true, true, some "usage", false⟩, ⟨some "usage", false, true, none, true⟩] ∧
      clickTab 0 Examples.unnamedTab =
        [⟨none, true, false, none, true⟩, ⟨some "null", false, true, none, true⟩] := by
  decide

/-- C26 (amended): on a page where the clicked tab is not itself a tab-content
element, it has a data-tab attribute, and that attribute names an id that no
tab carries and that at most one element carries, a click on the tab leaves,
whatever the 'active' classes were before, exactly one tab with 'active', the
clicked one, and at most one tab-content element with 'active': the one whose
id equals the data-tab value, none when there is no such element. -/
theorem clickTab_invariant (doc : List Element) (i : Nat) (tab : Element) (d : String)
    (hi : doc[i]? = some tab) (htab : tab.isTab = true) (hcontent : tab.isTabContent = false)
    (hd : tab.dataTab = some d)
    (htarget : ∀ e ∈ doc, e.isTab = true → e.id ≠ some d)
    (huniq : ∀ (j k : Nat) (ej ek : Element), doc[j]? = some ej → doc[k]? = some ek →
      ej.id = some d → ek.id = some d → j = k) :
    (∀ (j : Nat) (e : Element), (clickTab i doc)[j]? = some e → e.isTab = true → (e.active = true ↔ j = i)) ∧
      (∀ (j : Nat) (e : Element), (clickTab i doc)[j]? = some e → e.isTabContent = true →
        (e.active = true ↔ (d ≠ "" ∧ e.id = some d))) ∧
      (∀ (j k : Nat) (ej ek : Element), (clickTab i doc)[j]? = some ej → (clickTab i doc)[k]? = some ek →
        ej.isTabContent = true → ek.isTabContent = true →
        ej.active = true → ek.active = true → j = k) := by
  have hdt : tab.dataTab.getD "null" = d := by rw [hd]; rfl
  have tabs : ∀ (j : Nat) (e : Element), (clickTab i doc)[j]? = some e → e.isTab = true →
      (e.active = true ↔ j = i) := by
    intro j e he het
    obtain ⟨e0, h0, hid, htb, hct, hact⟩ := clickTab_origin doc i tab hi htab j e he
    rw [hdt] at hact
    rw [htb] at het
    have hnot : getElementById doc d ≠ some j := by
      intro hg
      obtain ⟨-, e1, h1, h1id⟩ := getElementById_some doc d j hg
      rw [h0] at h1
      cases h1
      exact htarget e0 (List.getElem?_mem h0) het h1id
    rw [hact]
    constructor
    · rintro (h | ⟨-, h | ⟨h, -⟩⟩)
      · exact absurd h hnot
      · exact h
      · rw [het] at h; exact absurd h (by decide)
    · intro hji
      subst hji
      rw [hi] at h0
      cases h0
      exact Or.inr ⟨hcontent, Or.inl rfl⟩
  have contents : ∀ (j : Nat) (e : Element), (clickTab i doc)[j]? = some e → e.isTabContent = true →
      (e.active = true ↔ (d ≠ "" ∧ e.id = some d)) := by
    intro j e he hec
    obtain ⟨e0, h0, hid, htb, hct, hact⟩ := clickTab_origin doc i tab hi htab j e he
    rw [hdt] at hact
    rw [hct] at hec
    rw [hact, hid]
    constructor
    · rintro (h | ⟨h, -⟩)
      · obtain ⟨hne, e1, h1, h1id⟩ := getElementById_some doc d j h
        rw [h0] at h1
        cases h1
        exact ⟨hne, h1id⟩
      · rw [hec] at h; exact absurd h (by decide)
    · rintro ⟨hne, hid0⟩
      exact Or.inl (getElementById_of_unique doc d j e0 hne h0 hid0
        (fun k ek hk hkid => huniq k j ek e0 hk h0 hkid hid0))
  refine ⟨tabs, contents, ?_⟩
  intro j k ej ek hj hk hcj hck haj hak
  obtain ⟨e0, h0, hid0, -⟩ := clickTab_origin doc i tab hi htab j ej hj
  obtain ⟨e1, h1, hid1, -⟩ := clickTab_origin doc i tab hi htab k ek hk
  have hj2 := ((contents j ej hj hcj).mp haj).2
  have hk2 := ((contents k ek hk hck).mp hak).2
  rw [hid0] at hj2
  rw [hid1] at hk2
  exact huniq j k e0 e1 h0 h1 hj2 hk2

theorem docsPage_usage_unique :
    ∀ (j k : Nat) (ej ek : Element), Examples.docsPage[j]? = some ej →
      Examples.docsPage[k]? = some ek → ej.id = some "usage" → ek.id = some "usage" → j = k := by
  intro j k ej ek hj hk h1 h2
  have hjl : j < 5 := (List.getElem?_eq_some.mp hj).1
  have hkl : k < 5 := (List.getElem?_eq_some.mp hk).1
  interval_cases j <;> interval_cases k <;>
    first
    | rfl
    | (simp only [Examples.docsPage, List.getElem?_cons_zero, List.getElem?_cons_succ,
        Option.some.injEq] at hj hk
       subst hj
       subst hk
       first
       | exact absurd h1 (by decide)
       | exact absurd h2 (by decide))

/-- Witness of C26 (amended): two tabs, their two panels and a navigation element, all
carrying 'active' before the second tab is clicked; afterwards the first tab
does not carry it. -/
theorem clickTab_invariant_witness :
    (clickTab 1 Examples.docsPage)[0]? =
        some ⟨none, true, false, some "install", false⟩ ∧
      ((⟨none, true, false, some "install", false⟩ : Element).active = true ↔ 0 = 1) :=
  ⟨by decide,
    (clickTab_invariant Examples.docsPage 1 ⟨none, true, false, some "usage", true⟩ "usage"
      rfl rfl rfl rfl (by decide) docsPage_usage_unique).1 0
      ⟨none, true, false, some "install", false⟩ (by decide) rfl⟩

end Docs

/-! ## Theorems: batch processing -/

theorem percentage_bounded (k n : Nat) (hk : k ≤ n) (hn : 0 < n) :
    ∃ m t : Nat,
      numMul ((JSNumber.finite (k : Int) 0).div (.finite (n : Int) 0)) (some (.finite 100 0)) =
        some (.finite (m : Int) (-(t : Int))) ∧ m ≤ 100 * 2 ^ t := by
  have hdiv := div_of_nonneg (k : Int) (n : Int) 0 0 (by omega) (by omega)
  simp only [sub_self, Int.toNat_zero, pow_zero, Nat.mul_one, Int.natAbs_ofNat] at hdiv
  obtain ⟨a, t, hr, ha, -, -, -⟩ :=
    roundBinary64_bounded k n 1 0 hn (by simpa using hk) (by norm_num) (by norm_num)
  obtain ⟨m, t2, hr2, hm, -, -, -⟩ :=
    roundBinary64_bounded (a * 100) (2 ^ t) 100 6 (Nat.pow_pos (by decide)) (by omega)
      (by norm_num) (by norm_num)
  refine ⟨m, t2, ?_, hm⟩
  rw [hdiv, hr]
  simp only [numMul, Option.bind]
  rw [mul_hundred, hr2]

namespace Detection

theorem tick_below (s : BatchPage) (hi : s.interval = true) (h : s.processed + 1 < s.total) :
    tick s = { s with
      processed := s.processed + 1,
      barWidth := .percent (numMul ((JSNumber.finite ((s.processed + 1 : Nat) : Int) 0).div
        (.finite (s.total : Int) 0)) (some (.finite 100 0))),
      barText := toString (s.processed + 1) ++ "/" ++ toString s.total ++ " işlendi" } := by
  have h2 : ¬ (s.processed + 1 ≥ s.total) := by omega
  simp [tick, hi, h2]

theorem tick_last (s : BatchPage) (hi : s.interval = true) (h : s.total ≤ s.processed + 1) :
    tick s = { s with
      processed := s.processed + 1,
      barWidth := .percent (numMul ((JSNumber.finite ((s.processed + 1 : Nat) : Int) 0).div
        (.finite (s.total : Int) 0)) (some (.finite 100 0))),
      barText := toString (s.processed + 1) ++ "/" ++ toString s.total ++ " işlendi",
      interval := false,
      notifications := s.notifications ++
        [⟨toString s.total ++ " görüntü başarıyla işlendi.", "success"⟩],
      hideTimers := s.hideTimers + 1 } := by
  have h2 : s.processed + 1 ≥ s.total := h
  simp [tick, hi, h2]

theorem tick_cleared (s : BatchPage) (hi : s.interval = false) : tick s = s := by
  simp [tick, hi]

theorem ticks_running (p : BatchPage) (h0 : p.files.length ≠ 0) :
    ∀ k, k < p.files.length →
      tick^[k] (processBatchImages p) = { p with
        display := "block",
        total := p.files.length,
        interval := true,
        processed := k,
        barWidth := if k = 0 then p.barWidth else
          .percent (numMul ((JSNumber.finite (k : Int) 0).div
            (.finite (p.files.length : Int) 0)) (some (.finite 100 0))),
        barText := if k = 0 then p.barText else
          toString k ++ "/" ++ toString p.files.length ++ " işlendi" } := by
  intro k
  induction k with
  | zero =>
    intro _
    simp [processBatchImages, h0]
  | succ k ih =>
    intro hk
    rw [Function.iterate_succ_apply', ih (by omega), tick_below _ rfl (by simpa using hk)]
    simp

theorem ticks_done (p : BatchPage) (h0 : p.files.length ≠ 0) :
    tick^[p.files.length] (processBatchImages p) = { p with
      display := "block",
      total := p.files.length,
      interval := false,
      processed := p.files.length,
      barWidth := .percent (numMul ((JSNumber.finite (p.files.length : Int) 0).div
        (.finite (p.files.length : Int) 0)) (some (.finite 100 0))),
      barText := toString p.files.length ++ "/" ++ toString p.files.length ++ " işlendi",
      notifications := p.notifications ++
        [⟨toString p.files.length ++ " görüntü başarıyla işlendi.", "success"⟩],
      hideTimers := p.hideTimers + 1 } := by
  obtain ⟨n, hn⟩ : ∃ n, p.files.length = n + 1 := ⟨p.files.length - 1, by omega⟩
  have hrun := ticks_running p h0 n (by omega)
  rw [hn] at hrun ⊢
  rw [Function.iterate_succ_apply', hrun, tick_last _ rfl (by simp)]

theorem ticks_after_done (p : BatchPage) (h0 : p.files.length ≠ 0) (j : Nat) :
    tick^[p.files.length + j] (processBatchImages p) =
      tick^[p.files.length] (processBatchImages p) := by
  induction j with
  | zero => rfl
  | succ j ih =>
    rw [← Nat.add_assoc, Function.iterate_succ_apply', ih]
    apply tick_cleared
    rw [ticks_done p h0]

theorem toRat_le_hundred (m t : Nat) (h : m ≤ 100 * 2 ^ t) :
    (JSNumber.finite (m : Int) (-(t : Int))).toRat ≤ 100 := by
  have hp : (0 : ℚ) < 2 ^ t := by positivity
  have hq : (m : ℚ) ≤ 100 * 2 ^ t := by exact_mod_cast h
  simp only [JSNumber.toRat, Int.cast_natCast, zpow_neg, zpow_natCast]
  rw [← div_eq_mul_inv, div_le_iff₀ hp]
  exact hq

/-- C25: for a batch of n >= 1 selected files `processBatchImages` shows the
progress bar and starts the interval; after tick k (1 <= k <= n) the bar text is
'k/n işlendi' and its width is the Number (k / n) * 100 followed by '%', a
finite value of at most 100; the interval is still set after tick k < n and
cleared after tick n, the success notification is shown at tick n and not
before, and further ticks do not happen.  With no file selected the function
only shows the warning: no timer is started and the bar is not shown. -/
theorem batch_runs_n_ticks (p : BatchPage) :
    (p.files.length = 0 →
      processBatchImages p = { p with notifications := p.notifications ++
        [⟨"Lütfen en az bir görüntü seçin.", "warning"⟩] }) ∧
    (1 ≤ p.files.length →
      ((processBatchImages p).interval = true ∧ (processBatchImages p).display = "block" ∧
        (processBatchImages p).notifications = p.notifications) ∧
      (∀ k : Nat, 1 ≤ k → k ≤ p.files.length →
        (tick^[k] (processBatchImages p)).barText =
            toString k ++ "/" ++ toString p.files.length ++ " işlendi" ∧
          (tick^[k] (processBatchImages p)).barWidth =
            .percent (numMul ((JSNumber.finite (k : Int) 0).div
              (.finite (p.files.length : Int) 0)) (some (.finite 100 0))) ∧
          (∃ m t : Nat,
            numMul ((JSNumber.finite (k : Int) 0).div (.finite (p.files.length : Int) 0))
                (some (.finite 100 0)) = some (.finite (m : Int) (-(t : Int))) ∧
              (JSNumber.finite (m : Int) (-(t : Int))).toRat ≤ 100) ∧
          (tick^[k] (processBatchImages p)).interval = decide (k < p.files.length) ∧
          (tick^[k] (processBatchImages p)).notifications =
            if k = p.files.length then p.notifications ++
              [⟨toString p.files.length ++ " görüntü başarıyla işlendi.", "success"⟩]
            else p.notifications) ∧
      (∀ j : Nat, tick^[p.files.length + j] (processBatchImages p) =
        tick^[p.files.length] (processBatchImages p))) := by
  constructor
  · intro h
    simp [processBatchImages, h]
  · intro hn
    have h0 : p.files.length ≠ 0 := by omega
    refine ⟨?_, ?_, ticks_after_done p h0⟩
    · simp [processBatchImages, h0]
    · intro k hk1 hkn
      obtain ⟨m, t, hm, hle⟩ := percentage_bounded k p.files.length hkn (by omega)
      have hbound : ∃ m t : Nat,
          numMul ((JSNumber.finite (k : Int) 0).div (.finite (p.files.length : Int) 0))
              (some (.finite 100 0)) = some (.finite (m : Int) (-(t : Int))) ∧
            (JSNumber.finite (m : Int) (-(t : Int))).toRat ≤ 100 :=
        ⟨m, t, hm, toRat_le_hundred m t hle⟩
      have hk0 : k ≠ 0 := by omega
      rcases Nat.lt_or_eq_of_le hkn with hlt | heq
      · rw [ticks_running p h0 k hlt]
        have hne : k ≠ p.files.length := by omega
        exact ⟨by simp [hk0], by simp [hk0], hbound, by simp [hlt], by simp [hne]⟩
      · subst heq
        rw [ticks_done p h0]
        exact ⟨rfl, rfl, hbound, by simp, by simp⟩

/-- Witness of C25: a batch of three files, after its second tick. -/
theorem batch_runs_n_ticks_witness :
    (tick^[2] (processBatchImages Examples.batchOfThree)).barText = "2/3 işlendi" ∧
      (tick^[2] (processBatchImages Examples.batchOfThree)).interval = true :=
  ⟨(((batch_runs_n_ticks Examples.batchOfThree).2 (by decide)).2.1 2 (by decide)
      (by decide)).1,
    (((batch_runs_n_ticks Examples.batchOfThree).2 (by decide)).2.1 2 (by decide)
      (by decide)).2.2.2.1⟩

end Detection

end FarmVision
